import Mathlib

/-!
# Faux Nixie Clock firmware: persistent storage and websocket command framing

A shallow embedding of

* `firmware/components/platform/ps_utilities.c` (persistent storage module), and
* `firmware/components/utilities/ws_cmd_utilities.c` (websocket packet framing),

followed by theorems about the embedded functions.

Conventions.  A C byte array is a `List Nat` whose entries are bytes; `uint8_t`
arithmetic is written with an explicit `% 256`.  The file-scope variables of
`ps_utilities.c` form the record `PsState`.  Everything the module reaches through
the gCore driver or the ESP-IDF (NVRAM, control registers, factory MAC address) is
the record `Hw`, which also keeps the list of driver calls issued so far.
-/

namespace FauxNixie

/-! ## Constants of `ps_utilities.h` and `ps_utilities.c` -/

def PS_NUM_CONFIGS : Nat := 3

def PS_CONFIG_TYPE_GUI : Nat := 0
def PS_CONFIG_TYPE_NET : Nat := 1
def PS_CONFIG_TYPE_TZ : Nat := 2

def PS_RAM_SIZE : Nat := 320
def PS_RAM_STARTADDR : Nat := 0

def PS_DEFAULT_HOUR_MODE_24 : Bool := false
def PS_DEFAULT_BACKLIGHT : Nat := 80

/-- The bytes of a C string literal, without the terminating zero. -/
def cstr (s : String) : List Nat := s.toList.map Char.toNat

def PS_DEFAULT_TZ : List Nat := cstr "MST7MDT,M3.2.0,M11.1.0"
def PS_DEFAULT_AP_SSID : List Nat := cstr "NixieClock-"

def PS_TZ_MAX_LEN : Nat := 80
def PS_SSID_MAX_LEN : Nat := 32
def PS_PW_MAX_LEN : Nat := 63

def PS_MAGIC_WORD_0 : Nat := 0x12
def PS_MAGIC_WORD_1 : Nat := 0x34
def PS_LAYOUT_VERSION : Nat := 1

def PS_MAGIC_WORD_0_ADDR : Nat := 0
def PS_MAGIC_WORD_1_ADDR : Nat := 1
def PS_LAYOUT_VERSION_ADDR : Nat := 2
def PS_FIRST_DATA_ADDR : Nat := 3
def PS_CHECKSUM_ADDR : Nat := PS_RAM_SIZE - 1
def PS_MAX_DATA_BYTES : Nat := PS_RAM_SIZE - 4

/-! ## Layout of the packed config structures

All members are `bool`, `char` or `uint8_t`, so there is no padding. -/

/-- The value of `sizeof(gui_config_t)`: `hour_mode_24`, `lcd_brightness`. -/
def SIZEOF_gui_config_t : Nat := 1 + 1

/-- The value of `sizeof(net_config_t)`: three flags, two SSIDs, two passwords,
three IPv4 addresses. -/
def SIZEOF_net_config_t : Nat :=
  1 + 1 + 1 + (PS_SSID_MAX_LEN + 1) + (PS_SSID_MAX_LEN + 1)
    + (PS_PW_MAX_LEN + 1) + (PS_PW_MAX_LEN + 1) + 4 + 4 + 4

/-- The value of `sizeof(tz_config_t)`. -/
def SIZEOF_tz_config_t : Nat := PS_TZ_MAX_LEN + 1

/-! Member offsets inside `gui_config_t`. -/
def OFS_hour_mode_24 : Nat := 0
def OFS_lcd_brightness : Nat := 1

/-! Member offsets inside `net_config_t`. -/
def OFS_mdns_en : Nat := 0
def OFS_sta_mode : Nat := 1
def OFS_sta_static_ip : Nat := 2
def OFS_ap_ssid : Nat := 3
def OFS_sta_ssid : Nat := OFS_ap_ssid + (PS_SSID_MAX_LEN + 1)
def OFS_ap_pw : Nat := OFS_sta_ssid + (PS_SSID_MAX_LEN + 1)
def OFS_sta_pw : Nat := OFS_ap_pw + (PS_PW_MAX_LEN + 1)
def OFS_ap_ip_addr : Nat := OFS_sta_pw + (PS_PW_MAX_LEN + 1)
def OFS_sta_ip_addr : Nat := OFS_ap_ip_addr + 4
def OFS_sta_netmask : Nat := OFS_sta_ip_addr + 4

/-! ## Byte-array primitives -/

/-- Store the bytes `bs` into `dst` at consecutive indices starting at `off`
(`memcpy(&dst[off], bs, len bs)`, one byte at a time). -/
def storeBytes : List Nat → Nat → List Nat → List Nat
  | dst, _, [] => dst
  | dst, off, b :: bs => storeBytes (dst.set off b) (off + 1) bs

/-- The `n` bytes of `buf` starting at index `off`. -/
def slice (buf : List Nat) (off n : Nat) : List Nat := (buf.drop off).take n

/-- The loop `for (i=0; i<n; i++) dst[i] = src[i];`. -/
def copyBytes (dst src : List Nat) (n : Nat) : List Nat :=
  (List.range n).foldl (fun cb i => cb.set i (src.getD i 0)) dst

/-- A C `bool` as the byte it is stored as. -/
def boolByte (b : Bool) : Nat := if b then 1 else 0

/-! ## Hardware environment -/

/-- One call into the gCore driver. -/
inductive GcoreCall where
  | get_nvram_bytes (addr len : Nat)
  | set_nvram_bytes (addr : Nat) (data : List Nat)
  | set_nvram_byte (addr : Nat) (data : Nat)
  | set_reg8 (reg val : Nat)
  | get_reg8 (reg : Nat)
  deriving DecidableEq, Repr

/-- Modelled from the spec: the gCore driver (`gcore.h`, `gcore.c`) and the ESP-IDF call
`esp_efuse_mac_get_default` are not among the sources.  Section 6 gives the backing store as
`read(start, len) -> bytes`, `write(start, bytes) -> bool` and a commit that is triggered and
then polled.  The record holds what these calls deliver and remembers the calls made:
`ack n` is the success flag of the driver call number `n` (counted from 0 in `log`),
`regval n` the register byte call `n` delivers when it is a successful register read,
`nvram` the bytes an NVRAM read puts in the destination buffer, `mac` the six bytes of the
factory MAC address.  The two register constants of `gcore.h` are fields as well. -/
structure Hw where
  mac : List Nat
  nvram : List Nat
  ack : Nat → Bool
  regval : Nat → Nat
  GCORE_REG_NV_CTRL : Nat
  GCORE_NVRAM_WR_TRIG : Nat
  log : List GcoreCall

/-- Modelled from the spec: `gcore_get_nvram_bytes(addr, buf, len)`, the backing store's
`read(start, len) -> bytes`; the destination receives `len` bytes. -/
def gcore_get_nvram_bytes (addr len : Nat) (h : Hw) : (Bool × List Nat) × Hw :=
  ((h.ack h.log.length, (List.range len).map fun i => h.nvram.getD (addr + i) 0 % 256),
   { h with log := h.log ++ [GcoreCall.get_nvram_bytes addr len] })

/-- Modelled from the spec: `gcore_set_nvram_bytes(addr, buf, len)`, the backing store's
`write(start, bytes) -> bool`. -/
def gcore_set_nvram_bytes (addr : Nat) (data : List Nat) (h : Hw) : Bool × Hw :=
  (h.ack h.log.length, { h with log := h.log ++ [GcoreCall.set_nvram_bytes addr data] })

/-- Modelled from the spec: `gcore_set_nvram_byte(addr, data)`, a one-byte
`write(start, bytes) -> bool`. -/
def gcore_set_nvram_byte (addr : Nat) (data : Nat) (h : Hw) : Bool × Hw :=
  (h.ack h.log.length, { h with log := h.log ++ [GcoreCall.set_nvram_byte addr data] })

/-- Modelled from the spec: `gcore_set_reg8(reg, val)`, used to trigger the commit to
durable flash. -/
def gcore_set_reg8 (reg val : Nat) (h : Hw) : Bool × Hw :=
  (h.ack h.log.length, { h with log := h.log ++ [GcoreCall.set_reg8 reg val] })

/-- Modelled from the spec: `gcore_get_reg8(reg, &dat)`, used to poll for completion.  A
successful read stores the delivered byte in `dat`; a failed read leaves `dat` as it was. -/
def gcore_get_reg8 (reg : Nat) (dat : Nat) (h : Hw) : (Bool × Nat) × Hw :=
  ((h.ack h.log.length, if h.ack h.log.length then h.regval h.log.length % 256 else dat),
   { h with log := h.log ++ [GcoreCall.get_reg8 reg] })

/-- The ESP-IDF call `esp_efuse_mac_get_default(sys_mac_addr)`: six bytes. -/
def esp_efuse_mac_get_default (h : Hw) : List Nat :=
  (List.range 6).map fun i => h.mac.getD i 0 % 256

/-! ## State of `ps_utilities.c` -/

/-- The update kinds of `enum ps_update_types_t`. -/
inductive ps_update_types_t where
  | FULL
  | GUI
  | NET
  | TZ
  deriving DecidableEq, Repr

/-- The record `ps_sub_region_t`: two `uint8_t[PS_NUM_CONFIGS]` arrays. -/
structure ps_sub_region_t where
  start_index : List Nat
  length : List Nat
  deriving DecidableEq, Repr

/-- The file-scope variables of `ps_utilities.c`. -/
structure PsState where
  ps_shadow_buffer : List Nat
  ps_check_buffer : List Nat
  ps_sub_regions : ps_sub_region_t
  deriving DecidableEq, Repr

/-! ## Internal functions of `ps_utilities.c` -/

def ps_nibble_to_ascii (n : Nat) : Nat :=
  let n := n % 256 % 16
  if n < 10 then 48 + n else 65 + n - 10

def _ps_read_array (s : PsState) (h : Hw) : Bool × PsState × Hw :=
  let r := gcore_get_nvram_bytes PS_RAM_STARTADDR PS_RAM_SIZE h
  (r.1.1 == true, { s with ps_shadow_buffer := r.1.2 }, r.2)

def _ps_write_bytes_to_gcore (start_addr data_len : Nat) (s : PsState) (h : Hw) : Bool × Hw :=
  gcore_set_nvram_bytes (PS_RAM_STARTADDR + start_addr)
    (slice s.ps_shadow_buffer start_addr data_len) h

/-- The shared body of the `GUI`, `NET` and `TZ` cases of `_ps_write_array`. -/
def _ps_write_array_region (index : Nat) (s : PsState) (h : Hw) : Bool × Hw :=
  let r := _ps_write_bytes_to_gcore (s.ps_sub_regions.start_index.getD index 0)
             (s.ps_sub_regions.length.getD index 0) s h
  if r.1 then
    gcore_set_nvram_byte (PS_RAM_STARTADDR + PS_CHECKSUM_ADDR)
      (s.ps_shadow_buffer.getD PS_CHECKSUM_ADDR 0) r.2
  else
    (false, r.2)

def _ps_write_array (t : ps_update_types_t) (s : PsState) (h : Hw) : Bool × Hw :=
  match t with
  | .FULL => _ps_write_bytes_to_gcore 0 PS_RAM_SIZE s h
  | .GUI => _ps_write_array_region PS_CONFIG_TYPE_GUI s h
  | .NET => _ps_write_array_region PS_CONFIG_TYPE_NET s h
  | .TZ => _ps_write_array_region PS_CONFIG_TYPE_TZ s h

/-- The loop `for (i=0; i<PS_SSID_MAX_LEN+1; i++)` of `_ps_init_config_memory`, which
clears index `i` of all four text fields. -/
def _ps_init_net_text_fields (buf : List Nat) (base : Nat) : List Nat :=
  (List.range (PS_SSID_MAX_LEN + 1)).foldl
    (fun b i =>
      (((b.set (base + OFS_ap_ssid + i) 0).set (base + OFS_ap_pw + i) 0).set
        (base + OFS_sta_ssid + i) 0).set (base + OFS_sta_pw + i) 0)
    buf

/-- The bytes `sprintf(ap_ssid, "%s%c%c%c%c", PS_DEFAULT_AP_SSID, ...)` writes, the
terminating zero included; `mac` is `sys_mac_addr` after its last byte was incremented. -/
def default_ap_ssid_bytes (mac : List Nat) : List Nat :=
  PS_DEFAULT_AP_SSID ++
    [ps_nibble_to_ascii (mac.getD 4 0 / 16), ps_nibble_to_ascii (mac.getD 4 0),
     ps_nibble_to_ascii (mac.getD 5 0 / 16), ps_nibble_to_ascii (mac.getD 5 0), 0]

def _ps_init_config_memory (index : Nat) (s : PsState) (h : Hw) : PsState :=
  let base := s.ps_sub_regions.start_index.getD index 0
  let buf := s.ps_shadow_buffer
  if index = PS_CONFIG_TYPE_GUI then
    let buf := buf.set (base + OFS_hour_mode_24) (boolByte PS_DEFAULT_HOUR_MODE_24)
    let buf := buf.set (base + OFS_lcd_brightness) PS_DEFAULT_BACKLIGHT
    { s with ps_shadow_buffer := buf }
  else if index = PS_CONFIG_TYPE_NET then
    let sys_mac_addr := esp_efuse_mac_get_default h
    let sys_mac_addr := sys_mac_addr.set 5 ((sys_mac_addr.getD 5 0 + 1) % 256)
    let buf := buf.set (base + OFS_mdns_en) (boolByte true)
    let buf := buf.set (base + OFS_sta_mode) (boolByte false)
    let buf := buf.set (base + OFS_sta_static_ip) (boolByte false)
    let buf := _ps_init_net_text_fields buf base
    let buf := storeBytes buf (base + OFS_ap_ssid) (default_ap_ssid_bytes sys_mac_addr)
    let buf := buf.set (base + OFS_ap_ip_addr + 3) 192
    let buf := buf.set (base + OFS_ap_ip_addr + 2) 168
    let buf := buf.set (base + OFS_ap_ip_addr + 1) 4
    let buf := buf.set (base + OFS_ap_ip_addr + 0) 1
    let buf := buf.set (base + OFS_sta_ip_addr + 3) 192
    let buf := buf.set (base + OFS_sta_ip_addr + 2) 168
    let buf := buf.set (base + OFS_sta_ip_addr + 1) 4
    let buf := buf.set (base + OFS_sta_ip_addr + 0) 2
    let buf := buf.set (base + OFS_sta_netmask + 3) 255
    let buf := buf.set (base + OFS_sta_netmask + 2) 255
    let buf := buf.set (base + OFS_sta_netmask + 1) 255
    let buf := buf.set (base + OFS_sta_netmask + 0) 0
    { s with ps_shadow_buffer := buf }
  else if index = PS_CONFIG_TYPE_TZ then
    -- strcpy(tz_configP->tz, PS_DEFAULT_TZ): the characters and the terminating zero
    { s with ps_shadow_buffer := storeBytes buf base (PS_DEFAULT_TZ ++ [0]) }
  else
    s

def _ps_compute_checksum (s : PsState) : Nat :=
  (List.range PS_CHECKSUM_ADDR).foldl (fun cs i => (cs + s.ps_shadow_buffer.getD i 0) % 256) 0

def _ps_init_array (s : PsState) (h : Hw) : PsState :=
  let s := { s with ps_shadow_buffer := List.replicate PS_RAM_SIZE 0 }
  let s := { s with ps_shadow_buffer := s.ps_shadow_buffer.set PS_MAGIC_WORD_0_ADDR PS_MAGIC_WORD_0 }
  let s := { s with ps_shadow_buffer := s.ps_shadow_buffer.set PS_MAGIC_WORD_1_ADDR PS_MAGIC_WORD_1 }
  let s := { s with ps_shadow_buffer :=
                      s.ps_shadow_buffer.set PS_LAYOUT_VERSION_ADDR PS_LAYOUT_VERSION }
  let s := _ps_init_config_memory PS_CONFIG_TYPE_GUI s h
  let s := _ps_init_config_memory PS_CONFIG_TYPE_NET s h
  let s := _ps_init_config_memory PS_CONFIG_TYPE_TZ s h
  { s with ps_shadow_buffer := s.ps_shadow_buffer.set PS_CHECKSUM_ADDR (_ps_compute_checksum s) }

def _ps_valid_magic_word (s : PsState) : Bool :=
  s.ps_shadow_buffer.getD PS_MAGIC_WORD_0_ADDR 0 == PS_MAGIC_WORD_0 &&
  s.ps_shadow_buffer.getD PS_MAGIC_WORD_1_ADDR 0 == PS_MAGIC_WORD_1

/-! ## API of `ps_utilities.c` -/

/-- The sub-region table `ps_init` sets up (`uint8_t` entries). -/
def ps_init_sub_regions : ps_sub_region_t :=
  let start_gui := PS_FIRST_DATA_ADDR % 256
  let len_gui := SIZEOF_gui_config_t % 256
  let start_net := (start_gui + len_gui) % 256
  let len_net := SIZEOF_net_config_t % 256
  let start_tz := (start_net + len_net) % 256
  let len_tz := SIZEOF_tz_config_t % 256
  { start_index := [start_gui, start_net, start_tz], length := [len_gui, len_net, len_tz] }

def ps_init (s : PsState) (h : Hw) : Bool × PsState × Hw :=
  let s := { s with ps_sub_regions := ps_init_sub_regions }
  let n := SIZEOF_gui_config_t + SIZEOF_net_config_t + SIZEOF_tz_config_t
  if n > PS_MAX_DATA_BYTES then
    (false, s, h)
  else
    -- a failed read is only logged
    let r := _ps_read_array s h
    let s := r.2.1
    let h := r.2.2
    let s := { s with ps_check_buffer :=
                        copyBytes s.ps_check_buffer s.ps_shadow_buffer PS_RAM_SIZE }
    if !_ps_valid_magic_word s ||
        _ps_compute_checksum s != s.ps_shadow_buffer.getD PS_CHECKSUM_ADDR 0 then
      let s := _ps_init_array s h
      let w := _ps_write_array .FULL s h
      if !w.1 then (false, s, w.2) else (true, s, w.2)
    else
      (true, s, h)

/-- The dirty check of `ps_save_to_flash`: some index below `PS_RAM_SIZE` at which the
check buffer and the shadow buffer differ. -/
def ps_dirty (s : PsState) : Bool :=
  (List.range PS_RAM_SIZE).any fun i => s.ps_check_buffer.getD i 0 != s.ps_shadow_buffer.getD i 0

/-- The loop `while (reg != 0) { vTaskDelay(..); gcore_get_reg8(GCORE_REG_NV_CTRL, &reg); }`
run for at most `fuel` register reads.  The flag tells whether the loop has ended (`reg` read
as zero) within these reads; the hardware record holds the reads made so far either way. -/
def ps_save_poll : Nat → Nat → Hw → Bool × Hw
  | fuel, reg, h =>
    if reg = 0 then (true, h)
    else
      match fuel with
      | 0 => (false, h)
      | fuel + 1 =>
        let r := gcore_get_reg8 h.GCORE_REG_NV_CTRL reg h
        ps_save_poll fuel r.1.2 r.2

/-- The procedure `ps_save_to_flash`, with `fuel` bounding the reads of the polling loop.
The state component is `none` when the loop has not ended within `fuel` reads (the procedure
is still polling); the hardware record holds the driver calls made so far either way. -/
def ps_save_to_flash (fuel : Nat) (s : PsState) (h : Hw) : Option PsState × Hw :=
  if ps_dirty s then
    let t := gcore_set_reg8 h.GCORE_REG_NV_CTRL h.GCORE_NVRAM_WR_TRIG h
    if t.1 then
      let p := ps_save_poll fuel 1 t.2
      if p.1 then
        (some { s with ps_check_buffer :=
                         copyBytes s.ps_check_buffer s.ps_shadow_buffer PS_RAM_SIZE },
         p.2)
      else
        (none, p.2)
    else
      (some s, t.2)
  else
    (some s, h)

def ps_get_config (index : Int) (cfg : List Nat) (s : PsState) : Bool × List Nat :=
  if index ≥ 0 ∧ index < PS_NUM_CONFIGS then
    (true, storeBytes cfg 0
             (slice s.ps_shadow_buffer (s.ps_sub_regions.start_index.getD index.toNat 0)
               (s.ps_sub_regions.length.getD index.toNat 0)))
  else
    (false, cfg)

/-- The `switch (index)` of `ps_set_config` and `ps_reinit_config`. -/
def ps_update_type_of (index : Int) : ps_update_types_t :=
  if index = PS_CONFIG_TYPE_GUI then .GUI
  else if index = PS_CONFIG_TYPE_NET then .NET
  else .TZ

def ps_set_config (index : Int) (cfg : List Nat) (s : PsState) (h : Hw) : Bool × PsState × Hw :=
  if index ≥ 0 ∧ index < PS_NUM_CONFIGS then
    let s := { s with ps_shadow_buffer :=
                        storeBytes s.ps_shadow_buffer (s.ps_sub_regions.start_index.getD index.toNat 0)
                          (slice cfg 0 (s.ps_sub_regions.length.getD index.toNat 0)) }
    let t := ps_update_type_of index
    let s := { s with ps_shadow_buffer :=
                        s.ps_shadow_buffer.set PS_CHECKSUM_ADDR (_ps_compute_checksum s) }
    -- a failed write is only logged
    let w := _ps_write_array t s h
    (true, s, w.2)
  else
    (false, s, h)

def ps_reinit_config (index : Int) (s : PsState) (h : Hw) : Bool × PsState × Hw :=
  if index ≥ 0 ∧ index < PS_NUM_CONFIGS then
    let s := _ps_init_config_memory index.toNat s h
    let t := ps_update_type_of index
    let s := { s with ps_shadow_buffer :=
                        s.ps_shadow_buffer.set PS_CHECKSUM_ADDR (_ps_compute_checksum s) }
    -- a failed write is only logged
    let w := _ps_write_array t s h
    (true, s, w.2)
  else
    (false, s, h)

def ps_reinit_all (s : PsState) (h : Hw) : Bool × PsState × Hw :=
  let ret := true
  let r := ps_reinit_config PS_CONFIG_TYPE_GUI s h
  let ret := ret && r.1
  let r := ps_reinit_config PS_CONFIG_TYPE_NET r.2.1 r.2.2
  let ret := ret && r.1
  let r := ps_reinit_config PS_CONFIG_TYPE_TZ r.2.1 r.2.2
  let ret := ret && r.1
  (ret, r.2.1, r.2.2)

/-- The procedure `ps_set_factory_default`. -/
def ps_set_factory_default (fuel : Nat) (s : PsState) (h : Hw) : Option PsState × Hw :=
  let s := _ps_init_array s h
  -- a failed write is only logged
  let w := _ps_write_array .FULL s h
  ps_save_to_flash fuel s w.2

/-! ## Websocket packet framing (`ws_cmd_utilities.c`) -/

def WS_PKT_LEN_OFFSET : Nat := 0
def WS_PKT_CTYPE_OFFSET : Nat := 4
def WS_PKT_ID_OFFSET : Nat := 8
def WS_PKT_DTYPE_OFFSET : Nat := 12
def WS_PKT_DATA_OFFSET : Nat := 16

def MIN_WS_PKT_LEN : Nat := 16
def MAX_WS_PKT_LEN : Nat := MIN_WS_PKT_LEN + 8192
def WS_TX_BUFFER_LEN : Nat := MAX_WS_PKT_LEN
def WS_RX_BUFFER_LEN : Nat := MIN_WS_PKT_LEN + 8192
def WS_MAX_TX_PKTS : Nat := 4

/-- The expression `ntohl(*((uint32_t*) &data[off]))`: the 32-bit value whose big-endian
(network order) encoding is the four bytes of `data` from index `off`. -/
def ntohl_at (data : List Nat) (off : Nat) : Nat :=
  (data.getD off 0 % 256) * 16777216 + (data.getD (off + 1) 0 % 256) * 65536
    + (data.getD (off + 2) 0 % 256) * 256 + data.getD (off + 3) 0 % 256

/-- The signature of `cmd_process_received_cmd(cmd_type, cmd_id, data_type, len, data)` of
`cmd_utilities.c`, which is not among the sources: the dispatcher works on a state `σ` of its
own and returns a flag.  The pair (`len`, pointer) is passed as the length and the `len`
bytes the pointer designates. -/
abbrev Dispatcher (σ : Type) : Type := Nat → Nat → Nat → Nat → List Nat → σ → Bool × σ

def ws_cmd_process_socket_rx_data {σ : Type} (cmd_process_received_cmd : Dispatcher σ)
    (len : Nat) (data : List Nat) (st : σ) : Bool × σ :=
  if len < MIN_WS_PKT_LEN then
    (false, st)
  else
    let dlen := ntohl_at data WS_PKT_LEN_OFFSET
    if len ≠ dlen then
      (false, st)
    else
      let cmd_type := ntohl_at data WS_PKT_CTYPE_OFFSET
      let cmd_id := ntohl_at data WS_PKT_ID_OFFSET
      let data_type := ntohl_at data WS_PKT_DTYPE_OFFSET
      let dlen := len - WS_PKT_DATA_OFFSET
      cmd_process_received_cmd cmd_type cmd_id data_type dlen
        (slice data WS_PKT_DATA_OFFSET dlen) st

/-! ## Outbound packet ring (`ws_cmd_utilities.c`) -/

/-- The four bytes that `*p = htonl(x)` stores at `p` for a `uint32_t` value `x`: the
big-endian (network order) encoding of `x` modulo 2^32. -/
def htonl_bytes (x : Nat) : List Nat :=
  [x / 16777216 % 256, x / 65536 % 256, x / 256 % 256, x % 256]

/-- The record `tx_buffer_t`: a heap block of `WS_TX_BUFFER_LEN` bytes and the length of the
packet it holds. -/
structure tx_buffer_t where
  buf : List Nat
  len : Nat
  deriving DecidableEq, Repr

/-- The file-scope variables of the outbound ring in `ws_cmd_utilities.c`. -/
structure WsState where
  tx_buffer : List tx_buffer_t
  tx_buffer_push_index : Nat
  tx_buffer_pop_index : Nat
  tx_buffer_num_entries : Nat
  deriving DecidableEq, Repr

/-- The allocation part of `ws_gui_cmd_init` for the outbound ring (allocations succeeding;
the content of a fresh block is taken as zero). -/
def ws_tx_init : WsState :=
  { tx_buffer := List.replicate WS_MAX_TX_PKTS
      { buf := List.replicate WS_TX_BUFFER_LEN 0, len := 0 }
    tx_buffer_push_index := 0
    tx_buffer_pop_index := 0
    tx_buffer_num_entries := 0 }

/-- The function `ws_cmd_get_tx_data(&len, &data)`: `len` and `data` are the caller's
variables before the call; `data` stands for the bytes the returned pointer designates, the
block of the popped slot.  Calls are taken one at a time (the mutex is not modelled). -/
def ws_cmd_get_tx_data (len : Nat) (data : List Nat) (st : WsState) :
    (Bool × Nat × List Nat) × WsState :=
  let valid := decide (st.tx_buffer_num_entries > 0)
  if valid then
    let slot := st.tx_buffer.getD st.tx_buffer_pop_index { buf := [], len := 0 }
    let pop := st.tx_buffer_pop_index + 1
    let pop := if pop ≥ WS_MAX_TX_PKTS then 0 else pop
    ((valid, slot.len, slot.buf),
     { st with tx_buffer_pop_index := pop
               tx_buffer_num_entries := st.tx_buffer_num_entries - 1 })
  else
    ((valid, len, data), st)

/-- The function `ws_cmd_send_handler(cmd_type, cmd_id, data_type, len, data)`, with the three
enumeration arguments given as their `uint32_t` values. -/
def ws_cmd_send_handler (cmd_type cmd_id data_type len : Nat) (data : List Nat)
    (st : WsState) : Bool × WsState :=
  if st.tx_buffer_num_entries = WS_MAX_TX_PKTS then
    (false, st)
  else
    let i := st.tx_buffer_push_index
    let slot := st.tx_buffer.getD i { buf := [], len := 0 }
    let slot := { slot with len := (WS_PKT_DATA_OFFSET + len) % 4294967296 }
    let push := st.tx_buffer_push_index + 1
    let push := if push = WS_MAX_TX_PKTS then 0 else push
    let num := st.tx_buffer_num_entries + 1
    -- the four header words, then the payload, one byte at a time
    let b := storeBytes slot.buf 0 (htonl_bytes ((WS_PKT_DATA_OFFSET + len) % 4294967296))
    let b := storeBytes b 4 (htonl_bytes cmd_type)
    let b := storeBytes b 8 (htonl_bytes cmd_id)
    let b := storeBytes b 12 (htonl_bytes data_type)
    let b := storeBytes b WS_PKT_DATA_OFFSET (slice data 0 len)
    (true,
     { st with tx_buffer := st.tx_buffer.set i { slot with buf := b }
               tx_buffer_push_index := push
               tx_buffer_num_entries := num })

/-! ## Command handlers (`cmd_handlers.c`) -/

/-- The enumeration `cmd_id_t` of `cmd_list.h`. -/
inductive cmd_id_t where
  | CMD_BACKLIGHT
  | CMD_INFO
  | CMD_MODE
  | CMD_POWEROFF
  | CMD_SHUTDOWN
  | CMD_SYS_INFO
  | CMD_TIME
  | CMD_TIMEZONE
  | CMD_WIFI_INFO
  deriving DecidableEq, Repr

/-- Modelled from the spec: the enumeration `cmd_t` of `cmd_utilities.h`, which is not among
the sources; section 3 gives the directions Get, Set and Response. -/
inductive cmd_t where
  | CMD_GET
  | CMD_SET
  | CMD_RSP
  deriving DecidableEq, Repr

/-- Modelled from the spec: the enumeration `cmd_data_t` of `cmd_utilities.h`, which is not
among the sources; section 3 gives the payload kinds None, Int32, String and Binary. -/
inductive cmd_data_t where
  | CMD_DATA_NONE
  | CMD_DATA_INT32
  | CMD_DATA_STRING
  | CMD_DATA_BINARY
  deriving DecidableEq, Repr

def CMD_TIME_LEN : Nat := 36
def CMD_WIFI_INFO_LEN : Nat := 3 + 2 * (PS_SSID_MAX_LEN + 1) + 2 * (PS_PW_MAX_LEN + 1) + 3 * 4

/-! Notification bits of `ctrl_task.h`. -/
def CTRL_NOTIFY_RESTART_NETWORK : Nat := 0x00000001
def CTRL_NOTIFY_SHUTDOWN : Nat := 0x00000002
def CTRL_NOTIFY_UPD_BACKLIGHT : Nat := 0x00000010

/-- The record `struct tm` (`tmElements_t`): nine `int` members. -/
structure Tm where
  tm_sec : Int
  tm_min : Int
  tm_hour : Int
  tm_mday : Int
  tm_mon : Int
  tm_year : Int
  tm_wday : Int
  tm_yday : Int
  tm_isdst : Int
  deriving DecidableEq, Repr

/-- The conversion `(uint32_t) i` of an `int`. -/
def to_uint32 (i : Int) : Nat := (i % 4294967296).toNat

/-- The conversion `(int) u` of a `uint32_t` (two's complement). -/
def to_int32 (u : Nat) : Int :=
  if u % 4294967296 < 2147483648 then (u % 4294967296 : Nat) else (u % 4294967296 : Nat) - 4294967296

/-- The C string starting at the first byte of `bytes`: the bytes before the first zero. -/
def c_string (bytes : List Nat) : List Nat := bytes.takeWhile (fun b => b != 0)

/-- The library call `strncpy(&dst[0], src, n)`: the first `n` characters of the C string
`src`, padded with zeros to `n` bytes when the string is shorter. -/
def strncpy (dst src : List Nat) (n : Nat) : List Nat :=
  storeBytes dst 0 ((c_string src).take n ++ List.replicate (n - (c_string src).length) 0)

/-- One call of a send function of `cmd_utilities.c`. -/
inductive SendCall where
  | cmd_send_int32 (cmd_type : cmd_t) (cmd_id : cmd_id_t) (val : Int)
  | cmd_send_string (cmd_type : cmd_t) (cmd_id : cmd_id_t) (s : List Nat)
  | cmd_send_binary (cmd_type : cmd_t) (cmd_id : cmd_id_t) (len : Nat) (data : List Nat)
  deriving DecidableEq, Repr

/-- The state the handlers of `cmd_handlers.c` work on: the persistent storage module with
its hardware, the static variables of the file, and the collaborators outside the embedding.
Modelled from the spec: the send functions of `cmd_utilities.c` (not among the sources), the
FreeRTOS call `xTaskNotify(task_handle_ctrl, bits, eSetBits)` and the clock behind
`time_get`, `time_set` and `time_timezone_set` (C library and RTC) are recorded by their
calls: `sent` lists the send calls, `ctrl_notify` holds the notification bits set on the
coordinator task, `time_set_calls` and `timezone_set_calls` list the arguments of the clock
calls, `sys_time` is the broken-down time `time_get` delivers and `sys_info` the string of
`sys_info_get_string`. -/
structure CmdState where
  ps : PsState
  hw : Hw
  send_buf : List Nat
  orig_net_config : List Nat
  new_net_config : List Nat
  te : Tm
  sys_time : Tm
  sys_info : List Nat
  sent : List SendCall
  ctrl_notify : Nat
  time_set_calls : List Tm
  timezone_set_calls : List (List Nat)

/-- The call `xTaskNotify(task_handle_ctrl, bits, eSetBits)`. -/
def notify_ctrl (bits : Nat) (st : CmdState) : CmdState :=
  { st with ctrl_notify := st.ctrl_notify ||| bits }

/-- A local `gui_config_t` before it is filled. -/
def gui_config_local : List Nat := List.replicate SIZEOF_gui_config_t 0

/-- A local `tz_config_t` before it is filled. -/
def tz_config_local : List Nat := List.replicate SIZEOF_tz_config_t 0

def cmd_handler_get_backlight (_data_type : cmd_data_t) (_len : Nat) (_data : List Nat)
    (st : CmdState) : CmdState :=
  let gui_config := (ps_get_config PS_CONFIG_TYPE_GUI gui_config_local st.ps).2
  { st with sent := st.sent ++
      [SendCall.cmd_send_int32 .CMD_RSP .CMD_BACKLIGHT (gui_config.getD OFS_lcd_brightness 0)] }

def cmd_handler_get_mode (_data_type : cmd_data_t) (_len : Nat) (_data : List Nat)
    (st : CmdState) : CmdState :=
  let gui_config := (ps_get_config PS_CONFIG_TYPE_GUI gui_config_local st.ps).2
  { st with sent := st.sent ++
      [SendCall.cmd_send_int32 .CMD_RSP .CMD_MODE (gui_config.getD OFS_hour_mode_24 0)] }

def cmd_handler_get_sys_info (_data_type : cmd_data_t) (_len : Nat) (_data : List Nat)
    (st : CmdState) : CmdState :=
  { st with sent := st.sent ++ [SendCall.cmd_send_string .CMD_RSP .CMD_SYS_INFO st.sys_info] }

def cmd_handler_get_time (_data_type : cmd_data_t) (_len : Nat) (_data : List Nat)
    (st : CmdState) : CmdState :=
  -- time_get(&te)
  let te := st.sys_time
  let b := storeBytes st.send_buf 0 (htonl_bytes (to_uint32 te.tm_sec))
  let b := storeBytes b 4 (htonl_bytes (to_uint32 te.tm_min))
  let b := storeBytes b 8 (htonl_bytes (to_uint32 te.tm_hour))
  let b := storeBytes b 12 (htonl_bytes (to_uint32 te.tm_mday))
  let b := storeBytes b 16 (htonl_bytes (to_uint32 te.tm_mon))
  let b := storeBytes b 20 (htonl_bytes (to_uint32 te.tm_year))
  let b := storeBytes b 24 (htonl_bytes (to_uint32 te.tm_wday))
  let b := storeBytes b 28 (htonl_bytes (to_uint32 te.tm_yday))
  let b := storeBytes b 32 (htonl_bytes (to_uint32 te.tm_isdst))
  { st with te := te, send_buf := b,
            sent := st.sent ++
              [SendCall.cmd_send_binary .CMD_RSP .CMD_TIME CMD_TIME_LEN (slice b 0 CMD_TIME_LEN)] }

def cmd_handler_get_timezone (_data_type : cmd_data_t) (_len : Nat) (_data : List Nat)
    (st : CmdState) : CmdState :=
  let tz_config := (ps_get_config PS_CONFIG_TYPE_TZ tz_config_local st.ps).2
  { st with sent := st.sent ++
      [SendCall.cmd_send_string .CMD_RSP .CMD_TIMEZONE (c_string tz_config)] }

def cmd_handler_get_wifi (_data_type : cmd_data_t) (_len : Nat) (_data : List Nat)
    (st : CmdState) : CmdState :=
  let orig := (ps_get_config PS_CONFIG_TYPE_NET st.orig_net_config st.ps).2
  let n := 0
  let b := st.send_buf.set n (orig.getD OFS_mdns_en 0)
  let n := n + 1
  let b := b.set n (orig.getD OFS_sta_mode 0)
  let n := n + 1
  let b := b.set n (orig.getD OFS_sta_static_ip 0)
  let n := n + 1
  let b := storeBytes b n (slice orig OFS_ap_ssid (PS_SSID_MAX_LEN + 1))
  let n := n + (PS_SSID_MAX_LEN + 1)
  let b := storeBytes b n (slice orig OFS_sta_ssid (PS_SSID_MAX_LEN + 1))
  let n := n + (PS_SSID_MAX_LEN + 1)
  let b := storeBytes b n (slice orig OFS_ap_pw (PS_PW_MAX_LEN + 1))
  let n := n + (PS_PW_MAX_LEN + 1)
  let b := storeBytes b n (slice orig OFS_sta_pw (PS_PW_MAX_LEN + 1))
  let n := n + (PS_PW_MAX_LEN + 1)
  let b := storeBytes b n (slice orig OFS_ap_ip_addr 4)
  let n := n + 4
  let b := storeBytes b n (slice orig OFS_sta_ip_addr 4)
  let n := n + 4
  let b := storeBytes b n (slice orig OFS_sta_netmask 4)
  let n := n + 4
  { st with orig_net_config := orig, send_buf := b,
            sent := st.sent ++ [SendCall.cmd_send_binary .CMD_RSP .CMD_WIFI_INFO n (slice b 0 n)] }

def cmd_handler_set_backlight (data_type : cmd_data_t) (len : Nat) (data : List Nat)
    (st : CmdState) : CmdState :=
  if data_type = .CMD_DATA_INT32 ∧ len = 4 then
    let gui_config := (ps_get_config PS_CONFIG_TYPE_GUI gui_config_local st.ps).2
    -- the 32-bit value is stored in a uint8_t member
    let gui_config := gui_config.set OFS_lcd_brightness (ntohl_at data 0 % 256)
    let r := ps_set_config PS_CONFIG_TYPE_GUI gui_config st.ps st.hw
    notify_ctrl CTRL_NOTIFY_UPD_BACKLIGHT { st with ps := r.2.1, hw := r.2.2 }
  else
    st

def cmd_handler_set_mode (data_type : cmd_data_t) (len : Nat) (data : List Nat)
    (st : CmdState) : CmdState :=
  if data_type = .CMD_DATA_INT32 ∧ len = 4 then
    let gui_config := (ps_get_config PS_CONFIG_TYPE_GUI gui_config_local st.ps).2
    -- the 32-bit value is stored in a bool member
    let gui_config := gui_config.set OFS_hour_mode_24 (boolByte (ntohl_at data 0 != 0))
    let r := ps_set_config PS_CONFIG_TYPE_GUI gui_config st.ps st.hw
    { st with ps := r.2.1, hw := r.2.2 }
  else
    st

def cmd_handler_set_poweroff (data_type : cmd_data_t) (_len : Nat) (_data : List Nat)
    (st : CmdState) : CmdState :=
  if data_type = .CMD_DATA_NONE then
    notify_ctrl CTRL_NOTIFY_SHUTDOWN st
  else
    st

/-- The nine assignments `te.tm_x = (int) ntohl(*((uint32_t*) &data[k]))` shared by
`cmd_handler_set_time` and `cmd_handler_rsp_time`. -/
def unpack_tm (data : List Nat) : Tm :=
  { tm_sec := to_int32 (ntohl_at data 0)
    tm_min := to_int32 (ntohl_at data 4)
    tm_hour := to_int32 (ntohl_at data 8)
    tm_mday := to_int32 (ntohl_at data 12)
    tm_mon := to_int32 (ntohl_at data 16)
    tm_year := to_int32 (ntohl_at data 20)
    tm_wday := to_int32 (ntohl_at data 24)
    tm_yday := to_int32 (ntohl_at data 28)
    tm_isdst := to_int32 (ntohl_at data 32) }

def cmd_handler_set_time (data_type : cmd_data_t) (len : Nat) (data : List Nat)
    (st : CmdState) : CmdState :=
  if data_type = .CMD_DATA_BINARY ∧ len = CMD_TIME_LEN then
    let te := unpack_tm data
    -- time_set(&te)
    { st with te := te, time_set_calls := st.time_set_calls ++ [te] }
  else
    st

def cmd_handler_set_timezone (data_type : cmd_data_t) (_len : Nat) (data : List Nat)
    (st : CmdState) : CmdState :=
  if data_type = .CMD_DATA_STRING then
    let tz_config := (ps_get_config PS_CONFIG_TYPE_TZ tz_config_local st.ps).2
    if c_string tz_config ≠ c_string data then
      let tz_config := strncpy tz_config data PS_TZ_MAX_LEN
      let tz_config := tz_config.set PS_TZ_MAX_LEN 0
      let r := ps_set_config PS_CONFIG_TYPE_TZ tz_config st.ps st.hw
      { st with ps := r.2.1, hw := r.2.2,
                timezone_set_calls := st.timezone_set_calls ++ [c_string tz_config] }
    else
      st
  else
    st

/-- The function `net_config_structs_eq`: flags compared as stored, text members with
`strcmp` (from the member's first byte to the first zero), addresses byte by byte. -/
def net_config_structs_eq (s1 s2 : List Nat) : Bool :=
  if s1.getD OFS_mdns_en 0 ≠ s2.getD OFS_mdns_en 0 then false
  else if s1.getD OFS_sta_mode 0 ≠ s2.getD OFS_sta_mode 0 then false
  else if s1.getD OFS_sta_static_ip 0 ≠ s2.getD OFS_sta_static_ip 0 then false
  else if c_string (s1.drop OFS_ap_ssid) ≠ c_string (s2.drop OFS_ap_ssid) then false
  else if c_string (s1.drop OFS_sta_ssid) ≠ c_string (s2.drop OFS_sta_ssid) then false
  else if c_string (s1.drop OFS_ap_pw) ≠ c_string (s2.drop OFS_ap_pw) then false
  else if c_string (s1.drop OFS_sta_pw) ≠ c_string (s2.drop OFS_sta_pw) then false
  else
    (List.range 4).all fun i =>
      s1.getD (OFS_ap_ip_addr + i) 0 == s2.getD (OFS_ap_ip_addr + i) 0 &&
      s1.getD (OFS_sta_ip_addr + i) 0 == s2.getD (OFS_sta_ip_addr + i) 0 &&
      s1.getD (OFS_sta_netmask + i) 0 == s2.getD (OFS_sta_netmask + i) 0

/-- The unpacking of a wifi payload into a `net_config_t`, as in `cmd_handler_set_wifi`. -/
def unpack_net_config (cfg data : List Nat) : List Nat :=
  let n := 0
  let cfg := cfg.set OFS_mdns_en (boolByte (data.getD n 0 != 0))
  let n := n + 1
  let cfg := cfg.set OFS_sta_mode (boolByte (data.getD n 0 != 0))
  let n := n + 1
  let cfg := cfg.set OFS_sta_static_ip (boolByte (data.getD n 0 != 0))
  let n := n + 1
  let cfg := storeBytes cfg OFS_ap_ssid (slice data n (PS_SSID_MAX_LEN + 1))
  let n := n + (PS_SSID_MAX_LEN + 1)
  let cfg := storeBytes cfg OFS_sta_ssid (slice data n (PS_SSID_MAX_LEN + 1))
  let n := n + (PS_SSID_MAX_LEN + 1)
  let cfg := storeBytes cfg OFS_ap_pw (slice data n (PS_PW_MAX_LEN + 1))
  let n := n + (PS_PW_MAX_LEN + 1)
  let cfg := storeBytes cfg OFS_sta_pw (slice data n (PS_PW_MAX_LEN + 1))
  let n := n + (PS_PW_MAX_LEN + 1)
  let cfg := storeBytes cfg OFS_ap_ip_addr (slice data n 4)
  let n := n + 4
  let cfg := storeBytes cfg OFS_sta_ip_addr (slice data n 4)
  let n := n + 4
  storeBytes cfg OFS_sta_netmask (slice data n 4)

def cmd_handler_set_wifi (data_type : cmd_data_t) (len : Nat) (data : List Nat)
    (st : CmdState) : CmdState :=
  if data_type = .CMD_DATA_BINARY ∧ len = CMD_WIFI_INFO_LEN then
    let orig := (ps_get_config PS_CONFIG_TYPE_NET st.orig_net_config st.ps).2
    let new := unpack_net_config st.new_net_config data
    let st := { st with orig_net_config := orig, new_net_config := new }
    if !net_config_structs_eq orig new then
      let r := ps_set_config PS_CONFIG_TYPE_NET new st.ps st.hw
      notify_ctrl CTRL_NOTIFY_RESTART_NETWORK { st with ps := r.2.1, hw := r.2.2 }
    else
      st
  else
    st

/-! ## GUI side (`gui_state.h`, `gui_cmd_handlers.c`, `gui_utilities.c`) -/

def GUI_STATE_INIT_WIFI : Nat := 0x00000008
def GUI_TZ_MAX_LEN : Nat := 64
def GUI_SSID_MAX_LEN : Nat := 32
def GUI_PW_MAX_LEN : Nat := 63
/-- The macro `CMD_WIFI_INFO_LEN` of `gui_cmd_handlers.c`. -/
def GUI_CMD_WIFI_INFO_LEN : Nat := 3 + 2 * (GUI_SSID_MAX_LEN + 1) + 2 * (GUI_PW_MAX_LEN + 1) + 3 * 4

/-- The record `gui_state_t`; a `bool` member is given by the byte it holds. -/
structure gui_state_t where
  hour_mode_24 : Nat
  mdns_en : Nat
  sta_mode : Nat
  sta_static_ip : Nat
  timezone : List Nat
  ap_ssid : List Nat
  sta_ssid : List Nat
  ap_pw : List Nat
  sta_pw : List Nat
  ap_ip_addr : List Nat
  sta_ip_addr : List Nat
  sta_netmask : List Nat
  lcd_brightness : Nat
  deriving DecidableEq, Repr

/-- The GUI variables the response handlers touch: `gui_state`, `gui_init_mask` of
`gui_state.c`, and the arguments of the calls of `gui_sub_page_time_set_time`, which is not
among the sources. -/
structure GuiState where
  gui_state : gui_state_t
  gui_init_mask : Nat
  time_page_calls : List Tm
  deriving DecidableEq, Repr

def gui_state_note_item_inited (mask : Nat) (g : GuiState) : GuiState :=
  { g with gui_init_mask := (g.gui_init_mask ||| mask) % 4294967296 }

def cmd_handler_rsp_time (data_type : cmd_data_t) (len : Nat) (data : List Nat)
    (g : GuiState) : GuiState :=
  if data_type = .CMD_DATA_BINARY ∧ len = CMD_TIME_LEN then
    let te := unpack_tm data
    { g with time_page_calls := g.time_page_calls ++ [te] }
  else
    g

def cmd_handler_rsp_wifi (data_type : cmd_data_t) (len : Nat) (data : List Nat)
    (g : GuiState) : GuiState :=
  if data_type = .CMD_DATA_BINARY ∧ len = GUI_CMD_WIFI_INFO_LEN then
    let s := g.gui_state
    let n := 0
    let s := { s with mdns_en := boolByte (data.getD n 0 != 0) }
    let n := n + 1
    let s := { s with sta_mode := boolByte (data.getD n 0 != 0) }
    let n := n + 1
    let s := { s with sta_static_ip := boolByte (data.getD n 0 != 0) }
    let n := n + 1
    let s := { s with ap_ssid := storeBytes s.ap_ssid 0 (slice data n (GUI_SSID_MAX_LEN + 1)) }
    let n := n + (GUI_SSID_MAX_LEN + 1)
    let s := { s with sta_ssid := storeBytes s.sta_ssid 0 (slice data n (GUI_SSID_MAX_LEN + 1)) }
    let n := n + (GUI_SSID_MAX_LEN + 1)
    let s := { s with ap_pw := storeBytes s.ap_pw 0 (slice data n (GUI_PW_MAX_LEN + 1)) }
    let n := n + (GUI_PW_MAX_LEN + 1)
    let s := { s with sta_pw := storeBytes s.sta_pw 0 (slice data n (GUI_PW_MAX_LEN + 1)) }
    let n := n + (GUI_PW_MAX_LEN + 1)
    let s := { s with ap_ip_addr := storeBytes s.ap_ip_addr 0 (slice data n 4) }
    let n := n + 4
    let s := { s with sta_ip_addr := storeBytes s.sta_ip_addr 0 (slice data n 4) }
    let n := n + 4
    let s := { s with sta_netmask := storeBytes s.sta_netmask 0 (slice data n 4) }
    gui_state_note_item_inited GUI_STATE_INIT_WIFI { g with gui_state := s }
  else
    g

/-- The scanning loop of `gui_parse_ipv4_addr_string` over the characters `cs`, with the
field index `n` and the array `temp_array`; `none` when the loop returns false. -/
def gui_parse_ipv4_loop : List Nat → Nat → List Nat → Option (List Nat)
  | [], _, temp_array => some temp_array
  | ch :: cs, n, temp_array =>
    if ch ≥ 48 ∧ ch ≤ 57 then
      let v := temp_array.getD n 0 * 10 + (ch - 48)
      if v > 255 then none
      else gui_parse_ipv4_loop cs n (temp_array.set n v)
    else if ch = 46 then
      -- `--n < 0`
      if n = 0 then none else gui_parse_ipv4_loop cs (n - 1) temp_array
    else
      none

/-- The function `gui_parse_ipv4_addr_string(s, addr)`: the result and the caller's
`addr`. -/
def gui_parse_ipv4_addr_string (s : List Nat) (addr : List Nat) : Bool × List Nat :=
  match gui_parse_ipv4_loop (c_string s) 3 [0, 0, 0, 0] with
  | none => (false, addr)
  | some temp_array =>
    (true, storeBytes addr 0 (temp_array.map fun v => v % 256))

/-! ## Coordinator task (`ctrl_task.c`) -/

/-! Constants of `ctrl_task.h`, `system_config.h`, `gui_task.h` and `web_task.h`. -/
def CTRL_EVAL_MSEC : Nat := 50
def CTRL_BATT_SAMPLE_MSEC : Nat := 500
def CTRL_NVRAM_SAVE_MSEC : Nat := 60000
def NETWORK_RESET_BTN_MSEC : Nat := 2000
def GUI_NOTIFY_SECONDARY_MESSAGE : Nat := 0x00000002
def WEB_NOTIFY_NETWORK_DISC_MASK : Nat := 0x00000001
def WEB_NOTIFY_SHUTDOWN_MASK : Nat := 0x00000002

/-! Modelled from the spec: the enumerators of `batt_state_t` (`power_utilities.h`, which is
not among the sources), as the integers they stand for.  Section 4.5 orders the bands from
full down to critical and `system_config.h` has the thresholds 75, 50, 25, 0 and critical,
so the enumerators count the bands downwards from `BATT_100`. -/
def BATT_100 : Nat := 0
def BATT_75 : Nat := 1
def BATT_25 : Nat := 3
def BATT_0 : Nat := 4
def BATT_CRIT : Nat := 5

/-- The macro `Notification(var, mask)`: `((var & mask) == mask)`. -/
def Notification (var mask : Nat) : Bool := var &&& mask == mask

/-- One call the coordinator makes into another module, in program order.
Modelled from the spec: the power, wifi, SNTP and GUI modules are collaborators outside the
embedding (section 6); their calls are recorded, and so are the register writes the
coordinator makes through the gCore driver.  `notify_gui` and `notify_web` stand for
`xTaskNotify(task_handle_gui, bits, eSetBits)` and `xTaskNotify(task_handle_web, bits,
eSetBits)`. -/
inductive CtrlEvent where
  | power_set_brightness (v : Nat)
  | power_init
  | gui_set_secondary_msg (msg : List Nat) (tmo : Nat)
  | notify_gui (bits : Nat)
  | notify_web (bits : Nat)
  | gcore_set_reg8 (reg val : Nat)
  | power_off
  | sntp_start_service
  | sntp_stop_service
  | wifi_reinit
  deriving DecidableEq, Repr

/-- Modelled from the spec: the register numbers and the mask of `gcore.h` (not among the
sources) the coordinator uses. -/
structure GcoreRegs where
  GCORE_REG_PWR_TM : Nat
  GCORE_REG_WK_CTRL : Nat
  GCORE_WK_CHRG_START_MASK : Nat
  deriving DecidableEq, Repr

/-- What the collaborators deliver during one pass of the loop of `ctrl_task`:
`notification` is the pending notification value `xTaskNotifyWait` hands over (`none` when
it returns false), the two button flags are the results of `power_short_button_pressed` and
`power_long_button_pressed`, `batt_state` is the state `power_get_batt` delivers if the
battery is sampled in this pass, the wifi flags and `web_has_client` are the results of the
calls of these names (one reading per pass), and `wifi_reinit` is the result of
`wifi_reinit()` if the network is restarted in this pass. -/
structure CtrlInput where
  notification : Option Nat
  short_button_pressed : Bool
  long_button_pressed : Bool
  batt_state : Nat
  wifi_is_sta : Bool
  wifi_is_connected : Bool
  wifi_is_enabled : Bool
  web_has_client : Bool
  wifi_reinit : Bool
  deriving DecidableEq, Repr

/-- The variables of `ctrl_task.c`: the file-scope statics (`gui_config`, the four `notify_`
flags), the locals of `ctrl_task` that live across passes of the loop (`batt_state` is
`batt_status.batt_state`), the storage module with its hardware, the register constants, and
the calls recorded so far. -/
structure CtrlState where
  gui_config : List Nat
  notify_network_reset : Bool
  notify_network_restart : Bool
  notify_shutdown : Bool
  notify_update_backlight : Bool
  batt_state : Nat
  low_batt_msg_displayed : Bool
  prev_client_connected : Bool
  prev_wifi_available : Bool
  batt_sample_count : Int
  nvram_save_count : Int
  ps : PsState
  hw : Hw
  regs : GcoreRegs
  events : List CtrlEvent

/-- The call `(void) gcore_set_reg8(reg, val)` of the coordinator: made on the hardware
record and recorded among the calls of the coordinator. -/
def ctrl_set_reg8 (reg val : Nat) (st : CtrlState) : CtrlState :=
  { st with hw := (gcore_set_reg8 reg val st.hw).2
            events := st.events ++ [CtrlEvent.gcore_set_reg8 reg val] }

def _ctrl_handle_notifications (inp : CtrlInput) (st : CtrlState) : CtrlState :=
  match inp.notification with
  | none => st
  | some notification_value =>
    let st := if Notification notification_value CTRL_NOTIFY_RESTART_NETWORK then
                { st with notify_network_restart := true } else st
    let st := if Notification notification_value CTRL_NOTIFY_SHUTDOWN then
                { st with notify_shutdown := true } else st
    if Notification notification_value CTRL_NOTIFY_UPD_BACKLIGHT then
      { st with notify_update_backlight := true } else st

/-- The function `_ctrl_display_wifi_info`.  The text is the one `sprintf` builds from the
format and the SSID member read as a C string; the size of the local `buf[48]` is not
modelled. -/
def _ctrl_display_wifi_info (inp : CtrlInput) (st : CtrlState) : CtrlState :=
  let wifi_config := (ps_get_config PS_CONFIG_TYPE_NET
    (List.replicate SIZEOF_net_config_t 0) st.ps).2
  let buf :=
    if inp.wifi_is_sta then cstr "Wi-Fi (STA): " ++ c_string (wifi_config.drop OFS_sta_ssid)
    else cstr "Wi-Fi (AP): " ++ c_string (wifi_config.drop OFS_ap_ssid)
  { st with events := st.events ++
      [CtrlEvent.gui_set_secondary_msg buf 5, CtrlEvent.notify_gui GUI_NOTIFY_SECONDARY_MESSAGE] }

/-- The part of `ctrl_task` before its loop.  `stack_batt_state` is the value the
uninitialised local `batt_status.batt_state` happens to hold, `power_init` the result of
`power_init()`; `gui_config` and the `notify_` flags are statics and start zeroed. -/
def ctrl_task_init (stack_batt_state : Nat) (power_init : Bool) (ps : PsState) (hw : Hw)
    (regs : GcoreRegs) : CtrlState :=
  let gui_config := (ps_get_config PS_CONFIG_TYPE_GUI (List.replicate SIZEOF_gui_config_t 0) ps).2
  let r := gcore_set_reg8 regs.GCORE_REG_PWR_TM (NETWORK_RESET_BTN_MSEC / 10) hw
  { gui_config := gui_config
    notify_network_reset := false
    notify_network_restart := false
    notify_shutdown := !power_init
    notify_update_backlight := false
    batt_state := stack_batt_state
    low_batt_msg_displayed := false
    prev_client_connected := false
    prev_wifi_available := false
    batt_sample_count := (CTRL_BATT_SAMPLE_MSEC / CTRL_EVAL_MSEC : Nat)
    nvram_save_count := (CTRL_NVRAM_SAVE_MSEC / CTRL_EVAL_MSEC : Nat)
    ps := ps
    hw := r.2
    regs := regs
    events := [CtrlEvent.power_set_brightness (gui_config.getD OFS_lcd_brightness 0),
               CtrlEvent.gcore_set_reg8 regs.GCORE_REG_PWR_TM (NETWORK_RESET_BTN_MSEC / 10),
               CtrlEvent.power_init] }

/-- The statements "Evaluate power button every evaluation" of the loop. -/
def ctrl_buttons (inp : CtrlInput) (st : CtrlState) : CtrlState :=
  let st := if inp.short_button_pressed then { st with notify_shutdown := true } else st
  if inp.long_button_pressed then
    { st with notify_network_reset := true, notify_network_restart := true }
  else st

/-- The statement "Handle backlight updates" of the loop. -/
def ctrl_backlight (st : CtrlState) : CtrlState :=
  if st.notify_update_backlight then
    let gui_config := (ps_get_config PS_CONFIG_TYPE_GUI st.gui_config st.ps).2
    { st with notify_update_backlight := false
              gui_config := gui_config
              events := st.events ++
                [CtrlEvent.power_set_brightness (gui_config.getD OFS_lcd_brightness 0)] }
  else st

/-- The statement "Update battery state" of the loop. -/
def ctrl_battery (inp : CtrlInput) (st : CtrlState) : CtrlState :=
  let st := { st with batt_sample_count := st.batt_sample_count - 1 }
  if st.batt_sample_count = (0 : Int) then
    -- power_batt_update(); power_get_batt(&batt_status);
    let st := { st with batt_sample_count := (CTRL_BATT_SAMPLE_MSEC / CTRL_EVAL_MSEC : Nat)
                        batt_state := inp.batt_state }
    let st :=
      if st.batt_state ≥ BATT_25 then
        if !st.low_batt_msg_displayed then
          { st with low_batt_msg_displayed := true
                    events := st.events ++
                      [CtrlEvent.gui_set_secondary_msg (cstr "Low Battery") 0,
                       CtrlEvent.notify_gui GUI_NOTIFY_SECONDARY_MESSAGE] }
        else st
      else
        if st.low_batt_msg_displayed then
          { st with low_batt_msg_displayed := false
                    events := st.events ++
                      [CtrlEvent.gui_set_secondary_msg (cstr "Low Battery") 1,
                       CtrlEvent.notify_gui GUI_NOTIFY_SECONDARY_MESSAGE] }
        else st
    if st.batt_state = BATT_CRIT then { st with notify_shutdown := true } else st
  else st

/-- The statement "Handle power off requests" of the loop. -/
def ctrl_shutdown (st : CtrlState) : CtrlState :=
  if st.notify_shutdown then
    let st := { st with events := st.events ++ [CtrlEvent.notify_web WEB_NOTIFY_SHUTDOWN_MASK] }
    let st := ctrl_set_reg8 st.regs.GCORE_REG_PWR_TM (100 / 10) st
    let st :=
      if st.batt_state = BATT_CRIT then
        ctrl_set_reg8 st.regs.GCORE_REG_WK_CTRL st.regs.GCORE_WK_CHRG_START_MASK st
      else
        ctrl_set_reg8 st.regs.GCORE_REG_WK_CTRL 0 st
    { st with events := st.events ++ [CtrlEvent.power_off] }
  else st

/-- The statement "Periodically write NVRAM to backing flash" of the loop; `none` when
`ps_save_to_flash` is still polling after `fuel` register reads. -/
def ctrl_nvram_save (fuel : Nat) (st : CtrlState) : Option CtrlState :=
  let st := { st with nvram_save_count := st.nvram_save_count - 1 }
  if st.nvram_save_count = (0 : Int) then
    let st := { st with nvram_save_count := (CTRL_NVRAM_SAVE_MSEC / CTRL_EVAL_MSEC : Nat) }
    let r := ps_save_to_flash fuel st.ps st.hw
    match r.1 with
    | some ps => some { st with ps := ps, hw := r.2 }
    | none => none
  else some st

/-- The statements "Get current connectivity status" (wifi part) and "Look for wifi state
change" of the loop. -/
def ctrl_connectivity (inp : CtrlInput) (st : CtrlState) : CtrlState :=
  let cur_wifi_available :=
    if inp.wifi_is_sta then inp.wifi_is_connected else inp.wifi_is_enabled
  if cur_wifi_available then
    if !st.prev_wifi_available then
      let st := if inp.wifi_is_sta then
                  { st with events := st.events ++ [CtrlEvent.sntp_start_service] }
                else st
      let st := { st with prev_wifi_available := true }
      _ctrl_display_wifi_info inp st
    else st
  else
    if st.prev_wifi_available then
      { st with events := st.events ++ [CtrlEvent.sntp_stop_service]
                prev_wifi_available := false }
    else st

/-- The statement "Let the user know locally if a client is connected" of the loop. -/
def ctrl_client (inp : CtrlInput) (st : CtrlState) : CtrlState :=
  let cur_client_connected := inp.web_has_client
  if cur_client_connected then
    if !st.prev_client_connected then
      { st with events := st.events ++
                  [CtrlEvent.gui_set_secondary_msg (cstr "Client Connected") 0,
                   CtrlEvent.notify_gui GUI_NOTIFY_SECONDARY_MESSAGE]
                prev_client_connected := true
                low_batt_msg_displayed := false }
    else st
  else
    if st.prev_client_connected then
      { st with events := st.events ++
                  [CtrlEvent.gui_set_secondary_msg (cstr "Client Disconnected") 2,
                   CtrlEvent.notify_gui GUI_NOTIFY_SECONDARY_MESSAGE]
                prev_client_connected := false
                low_batt_msg_displayed := false }
    else st

/-- The statement "Reset wifi to factory default if requested" of the loop. -/
def ctrl_network_reset (st : CtrlState) : CtrlState :=
  if st.notify_network_reset then
    let r := ps_reinit_config PS_CONFIG_TYPE_NET st.ps st.hw
    { st with ps := r.2.1, hw := r.2.2, notify_network_reset := false }
  else st

/-- The statement "Restart wifi if requested" of the loop. -/
def ctrl_network_restart (inp : CtrlInput) (st : CtrlState) : CtrlState :=
  if st.notify_network_restart then
    let st := { st with events := st.events ++
                  [CtrlEvent.gui_set_secondary_msg (cstr "Restarting Wi-Fi...") 2,
                   CtrlEvent.notify_gui GUI_NOTIFY_SECONDARY_MESSAGE,
                   CtrlEvent.notify_web WEB_NOTIFY_NETWORK_DISC_MASK,
                   CtrlEvent.wifi_reinit] }
    let st :=
      if !inp.wifi_reinit then
        { st with events := st.events ++
            [CtrlEvent.gui_set_secondary_msg (cstr "Wi-Fi failed to restart") 5,
             CtrlEvent.notify_gui GUI_NOTIFY_SECONDARY_MESSAGE] }
      else st
    { st with prev_wifi_available := false
              low_batt_msg_displayed := false
              notify_network_restart := false }
  else st

/-- One pass of the loop of `ctrl_task` up to and including the power-off handling. -/
def ctrl_tick_head (inp : CtrlInput) (st : CtrlState) : CtrlState :=
  let st := _ctrl_handle_notifications inp st
  -- power_status_update()
  let st := ctrl_buttons inp st
  let st := ctrl_backlight st
  let st := ctrl_battery inp st
  ctrl_shutdown st

/-- One pass of the loop of `ctrl_task` after the periodic save of the NVRAM. -/
def ctrl_tick_tail (inp : CtrlInput) (st : CtrlState) : CtrlState :=
  let st := ctrl_connectivity inp st
  let st := ctrl_client inp st
  let st := ctrl_network_reset st
  ctrl_network_restart inp st

/-- One pass of the loop `while (1)` of `ctrl_task`; `none` when the pass is stuck in the
completion wait of `ps_save_to_flash` after `fuel` register reads. -/
def ctrl_tick (fuel : Nat) (inp : CtrlInput) (st : CtrlState) : Option CtrlState :=
  match ctrl_nvram_save fuel (ctrl_tick_head inp st) with
  | some st => some (ctrl_tick_tail inp st)
  | none => none

/-- The two static arrays have `PS_RAM_SIZE` bytes and the sub-region table is the one
`ps_init` sets up. -/
def PsReady (s : PsState) : Prop :=
  s.ps_shadow_buffer.length = PS_RAM_SIZE ∧ s.ps_check_buffer.length = PS_RAM_SIZE ∧
    s.ps_sub_regions = ps_init_sub_regions

/-- First index of the region of config `k` in the table of `ps_init`. -/
def region_start (k : Int) : Nat := ps_init_sub_regions.start_index.getD k.toNat 0

/-- Length of the region of config `k` in the table of `ps_init`. -/
def region_length (k : Int) : Nat := ps_init_sub_regions.length.getD k.toNat 0

/-- A device on which every driver call succeeds and the control register reads zero. -/
def sample_hw : Hw :=
  { mac := [36, 111, 40, 171, 205, 239]
    nvram := List.replicate 320 0
    ack := fun _ => true
    regval := fun _ => 0
    GCORE_REG_NV_CTRL := 13
    GCORE_NVRAM_WR_TRIG := 87
    log := [] }

/-- The device `sample_hw` with every driver call rejected. -/
def sample_hw_reject : Hw := { sample_hw with ack := fun _ => false }

/-- The variables of `ps_utilities.c` at boot: zeroed static storage. -/
def boot_state : PsState :=
  { ps_shadow_buffer := List.replicate 320 0
    ps_check_buffer := List.replicate 320 0
    ps_sub_regions := { start_index := [0, 0, 0], length := [0, 0, 0] } }

/-- A ready state: zeroed buffers and the sub-region table of `ps_init`. -/
def sample_state : PsState := { boot_state with ps_sub_regions := ps_init_sub_regions }

/-! ## Vocabulary for `ps_save_to_flash` -/

/-- At least one of the `PS_RAM_SIZE` bytes of the shadow buffer differs from the byte of
the check (baseline) buffer at the same index. -/
def buffers_differ (s : PsState) : Prop :=
  ∃ i, i < PS_RAM_SIZE ∧ s.ps_check_buffer.getD i 0 ≠ s.ps_shadow_buffer.getD i 0

/-- The driver call that triggers the commit of the NVRAM to flash. -/
def commit_trigger (h : Hw) : GcoreCall :=
  GcoreCall.set_reg8 h.GCORE_REG_NV_CTRL h.GCORE_NVRAM_WR_TRIG

/-- The driver calls in the log of `h2` that are not yet in the log of `h`. -/
def new_calls (h h2 : Hw) : List GcoreCall := h2.log.drop h.log.length

/-- Number of commit triggers the device accepted among the calls `cs`, the first of which
is call number `n`. -/
def count_accepted (h : Hw) : Nat → List GcoreCall → Nat
  | _, [] => 0
  | n, c :: cs => (if c = commit_trigger h ∧ h.ack n = true then 1 else 0) +
      count_accepted h (n + 1) cs

/-- Number of commit triggers the device accepted between the logs of `h` and `h2`. -/
def accepted_triggers (h h2 : Hw) : Nat := count_accepted h h.log.length (new_calls h h2)

/-- The sample state after a change of the stored brightness: shadow and check buffers
differ at index 4. -/
def sample_dirty_state : PsState :=
  { sample_state with ps_shadow_buffer := sample_state.ps_shadow_buffer.set 4 80 }

/-- The device `sample_hw` with the first driver call rejected and all later ones accepted. -/
def sample_hw_reject_first : Hw := { sample_hw with ack := fun n => n != 0 }

/-! ## Vocabulary for the websocket framing -/

/-- The arguments of one call of the dispatcher. -/
structure DispatchCall where
  cmd_type : Nat
  cmd_id : Nat
  data_type : Nat
  len : Nat
  data : List Nat
  deriving DecidableEq, Repr

/-- A dispatcher that also records every call made to it, oldest first. -/
def recording {σ : Type} (d : Dispatcher σ) : Dispatcher (List DispatchCall × σ) :=
  fun cmd_type cmd_id data_type len data st =>
    ((d cmd_type cmd_id data_type len data st.2).1,
     (st.1 ++ [{ cmd_type := cmd_type, cmd_id := cmd_id, data_type := data_type,
                 len := len, data := data }],
      (d cmd_type cmd_id data_type len data st.2).2))

/-- The frame is refused: shorter than the 16-byte header, or the big-endian length in
bytes 0..3 is not the number of bytes supplied. -/
def ws_rejected (len : Nat) (data : List Nat) : Prop :=
  len < 16 ∨ ntohl_at data 0 ≠ len

/-- A dispatcher that counts its calls and reports success. -/
def sample_dispatcher : Dispatcher Nat := fun _ _ _ _ _ n => (true, n + 1)

/-- Twenty bytes whose length field says 40. -/
def sample_short_frame : List Nat := [0, 0, 0, 40] ++ List.replicate 16 0

/-- A well-formed frame of 20 bytes: direction 1, command 0, payload kind 1, payload
`[0, 0, 0, 50]`. -/
def sample_frame : List Nat := [0, 0, 0, 20, 0, 0, 0, 1, 0, 0, 0, 0, 0, 0, 0, 1, 0, 0, 0, 50]

/-! ## The default image, in the words of the specification -/

/-- The bytes the NVRAM read of `ps_init` delivers: the stored image. -/
def stored_image (h : Hw) : List Nat :=
  (gcore_get_nvram_bytes PS_RAM_STARTADDR PS_RAM_SIZE h).1.2

/-- Upper-case hexadecimal digit of a value below 16, as an ASCII code. -/
def hex_digit (n : Nat) : Nat := if n < 10 then 48 + n else 55 + n

/-- The four characters appended to the default SSID: the hexadecimal digits of byte 4 of
the factory MAC address and of its byte 5 plus one (modulo 256). -/
def default_ssid_suffix (h : Hw) : List Nat :=
  [hex_digit (h.mac.getD 4 0 % 256 / 16), hex_digit (h.mac.getD 4 0 % 256 % 16),
   hex_digit ((h.mac.getD 5 0 % 256 + 1) % 256 / 16),
   hex_digit ((h.mac.getD 5 0 % 256 + 1) % 256 % 16)]

/-- Bytes 0..18 of the default image: magic word `0x12 0x34`, layout version 1, display
config (12-hour mode, brightness 80), network flags (mDNS on, AP mode, DHCP) and the fixed
part of the access-point SSID. -/
def default_image_head : List Nat :=
  [0x12, 0x34, 1] ++ [0, 80] ++ [1, 0, 0] ++ cstr "NixieClock-"

/-- Bytes 23..318 of the default image: the rest of `ap_ssid`, empty `sta_ssid`, `ap_pw` and
`sta_pw`, the addresses 192.168.4.1, 192.168.4.2 and 255.255.255.0 (lowest byte first), the
timezone string padded with zeros to 81 bytes, and the 24 unused bytes. -/
def default_image_tail : List Nat :=
  List.replicate 18 0 ++ List.replicate 33 0 ++ List.replicate 64 0 ++ List.replicate 64 0
    ++ [1, 4, 168, 192] ++ [2, 4, 168, 192] ++ [0, 255, 255, 255]
    ++ (cstr "MST7MDT,M3.2.0,M11.1.0" ++ List.replicate 59 0)
    ++ List.replicate 24 0

/-- The first 319 bytes of the default image with the SSID suffix `suffix`. -/
def default_payload (suffix : List Nat) : List Nat :=
  default_image_head ++ suffix ++ default_image_tail

/-- The compiled-in default image of the device `h`: 319 payload bytes and their sum
modulo 256. -/
def default_image (h : Hw) : List Nat :=
  default_payload (default_ssid_suffix h) ++ [(default_payload (default_ssid_suffix h)).sum % 256]

/-- The index `j` of the shadow buffer is written when the defaults of config `k` are
re-derived: both bytes of the display config; of the network config everything but the last
31 bytes of `ap_pw` and of `sta_pw`; of the timezone config the 22 characters of the default
string and the terminating zero. -/
def init_written (k : Int) (j : Nat) : Bool :=
  if k = 0 then decide (3 ≤ j ∧ j < 5)
  else if k = 1 then
    decide ((5 ≤ j ∧ j < 74 + 33) ∨ (138 ≤ j ∧ j < 138 + 33) ∨ (202 ≤ j ∧ j < 214))
  else if k = 2 then decide (214 ≤ j ∧ j < 237)
  else false

/-! ## Byte stores as lists, used to reason about the initialisers -/

/-- Perform the stores `(index, value)` of `ws` on `buf`, first to last. -/
def applyWrites (ws : List (Nat × Nat)) (buf : List Nat) : List Nat :=
  ws.foldl (fun b w => b.set w.1 w.2) buf

/-- The stores made by `storeBytes _ off bs`. -/
def writesOf : Nat → List Nat → List (Nat × Nat)
  | _, [] => []
  | off, b :: bs => (off, b) :: writesOf (off + 1) bs

/-- The stores of the text-field loop of `_ps_init_config_memory`. -/
def field_writes (base : Nat) : List (Nat × Nat) :=
  (List.range (PS_SSID_MAX_LEN + 1)).flatMap fun i =>
    [(base + OFS_ap_ssid + i, 0), (base + OFS_ap_pw + i, 0), (base + OFS_sta_ssid + i, 0),
     (base + OFS_sta_pw + i, 0)]

/-- The stores of `_ps_init_config_memory` for the display config at `base`. -/
def gui_writes (base : Nat) : List (Nat × Nat) :=
  [(base + OFS_hour_mode_24, boolByte PS_DEFAULT_HOUR_MODE_24),
   (base + OFS_lcd_brightness, PS_DEFAULT_BACKLIGHT)]

/-- The stores of `_ps_init_config_memory` for the network config at `base`, with `ssid` the
bytes written by `sprintf`. -/
def net_writes (base : Nat) (ssid : List Nat) : List (Nat × Nat) :=
  [(base + OFS_mdns_en, boolByte true), (base + OFS_sta_mode, boolByte false),
   (base + OFS_sta_static_ip, boolByte false)]
    ++ field_writes base ++ writesOf (base + OFS_ap_ssid) ssid
    ++ [(base + OFS_ap_ip_addr + 3, 192), (base + OFS_ap_ip_addr + 2, 168),
        (base + OFS_ap_ip_addr + 1, 4), (base + OFS_ap_ip_addr + 0, 1),
        (base + OFS_sta_ip_addr + 3, 192), (base + OFS_sta_ip_addr + 2, 168),
        (base + OFS_sta_ip_addr + 1, 4), (base + OFS_sta_ip_addr + 0, 2),
        (base + OFS_sta_netmask + 3, 255), (base + OFS_sta_netmask + 2, 255),
        (base + OFS_sta_netmask + 1, 255), (base + OFS_sta_netmask + 0, 0)]

/-- The stores of `_ps_init_config_memory` for the timezone config at `base`. -/
def tz_writes (base : Nat) : List (Nat × Nat) := writesOf base (PS_DEFAULT_TZ ++ [0])

/-- The stores of `_ps_init_config_memory(index)` with the table of `ps_init`. -/
def config_writes (index : Nat) (ssid : List Nat) : List (Nat × Nat) :=
  if index = PS_CONFIG_TYPE_GUI then gui_writes 3
  else if index = PS_CONFIG_TYPE_NET then net_writes 5 ssid
  else if index = PS_CONFIG_TYPE_TZ then tz_writes 214
  else []

/-- The stores of `_ps_init_array` before the checksum is computed. -/
def array_writes (ssid : List Nat) : List (Nat × Nat) :=
  [(PS_MAGIC_WORD_0_ADDR, PS_MAGIC_WORD_0), (PS_MAGIC_WORD_1_ADDR, PS_MAGIC_WORD_1),
   (PS_LAYOUT_VERSION_ADDR, PS_LAYOUT_VERSION)]
    ++ config_writes 0 ssid ++ config_writes 1 ssid ++ config_writes 2 ssid

/-- The MAC address used for the default SSID: the factory address with its last byte
incremented, as in `_ps_init_config_memory`. -/
def ap_mac (h : Hw) : List Nat :=
  (esp_efuse_mac_get_default h).set 5 (((esp_efuse_mac_get_default h).getD 5 0 + 1) % 256)

/-- Stand-ins for the four device-dependent SSID characters: values no byte can take. -/
def suffix_marks : List Nat := [256, 257, 258, 259]

/-- Replace the stand-ins `suffix_marks` by the bytes of `suffix`; other values are kept. -/
def fill_marks (suffix : List Nat) (x : Nat) : Nat :=
  if x = 256 then suffix.getD 0 0
  else if x = 257 then suffix.getD 1 0
  else if x = 258 then suffix.getD 2 0
  else if x = 259 then suffix.getD 3 0
  else x

/-- The sample device with the default image stored, but with the lowest bit of the
brightness byte (index 4) flipped: the checksum no longer matches. -/
def sample_hw_bit_flipped : Hw :=
  { sample_hw with nvram := (default_image sample_hw).set 4 81 }

/-- The state of `ps_init` after the NVRAM read and the copy to the check buffer. -/
def ps_init_loaded (s : PsState) (h : Hw) : PsState :=
  { ps_shadow_buffer := stored_image h,
    ps_check_buffer := copyBytes s.ps_check_buffer (stored_image h) PS_RAM_SIZE,
    ps_sub_regions := ps_init_sub_regions }

/-- The hardware record of `ps_init` after the NVRAM read. -/
def ps_init_read_hw (h : Hw) : Hw :=
  { h with log := h.log ++ [GcoreCall.get_nvram_bytes 0 320] }

/-- The indices stored to by `_ps_init_config_memory(index)` with the table of `ps_init`. -/
def config_indices (index : Nat) : List Nat :=
  (config_writes index (List.replicate 16 0)).map Prod.fst

/-- The sample state after a timezone string of 26 characters has been stored. -/
def sample_long_tz_state : PsState :=
  (ps_set_config 2 (cstr "CET-1CEST,M3.5.0,M10.5.0/3" ++ List.replicate 55 0)
    (ps_init boot_state sample_hw).2.1 sample_hw).2.1

/-! ## Vocabulary for the outbound ring -/

/-- The wire format of a frame: total length, direction, command id and payload kind as
big-endian 32-bit values, followed by the payload. -/
def encode_frame (cmd_type cmd_id data_type : Nat) (data : List Nat) : List Nat :=
  htonl_bytes (16 + data.length) ++ htonl_bytes cmd_type ++ htonl_bytes cmd_id
    ++ htonl_bytes data_type ++ data

/-- The ring is as `ws_gui_cmd_init` allocates it and as the two ring functions keep it: four
blocks of `WS_TX_BUFFER_LEN` bytes, indices below 4, at most 4 entries, and the push index
`num_entries` places after the pop index. -/
def WsReady (st : WsState) : Prop :=
  st.tx_buffer.length = 4 ∧ (∀ s ∈ st.tx_buffer, s.buf.length = 8208) ∧
    st.tx_buffer_pop_index < 4 ∧ st.tx_buffer_num_entries ≤ 4 ∧
    st.tx_buffer_push_index = (st.tx_buffer_pop_index + st.tx_buffer_num_entries) % 4

/-- The packet a slot holds: its recorded length and that many bytes of its block. -/
def slot_frame (s : tx_buffer_t) : Nat × List Nat := (s.len, slice s.buf 0 s.len)

/-- The packets queued in the ring, oldest first. -/
def ring_contents (st : WsState) : List (Nat × List Nat) :=
  (List.range st.tx_buffer_num_entries).map fun i =>
    slot_frame (st.tx_buffer.getD ((st.tx_buffer_pop_index + i) % 4) { buf := [], len := 0 })

/-- One call on the outbound ring. -/
inductive WsOp where
  | send (cmd_type cmd_id data_type : Nat) (data : List Nat)
  | get
  deriving DecidableEq, Repr

/-- What a run of ring calls has produced: the ring, the packets of the successful
`ws_cmd_send_handler` calls and the packets returned by the successful `ws_cmd_get_tx_data`
calls, both oldest first. -/
structure WsTrace where
  st : WsState
  enq : List (Nat × List Nat)
  deq : List (Nat × List Nat)
  deriving DecidableEq, Repr

/-- Make one ring call and extend the record of the run. -/
def ws_step (t : WsTrace) (op : WsOp) : WsTrace :=
  match op with
  | .send cmd_type cmd_id data_type data =>
    let r := ws_cmd_send_handler cmd_type cmd_id data_type data.length data t.st
    { st := r.2
      enq := if r.1 then t.enq ++ [(16 + data.length, encode_frame cmd_type cmd_id data_type data)]
             else t.enq
      deq := t.deq }
  | .get =>
    let r := ws_cmd_get_tx_data 0 [] t.st
    { st := r.2
      enq := t.enq
      deq := if r.1.1 then t.deq ++ [(r.1.2.1, slice r.1.2.2 0 r.1.2.1)] else t.deq }

/-- Run the ring calls `ops` one after the other, starting from the empty ring. -/
def ws_run (ops : List WsOp) : WsTrace :=
  ops.foldl ws_step { st := ws_tx_init, enq := [], deq := [] }

/-- Every payload of the run fits a block: at most 8192 bytes. -/
def payloads_fit (ops : List WsOp) : Prop :=
  ∀ op ∈ ops, ∀ a b d data, op = WsOp.send a b d data → data.length ≤ 8192

/-- The packets returned by `n` successive calls of `ws_cmd_get_tx_data`, as far as they
succeed. -/
def ws_drain : Nat → WsState → List (Nat × List Nat)
  | 0, _ => []
  | n + 1, st =>
    let r := ws_cmd_get_tx_data 0 [] st
    if r.1.1 then (r.1.2.1, slice r.1.2.2 0 r.1.2.1) :: ws_drain n r.2 else []

/-- A full ring: four slots in use, each holding a packet of 16 bytes. -/
def sample_full_ring : WsState :=
  { tx_buffer := List.replicate 4 { buf := List.replicate 8208 0, len := 16 }
    tx_buffer_push_index := 0
    tx_buffer_pop_index := 0
    tx_buffer_num_entries := 4 }

/-- A short run of ring calls: two packets queued, both fetched, a third fetch on the
empty ring. -/
def sample_ops : List WsOp :=
  [WsOp.send 2 6 3 [7, 8, 9], WsOp.send 2 0 1 [0, 0, 0, 80], WsOp.get, WsOp.get, WsOp.get]

/-! ## Vocabulary for the command handlers -/

/-- The static buffers of `cmd_handlers.c` have their declared sizes and the storage module
is ready. -/
def CmdReady (st : CmdState) : Prop :=
  PsReady st.ps ∧ st.send_buf.length = CMD_WIFI_INFO_LEN ∧
    st.orig_net_config.length = SIZEOF_net_config_t ∧
    st.new_net_config.length = SIZEOF_net_config_t

/-- The apply handlers of `cmd_handlers.c`. -/
inductive ApplyHandler where
  | set_backlight
  | set_mode
  | set_poweroff
  | set_time
  | set_timezone
  | set_wifi
  deriving DecidableEq, Repr

/-- Payload kind each apply command expects, as section 3 of the specification lists them. -/
def expected_kind : ApplyHandler → cmd_data_t
  | .set_backlight => .CMD_DATA_INT32
  | .set_mode => .CMD_DATA_INT32
  | .set_poweroff => .CMD_DATA_NONE
  | .set_time => .CMD_DATA_BINARY
  | .set_timezone => .CMD_DATA_STRING
  | .set_wifi => .CMD_DATA_BINARY

/-- The handler function behind each apply command. -/
def run_apply : ApplyHandler → cmd_data_t → Nat → List Nat → CmdState → CmdState
  | .set_backlight => cmd_handler_set_backlight
  | .set_mode => cmd_handler_set_mode
  | .set_poweroff => cmd_handler_set_poweroff
  | .set_time => cmd_handler_set_time
  | .set_timezone => cmd_handler_set_timezone
  | .set_wifi => cmd_handler_set_wifi

/-- The value fits a 32-bit signed integer. -/
def int32_range (i : Int) : Prop := -2147483648 ≤ i ∧ i < 2147483648

instance (i : Int) : Decidable (int32_range i) := by unfold int32_range; infer_instance

/-- Every member of the broken-down time fits a 32-bit signed integer. -/
def tm_in_range (te : Tm) : Prop :=
  int32_range te.tm_sec ∧ int32_range te.tm_min ∧ int32_range te.tm_hour ∧
    int32_range te.tm_mday ∧ int32_range te.tm_mon ∧ int32_range te.tm_year ∧
    int32_range te.tm_wday ∧ int32_range te.tm_yday ∧ int32_range te.tm_isdst

instance (te : Tm) : Decidable (tm_in_range te) := by unfold tm_in_range; infer_instance

/-- The 4-byte big-endian two's-complement encoding of a 32-bit signed value. -/
def int32_be (i : Int) : List Nat := htonl_bytes (to_uint32 i)

/-- The nine members in the order sec, min, hour, mday, mon, year, wday, yday, isdst, each
as its 4-byte big-endian encoding. -/
def encode_tm (te : Tm) : List Nat :=
  int32_be te.tm_sec ++ int32_be te.tm_min ++ int32_be te.tm_hour ++ int32_be te.tm_mday ++
    int32_be te.tm_mon ++ int32_be te.tm_year ++ int32_be te.tm_wday ++ int32_be te.tm_yday ++
    int32_be te.tm_isdst

/-- A broken-down time with a negative member. -/
def sample_tm : Tm :=
  { tm_sec := 30, tm_min := 15, tm_hour := 12, tm_mday := 24, tm_mon := 11, tm_year := 124,
    tm_wday := 2, tm_yday := 358, tm_isdst := -1 }

/-- A ready handler state on the all-accepting device: zeroed static buffers and no call
recorded yet. -/
def sample_cmd_state : CmdState :=
  { ps := sample_state
    hw := sample_hw
    send_buf := List.replicate 209 0
    orig_net_config := List.replicate 209 0
    new_net_config := List.replicate 209 0
    te := { tm_sec := 0, tm_min := 0, tm_hour := 0, tm_mday := 0, tm_mon := 0, tm_year := 0,
            tm_wday := 0, tm_yday := 0, tm_isdst := 0 }
    sys_time := sample_tm
    sys_info := []
    sent := []
    ctrl_notify := 0
    time_set_calls := []
    timezone_set_calls := [] }

/-- The 32-bit words of `ws`, each as its four big-endian bytes, one after the other. -/
def concat_words : List Nat → List Nat
  | [] => []
  | w :: ws => htonl_bytes w ++ concat_words ws

/-- The stored network config: the region of the net config in the shadow buffer. -/
def stored_net_config (s : PsState) : List Nat :=
  slice s.ps_shadow_buffer (region_start PS_CONFIG_TYPE_NET) (region_length PS_CONFIG_TYPE_NET)

/-- The wifi payload section 3 of the specification describes for the config `c`: the three
flag bytes, the four text members at their full width, then the three addresses. -/
def wifi_payload (c : List Nat) : List Nat :=
  [c.getD OFS_mdns_en 0, c.getD OFS_sta_mode 0, c.getD OFS_sta_static_ip 0] ++
    slice c OFS_ap_ssid 33 ++ slice c OFS_sta_ssid 33 ++ slice c OFS_ap_pw 64 ++
    slice c OFS_sta_pw 64 ++ slice c OFS_ap_ip_addr 4 ++ slice c OFS_sta_ip_addr 4 ++
    slice c OFS_sta_netmask 4

/-- The three `bool` members of the config hold 0 or 1. -/
def net_flags_bool (c : List Nat) : Prop :=
  c.getD OFS_mdns_en 0 ≤ 1 ∧ c.getD OFS_sta_mode 0 ≤ 1 ∧ c.getD OFS_sta_static_ip 0 ≤ 1

instance (c : List Nat) : Decidable (net_flags_bool c) := by
  unfold net_flags_bool; infer_instance

/-- The array members of `gui_state` have their declared sizes. -/
def GuiReady (g : GuiState) : Prop :=
  g.gui_state.ap_ssid.length = GUI_SSID_MAX_LEN + 1 ∧
    g.gui_state.sta_ssid.length = GUI_SSID_MAX_LEN + 1 ∧
    g.gui_state.ap_pw.length = GUI_PW_MAX_LEN + 1 ∧
    g.gui_state.sta_pw.length = GUI_PW_MAX_LEN + 1 ∧
    g.gui_state.ap_ip_addr.length = 4 ∧ g.gui_state.sta_ip_addr.length = 4 ∧
    g.gui_state.sta_netmask.length = 4

instance (g : GuiState) : Decidable (GuiReady g) := by unfold GuiReady; infer_instance

/-- The GUI variables at start: zeroed static storage. -/
def sample_gui : GuiState :=
  { gui_state :=
      { hour_mode_24 := 0, mdns_en := 0, sta_mode := 0, sta_static_ip := 0
        timezone := List.replicate 65 0
        ap_ssid := List.replicate 33 0, sta_ssid := List.replicate 33 0
        ap_pw := List.replicate 64 0, sta_pw := List.replicate 64 0
        ap_ip_addr := [0, 0, 0, 0], sta_ip_addr := [0, 0, 0, 0], sta_netmask := [0, 0, 0, 0]
        lcd_brightness := 0 }
    gui_init_mask := 0
    time_page_calls := [] }

/-- A network config with text in every member. -/
def sample_net_config : List Nat :=
  [1, 0, 1] ++ ([78, 105, 120, 105, 101] ++ List.replicate 28 0) ++
    ([72, 111, 109, 101] ++ List.replicate 29 0) ++
    ([115, 101, 99, 114, 101, 116, 49, 50] ++ List.replicate 56 0) ++
    ([112, 119] ++ List.replicate 62 0) ++ [1, 4, 168, 192] ++ [2, 4, 168, 192] ++
    [0, 255, 255, 255]

/-- A ready handler state whose stored network config is `sample_net_config`. -/
def sample_net_cmd_state : CmdState :=
  { sample_cmd_state with
    ps := { sample_state with
            ps_shadow_buffer := List.replicate 5 0 ++ sample_net_config ++ List.replicate 106 0 } }

/-- The fields of a string: the runs of characters between dots. -/
def ipv4_fields : List Nat → List (List Nat)
  | [] => [[]]
  | ch :: cs =>
    if ch = 46 then [] :: ipv4_fields cs
    else
      match ipv4_fields cs with
      | [] => [[ch]]
      | f :: fs => (ch :: f) :: fs

/-- Value of a run of decimal digits. -/
def field_value (f : List Nat) : Nat := f.foldl (fun a ch => a * 10 + (ch - 48)) 0

/-- A non-empty run of decimal digits of value 0..255. -/
def is_ipv4_field (f : List Nat) : Bool :=
  !f.isEmpty && f.all (fun ch => decide (48 ≤ ch ∧ ch ≤ 57)) && decide (field_value f ≤ 255)

/-- The documented form of an address string, in the words of the specification: four
non-empty decimal fields, each of value 0..255, separated by three dots. -/
def is_dotted_quad (s : List Nat) : Bool :=
  (ipv4_fields s).length == 4 && (ipv4_fields s).all is_ipv4_field

/-- The member of `n` bytes at offset `ofs` of the config `c` contains a zero byte. -/
def field_terminated (c : List Nat) (ofs n : Nat) : Bool := (slice c ofs n).contains 0

/-- Each text member of the network config `c` contains a zero byte within its capacity. -/
def net_strings_terminated (c : List Nat) : Bool :=
  field_terminated c OFS_ap_ssid (PS_SSID_MAX_LEN + 1) &&
    field_terminated c OFS_sta_ssid (PS_SSID_MAX_LEN + 1) &&
    field_terminated c OFS_ap_pw (PS_PW_MAX_LEN + 1) &&
    field_terminated c OFS_sta_pw (PS_PW_MAX_LEN + 1)

/-- A Set-Wifi payload of 209 bytes: mDNS off, and an access-point SSID member of 33 letters
`A` without a zero byte. -/
def sample_unterminated_payload : List Nat :=
  [0, 0, 0] ++ List.replicate 33 65 ++ List.replicate 173 0

/-- The handler state after `ps_init` at boot on the sample device, whose NVRAM holds no
valid image. -/
def sample_boot_cmd_state : CmdState :=
  { sample_cmd_state with
    ps := (ps_init boot_state sample_hw).2.1
    hw := (ps_init boot_state sample_hw).2.2 }

/-! ## Vocabulary for the completion wait and the kinds of backing-store writes -/

/-- The driver call number `n` is a successful register read that delivers zero. -/
def reads_zero (h : Hw) (n : Nat) : Prop := h.ack n = true ∧ h.regval n % 256 = 0

instance (h : Hw) (n : Nat) : Decidable (reads_zero h n) := by
  unfold reads_zero; infer_instance

/-- The call `ps_save_to_flash` on the state `s` and the device `h` never returns: whatever
number of register reads is granted, it is still in its completion wait. -/
def never_returns (s : PsState) (h : Hw) : Prop :=
  ∀ fuel : Nat, (ps_save_to_flash fuel s h).1 = none

/-- The device `sample_hw` with a control register that always reads 1: the commit is never
reported as done. -/
def sample_hw_busy : Hw := { sample_hw with regval := fun _ => 1 }

/-- The device `sample_hw` accepting the first driver call only: the commit trigger is
accepted and every register read after it fails. -/
def sample_hw_read_fail : Hw := { sample_hw with ack := fun n => n == 0 }

/-- The driver call is a backing-store write of the full image: `PS_RAM_SIZE` bytes at
address 0. -/
def is_full_write : GcoreCall → Bool
  | .set_nvram_bytes addr data => addr == PS_RAM_STARTADDR && data.length == PS_RAM_SIZE
  | _ => false

/-- The driver call is a write of one config region (start and length as in the table of
`ps_init`) or of the single checksum byte. -/
def is_region_write : GcoreCall → Bool
  | .set_nvram_bytes addr data =>
    (List.range PS_NUM_CONFIGS).any fun k =>
      addr == region_start (Int.ofNat k) && data.length == region_length (Int.ofNat k)
  | .set_nvram_byte addr _ => addr == PS_RAM_STARTADDR + PS_CHECKSUM_ADDR
  | _ => false

/-- The driver call is a backing-store write of any kind. -/
def is_nvram_write : GcoreCall → Bool
  | .set_nvram_bytes _ _ => true
  | .set_nvram_byte _ _ => true
  | _ => false

/-- The stored image fails the validation of `ps_init`: it does not start with the magic
word, or its last byte is not the sum of the first 319 bytes modulo 256. -/
def stored_image_invalid (h : Hw) : Prop :=
  ¬ ((stored_image h).getD 0 0 = 0x12 ∧ (stored_image h).getD 1 0 = 0x34) ∨
    (stored_image h).getD 319 0 ≠ ((stored_image h).take 319).sum % 256

instance (h : Hw) : Decidable (stored_image_invalid h) := by
  unfold stored_image_invalid; infer_instance

/-- The sample device with the default image stored: a valid image. -/
def sample_hw_valid : Hw := { sample_hw with nvram := default_image sample_hw }

/-- The stored display config: the region of the GUI config in the shadow buffer. -/
def stored_gui_config (s : PsState) : List Nat :=
  slice s.ps_shadow_buffer (region_start PS_CONFIG_TYPE_GUI) (region_length PS_CONFIG_TYPE_GUI)

/-- The text member of `n` bytes at offset `ofs` of the config `c` as a string: the bytes of
the member before its first zero byte. -/
def net_string (c : List Nat) (ofs n : Nat) : List Nat := c_string (slice c ofs n)

/-- Equality of two network configs in the words of the specification: the same three flags,
the same four strings and the same three addresses. -/
def same_net_config (a b : List Nat) : Prop :=
  (a.getD OFS_mdns_en 0 = b.getD OFS_mdns_en 0 ∧ a.getD OFS_sta_mode 0 = b.getD OFS_sta_mode 0 ∧
    a.getD OFS_sta_static_ip 0 = b.getD OFS_sta_static_ip 0) ∧
  (net_string a OFS_ap_ssid (PS_SSID_MAX_LEN + 1) = net_string b OFS_ap_ssid (PS_SSID_MAX_LEN + 1) ∧
    net_string a OFS_sta_ssid (PS_SSID_MAX_LEN + 1) =
      net_string b OFS_sta_ssid (PS_SSID_MAX_LEN + 1) ∧
    net_string a OFS_ap_pw (PS_PW_MAX_LEN + 1) = net_string b OFS_ap_pw (PS_PW_MAX_LEN + 1) ∧
    net_string a OFS_sta_pw (PS_PW_MAX_LEN + 1) = net_string b OFS_sta_pw (PS_PW_MAX_LEN + 1)) ∧
  (slice a OFS_ap_ip_addr 4 = slice b OFS_ap_ip_addr 4 ∧
    slice a OFS_sta_ip_addr 4 = slice b OFS_sta_ip_addr 4 ∧
    slice a OFS_sta_netmask 4 = slice b OFS_sta_netmask 4)

instance (a b : List Nat) : Decidable (same_net_config a b) := by
  unfold same_net_config; infer_instance

/-- A Set-Wifi payload of 209 bytes that equals `sample_net_config` as a config but differs
from it in a byte after the terminator of the access-point SSID. -/
def sample_same_payload : List Nat := sample_net_config.set 20 7

/-- A Set-Wifi payload of 209 bytes with another access-point SSID than `sample_net_config`. -/
def sample_other_payload : List Nat := sample_net_config.set 3 79

/-! ## Vocabulary for the coordinator -/

/-- The calls recorded in `st2` that are not yet recorded in `st`. -/
def new_events (st st2 : CtrlState) : List CtrlEvent := st2.events.drop st.events.length

/-- The display call that shows the "Low Battery" message. -/
def low_batt_event : CtrlEvent := CtrlEvent.gui_set_secondary_msg (cstr "Low Battery") 0

/-- The pending notification of the pass has all bits of `mask` set. -/
def notified (inp : CtrlInput) (mask : Nat) : Bool :=
  match inp.notification with
  | some v => Notification v mask
  | none => false

/-- The battery is sampled in the pass that starts in `st`. -/
def batt_sampled (st : CtrlState) : Bool := decide (st.batt_sample_count - 1 = 0)

/-- The battery state delivered in the pass is in the 25%-or-lower band. -/
def batt_low (inp : CtrlInput) : Bool := decide (inp.batt_state ≥ BATT_25)

/-- The client presence read in the pass differs from the one remembered. -/
def client_edge (inp : CtrlInput) (st : CtrlState) : Bool :=
  inp.web_has_client != st.prev_client_connected

/-- A restart of the network is carried out in the pass: it was pending, or is requested in
this pass by the notification bit or by a long press of the button. -/
def restart_pending (inp : CtrlInput) (st : CtrlState) : Bool :=
  st.notify_network_restart || notified inp CTRL_NOTIFY_RESTART_NETWORK ||
    inp.long_button_pressed

/-- The flag `notify_shutdown` when the pass reaches the power-off handling: it was set
before (by a failed `power_init` or in an earlier pass), or is set in this pass by the
shutdown bit of the command protocol, by a short press of the button, or by a critical
battery sample. -/
def shutdown_due (inp : CtrlInput) (st : CtrlState) : Bool :=
  st.notify_shutdown || notified inp CTRL_NOTIFY_SHUTDOWN || inp.short_button_pressed ||
    (batt_sampled st && inp.batt_state == BATT_CRIT)

/-- Network availability as the pass evaluates it: associated in station mode, radio
enabled in access-point mode. -/
def wifi_available (inp : CtrlInput) : Bool :=
  if inp.wifi_is_sta then inp.wifi_is_connected else inp.wifi_is_enabled

/-- The backlight is updated in the pass: the update was pending or is requested in this
pass by the notification bit. -/
def backlight_due (inp : CtrlInput) (st : CtrlState) : Bool :=
  st.notify_update_backlight || notified inp CTRL_NOTIFY_UPD_BACKLIGHT

/-- The battery state the power-off handling of the pass looks at: the state sampled in this
pass, or else the one held from before. -/
def batt_state_held (inp : CtrlInput) (st : CtrlState) : Nat :=
  if batt_sampled st then inp.batt_state else st.batt_state

/-- The value the power-off handling of the pass writes to the wake-control register. -/
def wake_value (inp : CtrlInput) (st : CtrlState) : Nat :=
  if batt_state_held inp st = BATT_CRIT then st.regs.GCORE_WK_CHRG_START_MASK else 0

/-- The calls of the backlight statement when the update is due (`due`). -/
def backlight_events (due : Bool) (gui_config : List Nat) (ps : PsState) : List CtrlEvent :=
  if due then
    [CtrlEvent.power_set_brightness
      ((ps_get_config PS_CONFIG_TYPE_GUI gui_config ps).2.getD OFS_lcd_brightness 0)]
  else []

/-- The calls of the battery statement when the battery is sampled (`sampled`), the sample is
in the low band (`low`) and the flag `low_batt_msg_displayed` holds `flag`: the message is
shown when a low sample finds the flag clear, and removed when a sample above the band finds
it set. -/
def battery_events (sampled low flag : Bool) : List CtrlEvent :=
  if sampled then
    if low then
      if flag then []
      else [low_batt_event, CtrlEvent.notify_gui GUI_NOTIFY_SECONDARY_MESSAGE]
    else
      if flag then
        [CtrlEvent.gui_set_secondary_msg (cstr "Low Battery") 1,
         CtrlEvent.notify_gui GUI_NOTIFY_SECONDARY_MESSAGE]
      else []
  else []

/-- The shutdown sequence with the wake-control value `wk`. -/
def shutdown_sequence (regs : GcoreRegs) (wk : Nat) : List CtrlEvent :=
  [CtrlEvent.notify_web WEB_NOTIFY_SHUTDOWN_MASK,
   CtrlEvent.gcore_set_reg8 regs.GCORE_REG_PWR_TM 10,
   CtrlEvent.gcore_set_reg8 regs.GCORE_REG_WK_CTRL wk,
   CtrlEvent.power_off]

/-- The calls of the power-off handling when the flag `notify_shutdown` holds `due`. -/
def shutdown_events (due : Bool) (regs : GcoreRegs) (wk : Nat) : List CtrlEvent :=
  if due then shutdown_sequence regs wk else []

/-- The display calls that name the current network. -/
def wifi_info_events (inp : CtrlInput) (ps : PsState) : List CtrlEvent :=
  [CtrlEvent.gui_set_secondary_msg
     (if inp.wifi_is_sta then
        cstr "Wi-Fi (STA): " ++ c_string ((ps_get_config PS_CONFIG_TYPE_NET
          (List.replicate SIZEOF_net_config_t 0) ps).2.drop OFS_sta_ssid)
      else
        cstr "Wi-Fi (AP): " ++ c_string ((ps_get_config PS_CONFIG_TYPE_NET
          (List.replicate SIZEOF_net_config_t 0) ps).2.drop OFS_ap_ssid)) 5,
   CtrlEvent.notify_gui GUI_NOTIFY_SECONDARY_MESSAGE]

/-- The calls of the connectivity statement when the remembered availability is `prev`: on a
change from false to true the time-sync service is started in station mode only and the
network is named on the display; on a change from true to false the time-sync service is
stopped. -/
def connectivity_events (inp : CtrlInput) (prev : Bool) (ps : PsState) : List CtrlEvent :=
  if wifi_available inp then
    if prev then []
    else (if inp.wifi_is_sta then [CtrlEvent.sntp_start_service] else []) ++
      wifi_info_events inp ps
  else
    if prev then [CtrlEvent.sntp_stop_service] else []

/-- The calls of the client-presence statement when the remembered presence is `prev`. -/
def client_events (inp : CtrlInput) (prev : Bool) : List CtrlEvent :=
  if inp.web_has_client then
    if prev then []
    else [CtrlEvent.gui_set_secondary_msg (cstr "Client Connected") 0,
          CtrlEvent.notify_gui GUI_NOTIFY_SECONDARY_MESSAGE]
  else
    if prev then
      [CtrlEvent.gui_set_secondary_msg (cstr "Client Disconnected") 2,
       CtrlEvent.notify_gui GUI_NOTIFY_SECONDARY_MESSAGE]
    else []

/-- The calls of the network-restart statement when a restart is carried out (`pending`). -/
def restart_events (inp : CtrlInput) (pending : Bool) : List CtrlEvent :=
  if pending then
    [CtrlEvent.gui_set_secondary_msg (cstr "Restarting Wi-Fi...") 2,
     CtrlEvent.notify_gui GUI_NOTIFY_SECONDARY_MESSAGE,
     CtrlEvent.notify_web WEB_NOTIFY_NETWORK_DISC_MASK,
     CtrlEvent.wifi_reinit] ++
    (if inp.wifi_reinit then []
     else [CtrlEvent.gui_set_secondary_msg (cstr "Wi-Fi failed to restart") 5,
           CtrlEvent.notify_gui GUI_NOTIFY_SECONDARY_MESSAGE])
  else []

/-- The calls of one pass up to and including the power-off handling. -/
def head_events (inp : CtrlInput) (st : CtrlState) : List CtrlEvent :=
  backlight_events (backlight_due inp st) st.gui_config st.ps ++
    battery_events (batt_sampled st) (batt_low inp) st.low_batt_msg_displayed ++
    shutdown_events (shutdown_due inp st) st.regs (wake_value inp st)

/-- The calls of one pass after the periodic save, `ps` being the storage state then. -/
def tail_events (inp : CtrlInput) (st : CtrlState) (ps : PsState) : List CtrlEvent :=
  connectivity_events inp st.prev_wifi_available ps ++
    client_events inp st.prev_client_connected ++
    restart_events inp (restart_pending inp st)

/-- Sample register numbers and wake mask. -/
def sample_regs : GcoreRegs :=
  { GCORE_REG_PWR_TM := 12, GCORE_REG_WK_CTRL := 11, GCORE_WK_CHRG_START_MASK := 2 }

/-- A pass in which nothing happens: no notification, no button, a full battery, the radio
off and no client. -/
def idle_input : CtrlInput :=
  { notification := none, short_button_pressed := false, long_button_pressed := false,
    batt_state := BATT_100, wifi_is_sta := false, wifi_is_connected := false,
    wifi_is_enabled := false, web_has_client := false, wifi_reinit := true }

/-- The coordinator after its initialisation on the sample state: `power_init` succeeded and
the uninitialised battery state happens to be `BATT_100`. -/
def sample_ctrl_state : CtrlState :=
  ctrl_task_init BATT_100 true sample_state sample_hw sample_regs

/-- The coordinator after its initialisation when `power_init` failed; `g` is the value the
uninitialised battery state happens to hold. -/
def sample_ctrl_power_fail (g : Nat) : CtrlState :=
  ctrl_task_init g false sample_state sample_hw sample_regs

/-- A state in which both the battery sample and the periodic save are due, the shadow buffer
has changed since the last save and the device never reports the commit as done: the pass
that starts here stalls in `ps_save_to_flash`. -/
def sample_ctrl_stalling : CtrlState :=
  { sample_ctrl_state with
    batt_sample_count := 1
    nvram_save_count := 1
    ps := sample_dirty_state
    hw := sample_hw_busy }

/-! # Lemmas on byte arrays -/

theorem length_storeBytes (bs : List Nat) : ∀ (dst : List Nat) (off : Nat),
    (storeBytes dst off bs).length = dst.length := by
  induction bs with
  | nil => intro dst off; rfl
  | cons b bs ih => intro dst off; simp [storeBytes, ih]

theorem getElem?_storeBytes (bs : List Nat) : ∀ (dst : List Nat) (off i : Nat),
    (storeBytes dst off bs)[i]? =
      if off ≤ i ∧ i < off + bs.length ∧ i < dst.length then bs[i - off]? else dst[i]? := by
  induction bs with
  | nil =>
    intro dst off i
    have : ¬ (off ≤ i ∧ i < off + ([] : List Nat).length ∧ i < dst.length) := by
      simp only [List.length_nil]; omega
    rw [if_neg this]; rfl
  | cons b bs ih =>
    intro dst off i
    simp only [storeBytes, ih, List.length_set, List.length_cons]
    by_cases h1 : off = i
    · subst h1
      by_cases h2 : off < dst.length
      · simp [h2, List.getElem?_set]
      · simp [h2, List.getElem?_set]
        omega
    · by_cases h3 : off + 1 ≤ i ∧ i < off + 1 + bs.length ∧ i < dst.length
      · have h4 : off ≤ i ∧ i < off + (bs.length + 1) ∧ i < dst.length := by omega
        rw [if_pos h3, if_pos h4]
        have : i - off = (i - (off + 1)) + 1 := by omega
        rw [this, List.getElem?_cons_succ]
      · have h4 : ¬ (off ≤ i ∧ i < off + (bs.length + 1) ∧ i < dst.length) := by omega
        rw [if_neg h3, if_neg h4, List.getElem?_set_ne h1]

theorem getElem?_slice (buf : List Nat) (off n i : Nat) :
    (slice buf off n)[i]? = if i < n then buf[off + i]? else none := by
  unfold slice
  rw [List.getElem?_take]
  split <;> simp [List.getElem?_drop]

theorem length_slice (buf : List Nat) (off n : Nat) (h : off + n ≤ buf.length) :
    (slice buf off n).length = n := by
  unfold slice
  simp; omega

theorem slice_zero_length (v : List Nat) : slice v 0 v.length = v := by
  simp [slice]

theorem storeBytes_zero_of_length_eq (cfg bs : List Nat) (h : cfg.length = bs.length) :
    storeBytes cfg 0 bs = bs := by
  apply List.ext_getElem?
  intro i
  rw [getElem?_storeBytes]
  by_cases hi : i < bs.length
  · simp [hi, h]
  · simp [hi, h]
    simp at hi
    rw [List.getElem?_eq_none (by omega), List.getElem?_eq_none hi]

theorem slice_storeBytes_self (dst bs : List Nat) (off : Nat) (h : off + bs.length ≤ dst.length) :
    slice (storeBytes dst off bs) off bs.length = bs := by
  apply List.ext_getElem?
  intro i
  rw [getElem?_slice, getElem?_storeBytes]
  by_cases hi : i < bs.length
  · have : off ≤ off + i ∧ off + i < off + bs.length ∧ off + i < dst.length := by omega
    simp [hi, this]
  · simp [hi]
    omega

theorem slice_set_of_le (buf : List Nat) (off n i x : Nat) (h : off + n ≤ i) :
    slice (buf.set i x) off n = slice buf off n := by
  apply List.ext_getElem?
  intro j
  rw [getElem?_slice, getElem?_slice]
  split
  · rw [List.getElem?_set_ne (by omega)]
  · rfl

/-- The checksum loop adds up the first `n` bytes modulo 256. -/
theorem checksum_fold (l : List Nat) : ∀ n, n ≤ l.length →
    (List.range n).foldl (fun cs i => (cs + l.getD i 0) % 256) 0 = (l.take n).sum % 256 := by
  intro n
  induction n with
  | zero => intro _; simp
  | succ n ih =>
    intro hn
    rw [List.range_succ, List.foldl_append, ih (by omega)]
    simp only [List.foldl_cons, List.foldl_nil]
    rw [List.take_succ, List.sum_append]
    have : l[n]? = some (l.getD n 0) := by
      rw [List.getD_eq_getElem?_getD, List.getElem?_eq_getElem (by omega)]; simp
    rw [this]
    simp [Nat.add_mod]

theorem take_set_of_le (l : List Nat) (m n a : Nat) (h : m ≤ n) :
    (l.set n a).take m = l.take m := by
  apply List.ext_getElem?
  intro i
  rw [List.getElem?_take, List.getElem?_take]
  split
  · rw [List.getElem?_set_ne (by omega)]
  · rfl

theorem getD_set_self (l : List Nat) (n a : Nat) (h : n < l.length) :
    (l.set n a).getD n 0 = a := by
  rw [List.getD_eq_getElem?_getD, List.getElem?_set_self h]
  rfl

/-- The copy loop overwrites the first `n` elements and keeps the length. -/
theorem copyBytes_getElem? (src : List Nat) : ∀ (n : Nat) (dst : List Nat),
    dst.length = src.length → n ≤ src.length →
    (copyBytes dst src n).length = src.length ∧
    ∀ i, (copyBytes dst src n)[i]? = if i < n then src[i]? else dst[i]? := by
  intro n
  unfold copyBytes
  induction n with
  | zero => intro dst hc _; simp [hc]
  | succ n ih =>
    intro dst hc hn
    obtain ⟨hl, hg⟩ := ih dst hc (by omega)
    rw [List.range_succ, List.foldl_append]
    simp only [List.foldl_cons, List.foldl_nil]
    refine ⟨by rw [List.length_set, hl], ?_⟩
    intro i
    by_cases hin : n = i
    · subst hin
      rw [List.getElem?_set_self (by omega), if_pos (by omega), List.getD_eq_getElem?_getD,
        List.getElem?_eq_getElem (by omega)]
      rfl
    · rw [List.getElem?_set_ne hin, hg i]
      by_cases hlt : i < n
      · rw [if_pos hlt, if_pos (by omega)]
      · rw [if_neg hlt, if_neg (by omega)]

/-- Copying a whole array onto one of the same size gives the source. -/
theorem copyBytes_eq (dst src : List Nat) (n : Nat) (hd : dst.length = n) (hs : src.length = n) :
    copyBytes dst src n = src := by
  obtain ⟨_, hg⟩ := copyBytes_getElem? src n dst (by rw [hd, hs]) (by rw [hs])
  apply List.ext_getElem?
  intro i
  rw [hg i]
  split
  · rfl
  · rw [List.getElem?_eq_none (by omega), List.getElem?_eq_none (by omega)]

theorem length_copyBytes (dst src : List Nat) (n : Nat) :
    (copyBytes dst src n).length = dst.length := by
  unfold copyBytes
  generalize List.range n = l
  induction l generalizing dst with
  | nil => rfl
  | cons i l ih => rw [List.foldl_cons, ih, List.length_set]

/-! # Theorems on the persistent storage module -/

set_option maxRecDepth 100000
set_option synthInstance.maxSize 4000

theorem length_ps_init_net_text_fields (buf : List Nat) (base : Nat) :
    (_ps_init_net_text_fields buf base).length = buf.length := by
  unfold _ps_init_net_text_fields
  generalize List.range (PS_SSID_MAX_LEN + 1) = l
  induction l generalizing buf with
  | nil => rfl
  | cons i l ih => simp [List.foldl_cons, ih]

theorem _ps_init_config_memory_length (index : Nat) (s : PsState) (h : Hw) :
    (_ps_init_config_memory index s h).ps_shadow_buffer.length = s.ps_shadow_buffer.length := by
  unfold _ps_init_config_memory
  split_ifs <;> simp [length_storeBytes, length_ps_init_net_text_fields]

theorem _ps_init_config_memory_frame (index : Nat) (s : PsState) (h : Hw) :
    (_ps_init_config_memory index s h).ps_check_buffer = s.ps_check_buffer ∧
    (_ps_init_config_memory index s h).ps_sub_regions = s.ps_sub_regions := by
  unfold _ps_init_config_memory
  split_ifs <;> simp

theorem _ps_init_array_length (s : PsState) (h : Hw) :
    (_ps_init_array s h).ps_shadow_buffer.length = PS_RAM_SIZE := by
  simp [_ps_init_array, _ps_init_config_memory_length]

theorem _ps_init_array_frame (s : PsState) (h : Hw) :
    (_ps_init_array s h).ps_check_buffer = s.ps_check_buffer ∧
    (_ps_init_array s h).ps_sub_regions = s.ps_sub_regions := by
  simp [_ps_init_array, _ps_init_config_memory_frame]

/-- Every state left by `ps_init` is ready, the check buffer being a static array of
`PS_RAM_SIZE` bytes. -/
theorem ps_init_ready (s : PsState) (h : Hw) (hck : s.ps_check_buffer.length = PS_RAM_SIZE) :
    PsReady (ps_init s h).2.1 := by
  unfold ps_init
  have hn : ¬ (SIZEOF_gui_config_t + SIZEOF_net_config_t + SIZEOF_tz_config_t > PS_MAX_DATA_BYTES) := by
    decide
  simp only [hn, if_false]
  split_ifs <;>
    simp [PsReady, _ps_init_array_length, _ps_init_array_frame, _ps_read_array,
      gcore_get_nvram_bytes, length_copyBytes, hck, PS_RAM_SIZE]

/-- The shadow buffer and the sub-region table left by `ps_init`. -/
theorem ps_init_shadow_ready (s : PsState) (h : Hw) :
    (ps_init s h).2.1.ps_shadow_buffer.length = PS_RAM_SIZE ∧
      (ps_init s h).2.1.ps_sub_regions = ps_init_sub_regions := by
  unfold ps_init
  have hn : ¬ (SIZEOF_gui_config_t + SIZEOF_net_config_t + SIZEOF_tz_config_t > PS_MAX_DATA_BYTES) := by
    decide
  simp only [hn, if_false]
  split_ifs <;>
    simp [_ps_init_array_length, _ps_init_array_frame, _ps_read_array,
      gcore_get_nvram_bytes, PS_RAM_SIZE]

theorem region_bounds (k : Int) (hk : 0 ≤ k ∧ k < 3) :
    3 ≤ region_start k ∧ region_start k + region_length k ≤ 295 := by
  obtain ⟨h0, h3⟩ := hk
  have : k = 0 ∨ k = 1 ∨ k = 2 := by omega
  rcases this with rfl | rfl | rfl <;> decide

theorem valid_index_iff (k : Int) : (k ≥ 0 ∧ k < (PS_NUM_CONFIGS : Int)) ↔ (0 ≤ k ∧ k < 3) := by
  simp [PS_NUM_CONFIGS]

/-- Shadow buffer after `ps_set_config` with a valid index. -/
theorem ps_set_config_shadow (k : Int) (v : List Nat) (s : PsState) (h : Hw)
    (hk : 0 ≤ k ∧ k < 3) :
    (ps_set_config k v s h).2.1.ps_shadow_buffer =
      (storeBytes s.ps_shadow_buffer (s.ps_sub_regions.start_index.getD k.toNat 0)
        (slice v 0 (s.ps_sub_regions.length.getD k.toNat 0))).set PS_CHECKSUM_ADDR
        ((List.range PS_CHECKSUM_ADDR).foldl
          (fun cs i => (cs + (storeBytes s.ps_shadow_buffer
            (s.ps_sub_regions.start_index.getD k.toNat 0)
            (slice v 0 (s.ps_sub_regions.length.getD k.toNat 0))).getD i 0) % 256) 0) := by
  have hk2 : k ≥ 0 ∧ k < (PS_NUM_CONFIGS : Int) := (valid_index_iff k).2 hk
  simp only [ps_set_config, hk2, and_self, if_true, _ps_compute_checksum]

/-- C1: after `ps_init`, `ps_set_config(k, v)` followed by `ps_get_config(k)` returns true
and hands back exactly the bytes of `v`, for every valid index `k`, every value `v` of the
size of config `k` and every behaviour of the backing store during the set. -/
theorem ps_set_get_roundtrip (s0 : PsState) (h0 : Hw) (k : Int) (v buf : List Nat) (h : Hw)
    (hk : 0 ≤ k ∧ k < 3) (hv : v.length = region_length k) (hbuf : buf.length = v.length) :
    ps_get_config k buf (ps_set_config k v (ps_init s0 h0).2.1 h).2.1 = (true, v) := by
  obtain ⟨hlen, htab⟩ := ps_init_shadow_ready s0 h0
  have hk2 : k ≥ 0 ∧ k < (PS_NUM_CONFIGS : Int) := (valid_index_iff k).2 hk
  have hb := region_bounds k hk
  have hsub : (ps_set_config k v (ps_init s0 h0).2.1 h).2.1.ps_sub_regions = ps_init_sub_regions := by
    simp only [ps_set_config, hk2, and_self, if_true, htab]
  have hsl : slice v 0 (region_length k) = v := by rw [← hv]; exact slice_zero_length v
  unfold ps_get_config
  rw [if_pos hk2, ps_set_config_shadow k v _ h hk, hsub, htab]
  change (true, storeBytes buf 0 (slice ((storeBytes _ (region_start k)
    (slice v 0 (region_length k))).set PS_CHECKSUM_ADDR _) (region_start k) (region_length k)))
    = (true, v)
  rw [hsl, slice_set_of_le _ _ _ _ _ (by simp only [PS_CHECKSUM_ADDR, PS_RAM_SIZE]; omega)]
  have := slice_storeBytes_self (ps_init s0 h0).2.1.ps_shadow_buffer v (region_start k)
    (by rw [hlen, hv]; simp only [PS_RAM_SIZE]; omega)
  rw [hv] at this
  rw [this, storeBytes_zero_of_length_eq buf v hbuf]

/-- Witness of `ps_set_get_roundtrip`: the display config `[1, 50]` on the sample device. -/
theorem ps_set_get_roundtrip_witness :
    ((0 : Int) ≤ 0 ∧ (0 : Int) < 3) ∧ [1, 50].length = region_length 0 ∧
      [0, 0].length = [1, 50].length ∧
      ps_get_config 0 [0, 0]
        (ps_set_config 0 [1, 50] (ps_init boot_state sample_hw).2.1 sample_hw_reject).2.1
        = (true, [1, 50]) :=
  ⟨by decide, by decide, by decide,
    ps_set_get_roundtrip boot_state sample_hw 0 [1, 50] [0, 0] sample_hw_reject
      (by decide) (by decide) (by decide)⟩

/-- C2: after `ps_set_config(k, v)` with a valid index the byte at the checksum address
(index 319) of the shadow buffer is the sum of the shadow bytes 0..318 modulo 256, for every
value `v` and every prior content of the shadow buffer. -/
theorem ps_set_config_checksum (k : Int) (v : List Nat) (s : PsState) (h : Hw)
    (hk : 0 ≤ k ∧ k < 3) (hlen : s.ps_shadow_buffer.length = PS_RAM_SIZE) :
    (ps_set_config k v s h).2.1.ps_shadow_buffer.getD 319 0 =
      ((ps_set_config k v s h).2.1.ps_shadow_buffer.take 319).sum % 256 := by
  rw [ps_set_config_shadow k v s h hk]
  generalize hb : storeBytes s.ps_shadow_buffer _ _ = b
  have hbl : b.length = 320 := by rw [← hb, length_storeBytes, hlen]; rfl
  have hc : PS_CHECKSUM_ADDR = 319 := rfl
  rw [hc, checksum_fold b 319 (by omega), take_set_of_le b 319 319 _ (le_refl _),
    getD_set_self b 319 _ (by omega)]

/-- Witness of `ps_set_config_checksum`: a timezone string stored in the sample state. -/
theorem ps_set_config_checksum_witness :
    ((0 : Int) ≤ 2 ∧ (2 : Int) < 3) ∧ sample_state.ps_shadow_buffer.length = PS_RAM_SIZE ∧
      (ps_set_config 2 (cstr "UTC0") sample_state sample_hw).2.1.ps_shadow_buffer.getD 319 0 =
        ((ps_set_config 2 (cstr "UTC0") sample_state sample_hw).2.1.ps_shadow_buffer.take
          319).sum % 256 :=
  ⟨by decide, by decide,
    ps_set_config_checksum 2 (cstr "UTC0") sample_state sample_hw (by decide) (by decide)⟩

/-- The update kind chosen by the `switch` for a valid index writes the region of that index. -/
theorem _ps_write_array_of_index (k : Int) (s : PsState) (h : Hw) (hk : 0 ≤ k ∧ k < 3) :
    _ps_write_array (ps_update_type_of k) s h = _ps_write_array_region k.toNat s h := by
  obtain ⟨h0, h3⟩ := hk
  have : k = 0 ∨ k = 1 ∨ k = 2 := by omega
  rcases this with rfl | rfl | rfl <;> rfl

/-- Driver calls made by `ps_set_config` with a valid index, in terms of the updated state. -/
theorem ps_set_config_log (k : Int) (v : List Nat) (s : PsState) (h : Hw)
    (hk : 0 ≤ k ∧ k < 3) :
    (ps_set_config k v s h).2.2.log =
      h.log ++
        (GcoreCall.set_nvram_bytes (s.ps_sub_regions.start_index.getD k.toNat 0)
            (slice (ps_set_config k v s h).2.1.ps_shadow_buffer
              (s.ps_sub_regions.start_index.getD k.toNat 0)
              (s.ps_sub_regions.length.getD k.toNat 0)) ::
          if h.ack h.log.length then
            [GcoreCall.set_nvram_byte 319
              ((ps_set_config k v s h).2.1.ps_shadow_buffer.getD 319 0)]
          else []) := by
  have hk2 : k ≥ 0 ∧ k < (PS_NUM_CONFIGS : Int) := (valid_index_iff k).2 hk
  simp only [ps_set_config, hk2, and_self, if_true, _ps_write_array_of_index k _ h hk]
  simp only [_ps_write_array_region, _ps_write_bytes_to_gcore, gcore_set_nvram_bytes,
    gcore_set_nvram_byte, PS_RAM_STARTADDR, PS_CHECKSUM_ADDR, PS_RAM_SIZE, Nat.zero_add]
  cases hack : h.ack h.log.length <;> simp

/-- C4, counterexample: with a backing store that rejects the region write,
`ps_set_config(GUI, [1, 50])` issues one write only (the two region bytes at address 3);
the checksum byte is not written. -/
theorem ps_set_config_single_write :
    (ps_set_config 0 [1, 50] sample_state sample_hw_reject).2.2.log =
      [GcoreCall.set_nvram_bytes 3 [1, 50]] := by
  decide

/-- C4, amended: `ps_set_config(k, v)` with a valid index first issues the write of region
`k` (at the region's offset, the bytes `v`); the write of the checksum byte at address 319
follows if and only if the region write succeeded.  These are all the driver calls, and the
region write is shorter than the 320-byte image. -/
theorem ps_set_config_writes (k : Int) (v : List Nat) (s : PsState) (h : Hw)
    (hk : 0 ≤ k ∧ k < 3) (hs : PsReady s) (hv : v.length = region_length k) :
    (ps_set_config k v s h).2.2.log =
        h.log ++
          (GcoreCall.set_nvram_bytes (region_start k) v ::
            if h.ack h.log.length then
              [GcoreCall.set_nvram_byte 319
                ((ps_set_config k v s h).2.1.ps_shadow_buffer.getD 319 0)]
            else []) ∧
      v.length < PS_RAM_SIZE := by
  obtain ⟨hlen, _, htab⟩ := hs
  have hb := region_bounds k hk
  refine ⟨?_, by rw [hv]; simp only [PS_RAM_SIZE]; omega⟩
  rw [ps_set_config_log k v s h hk, ps_set_config_shadow k v s h hk, htab]
  change h.log ++ (GcoreCall.set_nvram_bytes (region_start k)
    (slice ((storeBytes _ (region_start k) (slice v 0 (region_length k))).set
      PS_CHECKSUM_ADDR _) (region_start k) (region_length k)) :: _) = _
  have hsl : slice v 0 (region_length k) = v := by rw [← hv]; exact slice_zero_length v
  rw [hsl, slice_set_of_le _ _ _ _ _ (by simp only [PS_CHECKSUM_ADDR, PS_RAM_SIZE]; omega)]
  have := slice_storeBytes_self s.ps_shadow_buffer v (region_start k)
    (by rw [hlen, hv]; simp only [PS_RAM_SIZE]; omega)
  rw [hv] at this
  rw [this]

/-- Witness of `ps_set_config_writes`: a display config written to the sample device. -/
theorem ps_set_config_writes_witness :
    ((0 : Int) ≤ 0 ∧ (0 : Int) < 3) ∧ [1, 50].length = region_length 0 ∧
      (ps_set_config 0 [1, 50] sample_state sample_hw).2.2.log =
        sample_hw.log ++
          (GcoreCall.set_nvram_bytes (region_start 0) [1, 50] ::
            if sample_hw.ack sample_hw.log.length then
              [GcoreCall.set_nvram_byte 319
                ((ps_set_config 0 [1, 50] sample_state sample_hw).2.1.ps_shadow_buffer.getD
                  319 0)]
            else []) ∧
      [1, 50].length < PS_RAM_SIZE :=
  ⟨by decide, by decide,
    ps_set_config_writes 0 [1, 50] sample_state sample_hw (by decide)
      ⟨by decide, by decide, rfl⟩ (by decide)⟩

/-- C5, counterexample: with a backing store that rejects every write,
`ps_set_config(GUI, [1, 50])` still returns true. -/
theorem ps_set_config_true_on_rejected_write :
    sample_hw_reject.ack sample_hw_reject.log.length = false ∧
      (ps_set_config 0 [1, 50] sample_state sample_hw_reject).1 = true := by
  decide

/-- C5, amended: `ps_set_config(k, v)` returns true for every valid index `k`, whatever the
outcome of the backing-store writes (a rejected write is only logged), and false for every
other index. -/
theorem ps_set_config_result (k : Int) (v : List Nat) (s : PsState) (h : Hw) :
    (ps_set_config k v s h).1 = decide (0 ≤ k ∧ k < 3) := by
  by_cases hk : 0 ≤ k ∧ k < 3
  · have hk2 : k ≥ 0 ∧ k < (PS_NUM_CONFIGS : Int) := (valid_index_iff k).2 hk
    simp only [ps_set_config, hk2, and_self, if_true, hk, decide_True]
  · have hk2 : ¬ (k ≥ 0 ∧ k < (PS_NUM_CONFIGS : Int)) := fun c => hk ((valid_index_iff k).1 c)
    simp only [ps_set_config, hk2, if_false, hk, decide_False]

/-- C6: `ps_get_config` returns true for every index in 0..2; for every index below 0 or at
least 3, `ps_get_config`, `ps_set_config` and `ps_reinit_config` return false, leave the
module state (shadow buffer with its checksum byte included) and the caller's buffer as they
were and make no driver call. -/
theorem ps_config_index_check (k : Int) (cfg : List Nat) (s : PsState) (h : Hw) :
    (0 ≤ k ∧ k < 3 → (ps_get_config k cfg s).1 = true) ∧
      (k < 0 ∨ 3 ≤ k →
        ps_get_config k cfg s = (false, cfg) ∧
        ps_set_config k cfg s h = (false, s, h) ∧
        ps_reinit_config k s h = (false, s, h)) := by
  constructor
  · intro hk
    have hk2 : k ≥ 0 ∧ k < (PS_NUM_CONFIGS : Int) := (valid_index_iff k).2 hk
    simp only [ps_get_config, hk2, and_self, if_true]
  · intro hk
    have hk2 : ¬ (k ≥ 0 ∧ k < (PS_NUM_CONFIGS : Int)) := by
      intro c
      have := (valid_index_iff k).1 c
      omega
    simp only [ps_get_config, ps_set_config, ps_reinit_config, hk2, if_false, and_self]

/-- Witness of `ps_config_index_check`: index 1 is accepted; index 3 is refused by all
three functions. -/
theorem ps_config_index_check_witness :
    (ps_get_config 1 [] sample_state).1 = true ∧
      ps_get_config 3 [7, 7] sample_state = (false, [7, 7]) ∧
      (ps_set_config 3 [7, 7] sample_state sample_hw).1 = false ∧
      (ps_set_config 3 [7, 7] sample_state sample_hw).2.1 = sample_state ∧
      (ps_set_config 3 [7, 7] sample_state sample_hw).2.2.log = [] ∧
      (ps_reinit_config 3 sample_state sample_hw).1 = false ∧
      (ps_reinit_config 3 sample_state sample_hw).2.1 = sample_state ∧
      (ps_reinit_config 3 sample_state sample_hw).2.2.log = [] := by
  have h1 := (ps_config_index_check 1 [] sample_state sample_hw).1 (by decide)
  have h3 := (ps_config_index_check 3 [7, 7] sample_state sample_hw).2 (by decide)
  refine ⟨h1, h3.1, ?_, ?_, ?_, ?_, ?_, ?_⟩
  · rw [h3.2.1]
  · rw [h3.2.1]
  · rw [h3.2.1]; rfl
  · rw [h3.2.2]
  · rw [h3.2.2]
  · rw [h3.2.2]; rfl

theorem ps_dirty_iff (s : PsState) : ps_dirty s = true ↔ buffers_differ s := by
  unfold ps_dirty buffers_differ
  rw [List.any_eq_true]
  constructor
  · rintro ⟨i, hi, hne⟩
    exact ⟨i, List.mem_range.1 hi, by simpa using hne⟩
  · rintro ⟨i, hi, hne⟩
    exact ⟨i, List.mem_range.2 hi, by simpa using hne⟩

/-- The polling loop only adds register reads to the log. -/
theorem ps_save_poll_log : ∀ (fuel reg : Nat) (h : Hw),
    ∃ n, n ≤ fuel ∧ (ps_save_poll fuel reg h).2 =
      { h with log := h.log ++ List.replicate n (GcoreCall.get_reg8 h.GCORE_REG_NV_CTRL) } := by
  intro fuel
  induction fuel with
  | zero =>
    intro reg h
    refine ⟨0, le_refl _, ?_⟩
    unfold ps_save_poll
    split_ifs <;> simp
  | succ f ih =>
    intro reg h
    unfold ps_save_poll
    by_cases hr : reg = 0
    · exact ⟨0, Nat.zero_le _, by simp [hr]⟩
    · simp only [hr, if_false]
      obtain ⟨n, hn, he⟩ := ih (gcore_get_reg8 h.GCORE_REG_NV_CTRL reg h).1.2
        (gcore_get_reg8 h.GCORE_REG_NV_CTRL reg h).2
      refine ⟨n + 1, by omega, ?_⟩
      rw [he]
      simp [gcore_get_reg8, List.replicate_succ]

/-- The polling loop ends once a successful read delivers zero. -/
theorem ps_save_poll_done : ∀ (fuel reg : Nat) (h : Hw),
    (∃ j, j < fuel ∧ h.ack (h.log.length + j) = true ∧
      h.regval (h.log.length + j) % 256 = 0) →
    (ps_save_poll fuel reg h).1 = true := by
  intro fuel
  induction fuel with
  | zero => rintro reg h ⟨j, hj, _⟩; omega
  | succ f ih =>
    rintro reg h ⟨j, hj, hack, hval⟩
    unfold ps_save_poll
    by_cases hr : reg = 0
    · simp [hr]
    · simp only [hr, if_false]
      cases j with
      | zero =>
        simp only [Nat.add_zero] at hack hval
        have : (gcore_get_reg8 h.GCORE_REG_NV_CTRL reg h).1.2 = 0 := by
          simp [gcore_get_reg8, hack, hval]
        rw [this]
        unfold ps_save_poll
        simp
      | succ j =>
        apply ih
        refine ⟨j, by omega, ?_, ?_⟩
        · simpa [gcore_get_reg8, Nat.add_assoc, Nat.add_comm 1 j] using hack
        · simpa [gcore_get_reg8, Nat.add_assoc, Nat.add_comm 1 j] using hval

/-- Shape of the result of `ps_save_to_flash` when the buffers differ: the trigger, then
register reads only (none when the trigger was rejected). -/
theorem ps_save_to_flash_dirty (fuel : Nat) (s : PsState) (h : Hw) (hs : PsReady s)
    (hd : buffers_differ s) :
    ∃ n, n ≤ fuel ∧
      (ps_save_to_flash fuel s h).2 =
        { h with log := h.log ++ commit_trigger h ::
            List.replicate n (GcoreCall.get_reg8 h.GCORE_REG_NV_CTRL) } ∧
      (h.ack h.log.length = false → (ps_save_to_flash fuel s h).1 = some s ∧ n = 0) ∧
      (h.ack h.log.length = true →
        (ps_save_to_flash fuel s h).1 = none ∨
        (ps_save_to_flash fuel s h).1 = some { s with ps_check_buffer := s.ps_shadow_buffer }) := by
  have hdirty := (ps_dirty_iff s).2 hd
  have hcopy := copyBytes_eq s.ps_check_buffer s.ps_shadow_buffer PS_RAM_SIZE hs.2.1 hs.1
  have hT : gcore_set_reg8 h.GCORE_REG_NV_CTRL h.GCORE_NVRAM_WR_TRIG h =
      (h.ack h.log.length, { h with log := h.log ++ [commit_trigger h] }) := rfl
  unfold ps_save_to_flash
  simp only [hdirty, if_true, hT, hcopy]
  cases hack : h.ack h.log.length
  · exact ⟨0, Nat.zero_le _, (by simp), (fun _ => by simp), (fun c => by cases c)⟩
  · obtain ⟨n, hn, he⟩ := ps_save_poll_log fuel 1 { h with log := h.log ++ [commit_trigger h] }
    dsimp only at he
    refine ⟨n, hn, ?_, (fun c => by cases c), fun _ => ?_⟩
    · simp only [if_true]
      split_ifs <;> simp [he]
    · simp only [if_true]
      split_ifs
      · right; rfl
      · left; rfl

theorem ps_save_to_flash_clean (fuel : Nat) (s : PsState) (h : Hw) (hd : ¬ buffers_differ s) :
    ps_save_to_flash fuel s h = (some s, h) := by
  have hdirty : ps_dirty s = false := by
    cases hc : ps_dirty s
    · rfl
    · exact absurd ((ps_dirty_iff s).1 hc) hd
  unfold ps_save_to_flash
  simp [hdirty]
/-- When the buffers differ, the trigger is accepted and a successful register read delivers
zero within `fuel` reads, `ps_save_to_flash` returns with the check buffer updated. -/
theorem ps_save_to_flash_completes (fuel : Nat) (s : PsState) (h : Hw) (hs : PsReady s)
    (hd : buffers_differ s) (hack : h.ack h.log.length = true)
    (hpoll : ∃ j, j < fuel ∧ h.ack (h.log.length + 1 + j) = true ∧
      h.regval (h.log.length + 1 + j) % 256 = 0) :
    (ps_save_to_flash fuel s h).1 = some { s with ps_check_buffer := s.ps_shadow_buffer } := by
  have hdirty := (ps_dirty_iff s).2 hd
  have hcopy := copyBytes_eq s.ps_check_buffer s.ps_shadow_buffer PS_RAM_SIZE hs.2.1 hs.1
  have hT : gcore_set_reg8 h.GCORE_REG_NV_CTRL h.GCORE_NVRAM_WR_TRIG h =
      (h.ack h.log.length, { h with log := h.log ++ [commit_trigger h] }) := rfl
  have hdone : (ps_save_poll fuel 1 { h with log := h.log ++ [commit_trigger h] }).1 = true := by
    apply ps_save_poll_done
    obtain ⟨j, hj, h1, h2⟩ := hpoll
    exact ⟨j, hj, by simpa using h1, by simpa using h2⟩
  unfold ps_save_to_flash
  simp only [hdirty, if_true, hT, hcopy, hack, hdone]

theorem get_reg8_ne_commit_trigger (h : Hw) (r : Nat) : GcoreCall.get_reg8 r ≠ commit_trigger h := by
  intro c; cases c

theorem new_calls_append (h : Hw) (l : List GcoreCall) :
    new_calls h { h with log := h.log ++ l } = l := by
  simp [new_calls]

/-- C8: `ps_save_to_flash` issues the commit trigger if and only if at least one of the 320
bytes of the shadow buffer differs from the check (baseline) buffer.  When they are equal it
makes no driver call and changes neither buffer.  When they differ, the trigger is accepted
and the completion poll reads zero, it returns with the baseline equal to the shadow buffer
and the shadow buffer unchanged. -/
theorem ps_save_to_flash_commit (fuel : Nat) (s : PsState) (h : Hw) (hs : PsReady s) :
    (commit_trigger h ∈ new_calls h (ps_save_to_flash fuel s h).2 ↔ buffers_differ s) ∧
    (¬ buffers_differ s → ps_save_to_flash fuel s h = (some s, h)) ∧
    (buffers_differ s → h.ack h.log.length = true →
      (∃ j, j < fuel ∧ h.ack (h.log.length + 1 + j) = true ∧
        h.regval (h.log.length + 1 + j) % 256 = 0) →
      ∃ s2, (ps_save_to_flash fuel s h).1 = some s2 ∧
        s2.ps_check_buffer = s2.ps_shadow_buffer ∧
        s2.ps_shadow_buffer = s.ps_shadow_buffer) := by
  refine ⟨?_, ps_save_to_flash_clean fuel s h, ?_⟩
  · constructor
    · intro hmem
      by_contra hd
      rw [ps_save_to_flash_clean fuel s h hd] at hmem
      simp [new_calls] at hmem
    · intro hd
      obtain ⟨n, _, he, _⟩ := ps_save_to_flash_dirty fuel s h hs hd
      rw [he, new_calls_append]
      exact List.mem_cons_self _ _
  · intro hd hack hpoll
    exact ⟨_, ps_save_to_flash_completes fuel s h hs hd hack hpoll, rfl, rfl⟩

/-- Witness of `ps_save_to_flash_commit`: the sample state after a brightness change, on the
sample device. -/
theorem ps_save_to_flash_commit_witness :
    PsReady sample_dirty_state ∧
      (commit_trigger sample_hw ∈
        new_calls sample_hw (ps_save_to_flash 3 sample_dirty_state sample_hw).2) ∧
      ∃ s2, (ps_save_to_flash 3 sample_dirty_state sample_hw).1 = some s2 ∧
        s2.ps_check_buffer = s2.ps_shadow_buffer ∧
        s2.ps_shadow_buffer = sample_dirty_state.ps_shadow_buffer :=
  have hr : PsReady sample_dirty_state := ⟨by decide, by decide, rfl⟩
  have hd : buffers_differ sample_dirty_state := ⟨4, by decide, by decide⟩
  ⟨hr, (ps_save_to_flash_commit 3 sample_dirty_state sample_hw hr).1.2 hd,
    (ps_save_to_flash_commit 3 sample_dirty_state sample_hw hr).2.2 hd (by decide)
      ⟨0, by decide, by decide, by decide⟩⟩

theorem count_accepted_replicate (h : Hw) (r : Nat) : ∀ (m n : Nat),
    count_accepted h n (List.replicate m (GcoreCall.get_reg8 r)) = 0 := by
  intro m
  induction m with
  | zero => intro n; rfl
  | succ m ih =>
    intro n
    simp only [List.replicate_succ, count_accepted, ih]
    simp [get_reg8_ne_commit_trigger]

theorem accepted_triggers_self (h : Hw) : accepted_triggers h h = 0 := by
  simp [accepted_triggers, new_calls, count_accepted]

/-- C7, counterexample: the buffers differ and the device rejects the first trigger write.
The first `ps_save_to_flash` returns without updating the baseline, and the second call,
made right after with the shadow buffer unchanged, issues the trigger again, sees it
accepted and polls: the second call does perform the commit. -/
theorem ps_save_to_flash_second_call_commits :
    (ps_save_to_flash 3 sample_dirty_state sample_hw_reject_first).1 =
        some sample_dirty_state ∧
      new_calls sample_hw_reject_first
          (ps_save_to_flash 3 sample_dirty_state sample_hw_reject_first).2 =
        [GcoreCall.set_reg8 13 87] ∧
      sample_hw_reject_first.ack 1 = true ∧
      new_calls (ps_save_to_flash 3 sample_dirty_state sample_hw_reject_first).2
          (ps_save_to_flash 3 sample_dirty_state
            (ps_save_to_flash 3 sample_dirty_state sample_hw_reject_first).2).2 =
        [GcoreCall.set_reg8 13 87, GcoreCall.get_reg8 13] := by
  decide
theorem count_accepted_le_one_cons (h : Hw) (n m r : Nat) (c : GcoreCall) :
    count_accepted h n (c :: List.replicate m (GcoreCall.get_reg8 r)) ≤ 1 := by
  simp only [count_accepted, count_accepted_replicate]
  split_ifs <;> omega

theorem accepted_triggers_append (h : Hw) (l : List GcoreCall) :
    accepted_triggers h { h with log := h.log ++ l } = count_accepted h h.log.length l := by
  simp [accepted_triggers, new_calls]

/-- C7, amended: let the first `ps_save_to_flash` return.  If the buffers were equal or the
device accepted the trigger write, a second call made right after it makes no driver call
and changes nothing.  If the buffers differed and the device rejected the trigger write, the
first call has issued the trigger only and returned with the state as it was (the baseline
is not updated), and the second call issues the trigger again.  In every case the device
accepts at most one commit trigger across the two calls. -/
theorem ps_save_to_flash_twice (fuel : Nat) (s s1 : PsState) (h : Hw) (hs : PsReady s)
    (h1 : (ps_save_to_flash fuel s h).1 = some s1) :
    ((¬ buffers_differ s ∨ h.ack h.log.length = true) →
        ps_save_to_flash fuel s1 (ps_save_to_flash fuel s h).2 =
          (some s1, (ps_save_to_flash fuel s h).2)) ∧
      (buffers_differ s → h.ack h.log.length = false →
        s1 = s ∧ new_calls h (ps_save_to_flash fuel s h).2 = [commit_trigger h] ∧
        ∃ n, new_calls (ps_save_to_flash fuel s h).2
            (ps_save_to_flash fuel s1 (ps_save_to_flash fuel s h).2).2 =
          commit_trigger h :: List.replicate n (GcoreCall.get_reg8 h.GCORE_REG_NV_CTRL)) ∧
      accepted_triggers h (ps_save_to_flash fuel s1 (ps_save_to_flash fuel s h).2).2 ≤ 1 := by
  by_cases hd : buffers_differ s
  · obtain ⟨n, _, he, hrej, hacc⟩ := ps_save_to_flash_dirty fuel s h hs hd
    cases hack : h.ack h.log.length
    · -- trigger rejected: the state is unchanged and the second call tries again
      obtain ⟨hst, hn0⟩ := hrej hack
      have hs1 : s1 = s := by
        rw [h1] at hst
        exact (Option.some.inj hst)
      subst hs1 hn0
      obtain ⟨n2, _, he2, _, _⟩ := ps_save_to_flash_dirty fuel s1
        { h with log := h.log ++ commit_trigger h ::
            List.replicate 0 (GcoreCall.get_reg8 h.GCORE_REG_NV_CTRL) } hs hd
      refine ⟨fun c => ?_, fun _ _ => ⟨rfl, ?_, n2, ?_⟩, ?_⟩
      · rcases c with c | c
        · exact absurd hd c
        · cases c
      · rw [he]
        exact new_calls_append _ _
      · rw [he, he2]
        exact new_calls_append _ _
      · rw [he]
        rw [he2]
        dsimp only [commit_trigger, List.replicate]
        rw [List.append_assoc, accepted_triggers_append]
        simp only [List.cons_append, List.nil_append, count_accepted, count_accepted_replicate,
          hack, Bool.false_eq_true, and_false, if_false, Nat.zero_add, Nat.add_zero]
        split_ifs <;> simp
    · -- trigger accepted: the call returns only after the poll, with the baseline updated
      have hs1 : s1 = { s with ps_check_buffer := s.ps_shadow_buffer } := by
        rcases hacc hack with c | c
        · rw [h1] at c; cases c
        · rw [h1] at c; exact Option.some.inj c
      have hclean : ¬ buffers_differ s1 := by
        rw [hs1]
        rintro ⟨i, _, hne⟩
        exact hne rfl
      have h2 := ps_save_to_flash_clean fuel s1 (ps_save_to_flash fuel s h).2 hclean
      refine ⟨fun _ => h2, (fun _ c => by cases c), ?_⟩
      rw [h2, he, accepted_triggers_append]
      exact count_accepted_le_one_cons h _ _ _ _
  · have hc := ps_save_to_flash_clean fuel s h hd
    have hs1 : s1 = s := by
      rw [hc] at h1
      exact (Option.some.inj h1).symm
    subst hs1
    rw [hc, hc]
    exact ⟨fun _ => rfl, fun c => absurd c hd, by rw [accepted_triggers_self]; omega⟩

/-- Witness of `ps_save_to_flash_twice`: the sample state after a brightness change, on the
sample device, which accepts the trigger, and on the device that rejects the first driver
call. -/
theorem ps_save_to_flash_twice_witness :
    PsReady sample_dirty_state ∧
      (ps_save_to_flash 3 sample_dirty_state sample_hw).1 =
        some { sample_dirty_state with
               ps_check_buffer := sample_dirty_state.ps_shadow_buffer } ∧
      ps_save_to_flash 3
          { sample_dirty_state with ps_check_buffer := sample_dirty_state.ps_shadow_buffer }
          (ps_save_to_flash 3 sample_dirty_state sample_hw).2 =
        (some { sample_dirty_state with
                ps_check_buffer := sample_dirty_state.ps_shadow_buffer },
          (ps_save_to_flash 3 sample_dirty_state sample_hw).2) ∧
      accepted_triggers sample_hw
        (ps_save_to_flash 3
          { sample_dirty_state with ps_check_buffer := sample_dirty_state.ps_shadow_buffer }
          (ps_save_to_flash 3 sample_dirty_state sample_hw).2).2 ≤ 1 ∧
      (ps_save_to_flash 3 sample_dirty_state sample_hw_reject_first).1 =
        some sample_dirty_state ∧
      buffers_differ sample_dirty_state ∧
      sample_hw_reject_first.ack sample_hw_reject_first.log.length = false ∧
      (sample_dirty_state = sample_dirty_state ∧
        new_calls sample_hw_reject_first
            (ps_save_to_flash 3 sample_dirty_state sample_hw_reject_first).2 =
          [commit_trigger sample_hw_reject_first] ∧
        ∃ n, new_calls (ps_save_to_flash 3 sample_dirty_state sample_hw_reject_first).2
            (ps_save_to_flash 3 sample_dirty_state
              (ps_save_to_flash 3 sample_dirty_state sample_hw_reject_first).2).2 =
          commit_trigger sample_hw_reject_first ::
            List.replicate n (GcoreCall.get_reg8 sample_hw_reject_first.GCORE_REG_NV_CTRL)) :=
  have hr : PsReady sample_dirty_state := ⟨by decide, by decide, rfl⟩
  have hd : buffers_differ sample_dirty_state := ⟨4, by decide, by decide⟩
  have h1 : (ps_save_to_flash 3 sample_dirty_state sample_hw).1 =
      some { sample_dirty_state with
             ps_check_buffer := sample_dirty_state.ps_shadow_buffer } := by decide
  have h2 : (ps_save_to_flash 3 sample_dirty_state sample_hw_reject_first).1 =
      some sample_dirty_state := by decide
  ⟨hr, h1, (ps_save_to_flash_twice 3 sample_dirty_state _ sample_hw hr h1).1 (Or.inr rfl),
    (ps_save_to_flash_twice 3 sample_dirty_state _ sample_hw hr h1).2.2,
    h2, hd, rfl,
    (ps_save_to_flash_twice 3 sample_dirty_state _ sample_hw_reject_first hr h2).2.1 hd rfl⟩

theorem applyWrites_append (a b : List (Nat × Nat)) (buf : List Nat) :
    applyWrites (a ++ b) buf = applyWrites b (applyWrites a buf) := by
  simp [applyWrites, List.foldl_append]

theorem length_applyWrites (ws : List (Nat × Nat)) : ∀ buf : List Nat,
    (applyWrites ws buf).length = buf.length := by
  induction ws with
  | nil => intro buf; rfl
  | cons w ws ih => intro buf; simp only [applyWrites, List.foldl_cons] at ih ⊢; rw [ih]; simp

theorem storeBytes_eq_applyWrites (bs : List Nat) : ∀ (dst : List Nat) (off : Nat),
    storeBytes dst off bs = applyWrites (writesOf off bs) dst := by
  induction bs with
  | nil => intro dst off; rfl
  | cons b bs ih => intro dst off; simp only [storeBytes, writesOf, ih]; rfl

theorem text_fields_eq_applyWrites (buf : List Nat) (base : Nat) :
    _ps_init_net_text_fields buf base = applyWrites (field_writes base) buf := by
  unfold _ps_init_net_text_fields field_writes
  generalize List.range (PS_SSID_MAX_LEN + 1) = l
  induction l generalizing buf with
  | nil => rfl
  | cons i l ih =>
    rw [List.foldl_cons, ih, List.flatMap_cons, applyWrites_append]
    rfl

/-- A store list leaves an index it does not contain as it was. -/
theorem getElem?_applyWrites_of_not_mem (j : Nat) (ws : List (Nat × Nat)) :
    ∀ buf : List Nat, j ∉ ws.map Prod.fst → (applyWrites ws buf)[j]? = buf[j]? := by
  induction ws with
  | nil => intro buf _; rfl
  | cons w ws ih =>
    intro buf hj
    simp only [List.map_cons, List.mem_cons, not_or] at hj
    simp only [applyWrites, List.foldl_cons] at ih ⊢
    rw [ih _ hj.2, List.getElem?_set_ne (fun c => hj.1 c.symm)]

/-- Two runs of a store list agree at every index the list contains. -/
theorem applyWrites_agree (j : Nat) (ws : List (Nat × Nat)) :
    ∀ b1 b2 : List Nat, b1.length = b2.length → (b1[j]? = b2[j]? ∨ j ∈ ws.map Prod.fst) →
      (applyWrites ws b1)[j]? = (applyWrites ws b2)[j]? := by
  induction ws with
  | nil =>
    intro b1 b2 _ h
    rcases h with h | h
    · exact h
    · cases h
  | cons w ws ih =>
    intro b1 b2 hl h
    simp only [applyWrites, List.foldl_cons] at ih ⊢
    apply ih _ _ (by simp [hl])
    by_cases hw : w.1 = j
    · left
      subst hw
      rw [List.getElem?_set, List.getElem?_set, hl]
      simp
    · rcases h with h | h
      · left; rw [List.getElem?_set_ne hw, List.getElem?_set_ne hw, h]
      · right
        simp only [List.map_cons, List.mem_cons] at h
        rcases h with h | h
        · exact absurd h.symm hw
        · exact h

theorem applyWrites_map (f : Nat → Nat) (ws : List (Nat × Nat)) : ∀ buf : List Nat,
    (applyWrites ws buf).map f = applyWrites (ws.map fun w => (w.1, f w.2)) (buf.map f) := by
  induction ws with
  | nil => intro buf; rfl
  | cons w ws ih =>
    intro buf
    simp only [applyWrites, List.foldl_cons, List.map_cons] at ih ⊢
    rw [ih, List.map_set]

theorem writesOf_map (f : Nat → Nat) (bs : List Nat) : ∀ off : Nat,
    (writesOf off bs).map (fun w => (w.1, f w.2)) = writesOf off (bs.map f) := by
  induction bs with
  | nil => intro off; rfl
  | cons b bs ih => intro off; simp only [writesOf, List.map_cons, ih]

theorem writesOf_fst (bs : List Nat) : ∀ off : Nat,
    (writesOf off bs).map Prod.fst = List.range' off bs.length := by
  induction bs with
  | nil => intro off; rfl
  | cons b bs ih => intro off; simp only [writesOf, List.map_cons, ih, List.length_cons, List.range'_succ]
theorem ps_init_sub_regions_start :
    ps_init_sub_regions.start_index.getD 0 0 = 3 ∧ ps_init_sub_regions.start_index.getD 1 0 = 5 ∧
      ps_init_sub_regions.start_index.getD 2 0 = 214 := by
  decide

/-- With the table of `ps_init`, `_ps_init_config_memory` performs the stores of
`config_writes` on the shadow buffer and touches nothing else. -/
theorem _ps_init_config_memory_eq (index : Nat) (s : PsState) (h : Hw)
    (htab : s.ps_sub_regions = ps_init_sub_regions) :
    _ps_init_config_memory index s h =
      { s with ps_shadow_buffer :=
          (applyWrites (config_writes index (default_ap_ssid_bytes (ap_mac h)))
            s.ps_shadow_buffer) } := by
  obtain ⟨sh, ck, tab⟩ := s
  simp only at htab
  subst htab
  unfold _ps_init_config_memory config_writes
  by_cases h0 : index = PS_CONFIG_TYPE_GUI
  · subst h0
    simp only [if_true]
    simp only [PS_CONFIG_TYPE_GUI, ps_init_sub_regions_start.1]
    rfl
  · by_cases h1 : index = PS_CONFIG_TYPE_NET
    · subst h1
      have hne : ¬ (PS_CONFIG_TYPE_NET = PS_CONFIG_TYPE_GUI) := by decide
      simp only [hne, if_false, if_true]
      simp only [PS_CONFIG_TYPE_NET, ps_init_sub_regions_start.2.1,
        text_fields_eq_applyWrites, storeBytes_eq_applyWrites, net_writes, applyWrites_append,
        ap_mac]
      simp only [applyWrites, List.foldl_cons, List.foldl_nil]
    · by_cases h2 : index = PS_CONFIG_TYPE_TZ
      · subst h2
        have hne0 : ¬ (PS_CONFIG_TYPE_TZ = PS_CONFIG_TYPE_GUI) := by decide
        have hne1 : ¬ (PS_CONFIG_TYPE_TZ = PS_CONFIG_TYPE_NET) := by decide
        simp only [hne0, hne1, if_false, if_true]
        simp only [PS_CONFIG_TYPE_TZ, ps_init_sub_regions_start.2.2, storeBytes_eq_applyWrites,
          tz_writes]
      · simp only [h0, h1, h2, if_false]
        rfl
theorem fill_marks_of_lt (sfx : List Nat) (x : Nat) (hx : x < 256) : fill_marks sfx x = x := by
  unfold fill_marks
  split_ifs <;> omega

theorem map_fill_marks_small (sfx : List Nat) (l : List Nat) (hl : ∀ x ∈ l, x < 256) :
    l.map (fill_marks sfx) = l := by
  induction l with
  | nil => rfl
  | cons a l ih =>
    rw [List.map_cons, fill_marks_of_lt sfx a (hl a (List.mem_cons_self _ _)),
      ih (fun x hx => hl x (List.mem_cons_of_mem _ hx))]

theorem map_writes_small (sfx : List Nat) (ws : List (Nat × Nat)) (hl : ∀ w ∈ ws, w.2 < 256) :
    ws.map (fun w => (w.1, fill_marks sfx w.2)) = ws := by
  induction ws with
  | nil => rfl
  | cons a l ih =>
    rw [List.map_cons, fill_marks_of_lt sfx a.2 (hl a (List.mem_cons_self _ _)),
      ih (fun x hx => hl x (List.mem_cons_of_mem _ hx))]

theorem fill_marks_suffix (a b c d : Nat) :
    suffix_marks.map (fill_marks [a, b, c, d]) = [a, b, c, d] := by
  rfl

theorem config_writes_zero (ssid : List Nat) : config_writes 0 ssid = gui_writes 3 := rfl
theorem config_writes_one (ssid : List Nat) : config_writes 1 ssid = net_writes 5 ssid := rfl
theorem config_writes_two (ssid : List Nat) : config_writes 2 ssid = tz_writes 214 := rfl

/-- The stores of `_ps_init_array` for an SSID suffix are those for the stand-ins, with the
stand-ins replaced. -/
theorem array_writes_fill (a b c d : Nat) :
    array_writes (PS_DEFAULT_AP_SSID ++ [a, b, c, d] ++ [0]) =
      (array_writes (PS_DEFAULT_AP_SSID ++ suffix_marks ++ [0])).map
        (fun w => (w.1, fill_marks [a, b, c, d] w.2)) := by
  have e0 := map_writes_small [a, b, c, d]
    [(PS_MAGIC_WORD_0_ADDR, PS_MAGIC_WORD_0), (PS_MAGIC_WORD_1_ADDR, PS_MAGIC_WORD_1),
     (PS_LAYOUT_VERSION_ADDR, PS_LAYOUT_VERSION)] (by decide)
  have e1 := map_writes_small [a, b, c, d] (gui_writes 3) (by decide)
  have e2 := map_writes_small [a, b, c, d]
    [(5 + OFS_mdns_en, boolByte true), (5 + OFS_sta_mode, boolByte false),
     (5 + OFS_sta_static_ip, boolByte false)] (by decide)
  have e3 := map_writes_small [a, b, c, d] (field_writes 5) (by decide)
  have e4 := map_writes_small [a, b, c, d]
    [(5 + OFS_ap_ip_addr + 3, 192), (5 + OFS_ap_ip_addr + 2, 168),
        (5 + OFS_ap_ip_addr + 1, 4), (5 + OFS_ap_ip_addr + 0, 1),
        (5 + OFS_sta_ip_addr + 3, 192), (5 + OFS_sta_ip_addr + 2, 168),
        (5 + OFS_sta_ip_addr + 1, 4), (5 + OFS_sta_ip_addr + 0, 2),
        (5 + OFS_sta_netmask + 3, 255), (5 + OFS_sta_netmask + 2, 255),
        (5 + OFS_sta_netmask + 1, 255), (5 + OFS_sta_netmask + 0, 0)] (by decide)
  have e5 := map_writes_small [a, b, c, d] (tz_writes 214) (by decide)
  have e6 := map_fill_marks_small [a, b, c, d] PS_DEFAULT_AP_SSID (by decide)
  have e7 : [0].map (fill_marks [a, b, c, d]) = [0] := rfl
  simp only [array_writes, config_writes_zero, config_writes_one, config_writes_two, net_writes,
    List.map_append, writesOf_map, e0, e1, e2, e3, e4, e5, e6, e7, fill_marks_suffix]

/-- The stores of `_ps_init_array`, run on the zeroed buffer with the stand-ins as suffix. -/
theorem applyWrites_array_marks :
    applyWrites (array_writes (PS_DEFAULT_AP_SSID ++ suffix_marks ++ [0]))
      (List.replicate PS_RAM_SIZE 0) = default_payload suffix_marks ++ [0] := by
  decide

theorem default_payload_fill (a b c d : Nat) :
    (default_payload suffix_marks ++ [0]).map (fill_marks [a, b, c, d]) =
      default_payload [a, b, c, d] ++ [0] := by
  have e1 := map_fill_marks_small [a, b, c, d] default_image_head (by decide)
  have e2 := map_fill_marks_small [a, b, c, d] default_image_tail (by decide)
  have e7 : [0].map (fill_marks [a, b, c, d]) = [0] := rfl
  simp only [default_payload, List.map_append, e1, e2, e7, fill_marks_suffix]

/-- The stores of `_ps_init_array` turn the zeroed buffer into the default payload. -/
theorem applyWrites_array (a b c d : Nat) :
    applyWrites (array_writes (PS_DEFAULT_AP_SSID ++ [a, b, c, d] ++ [0]))
      (List.replicate PS_RAM_SIZE 0) = default_payload [a, b, c, d] ++ [0] := by
  have hz : List.replicate PS_RAM_SIZE 0 =
      (List.replicate PS_RAM_SIZE 0).map (fill_marks [a, b, c, d]) := by
    rw [List.map_replicate]; rfl
  rw [array_writes_fill, hz, ← applyWrites_map, applyWrites_array_marks, default_payload_fill]
theorem ps_nibble_to_ascii_eq (n : Nat) : ps_nibble_to_ascii n = hex_digit (n % 16) := by
  unfold ps_nibble_to_ascii hex_digit
  have : n % 256 % 16 = n % 16 := by omega
  simp only [this]
  split_ifs <;> omega

theorem ap_mac_bytes (h : Hw) :
    (ap_mac h).getD 4 0 = h.mac.getD 4 0 % 256 ∧
      (ap_mac h).getD 5 0 = (h.mac.getD 5 0 % 256 + 1) % 256 := by
  have hr : List.range 6 = [0, 1, 2, 3, 4, 5] := by decide
  simp [ap_mac, esp_efuse_mac_get_default, hr]

/-- The bytes `sprintf` writes: the fixed part, the four hexadecimal digits, a zero. -/
theorem default_ap_ssid_bytes_eq (h : Hw) :
    default_ap_ssid_bytes (ap_mac h) = PS_DEFAULT_AP_SSID ++ default_ssid_suffix h ++ [0] := by
  obtain ⟨h4, h5⟩ := ap_mac_bytes h
  unfold default_ap_ssid_bytes default_ssid_suffix
  rw [h4, h5]
  simp only [ps_nibble_to_ascii_eq, List.append_assoc, List.cons_append, List.nil_append]
  have e1 : h.mac.getD 4 0 % 256 / 16 % 16 = h.mac.getD 4 0 % 256 / 16 := by omega
  have e2 : h.mac.getD 4 0 % 256 % 16 = h.mac.getD 4 0 % 256 % 16 := rfl
  have e3 : (h.mac.getD 5 0 % 256 + 1) % 256 / 16 % 16 = (h.mac.getD 5 0 % 256 + 1) % 256 / 16 := by
    omega
  rw [e1, e3]

theorem length_default_payload (sfx : List Nat) (hs : sfx.length = 4) :
    (default_payload sfx).length = 319 := by
  have e1 : default_image_head.length = 19 := by decide
  have e2 : default_image_tail.length = 296 := by decide
  simp only [default_payload, List.length_append, e1, e2, hs]

theorem _ps_init_config_memory_mk (index : Nat) (sh ck : List Nat) (h : Hw) :
    _ps_init_config_memory index
        { ps_shadow_buffer := sh, ps_check_buffer := ck, ps_sub_regions := ps_init_sub_regions } h =
      { ps_shadow_buffer :=
          (applyWrites (config_writes index (default_ap_ssid_bytes (ap_mac h))) sh),
        ps_check_buffer := ck, ps_sub_regions := ps_init_sub_regions } :=
  _ps_init_config_memory_eq index _ h rfl

/-- The image `_ps_init_array` builds is the default image, whatever the state before. -/
theorem _ps_init_array_eq (s : PsState) (h : Hw) (htab : s.ps_sub_regions = ps_init_sub_regions) :
    _ps_init_array s h = { s with ps_shadow_buffer := default_image h } := by
  obtain ⟨sh, ck, tab⟩ := s
  simp only at htab
  subst htab
  have hw : ∀ buf : List Nat,
      applyWrites (config_writes PS_CONFIG_TYPE_TZ (default_ap_ssid_bytes (ap_mac h)))
        (applyWrites (config_writes PS_CONFIG_TYPE_NET (default_ap_ssid_bytes (ap_mac h)))
          (applyWrites (config_writes PS_CONFIG_TYPE_GUI (default_ap_ssid_bytes (ap_mac h)))
            (((buf.set PS_MAGIC_WORD_0_ADDR PS_MAGIC_WORD_0).set PS_MAGIC_WORD_1_ADDR
              PS_MAGIC_WORD_1).set PS_LAYOUT_VERSION_ADDR PS_LAYOUT_VERSION))) =
        applyWrites (array_writes (default_ap_ssid_bytes (ap_mac h))) buf := by
    intro buf
    simp only [array_writes, applyWrites_append]
    rfl
  have hp : applyWrites (array_writes (default_ap_ssid_bytes (ap_mac h)))
      (List.replicate PS_RAM_SIZE 0) = default_payload (default_ssid_suffix h) ++ [0] := by
    rw [default_ap_ssid_bytes_eq]
    exact applyWrites_array _ _ _ _
  have hl := length_default_payload (default_ssid_suffix h) rfl
  unfold _ps_init_array
  simp only [_ps_init_config_memory_mk, hw, hp, _ps_compute_checksum]
  have hc : PS_CHECKSUM_ADDR = 319 := rfl
  rw [hc, checksum_fold _ 319 (by simp [hl]), List.take_left' hl]
  have : (default_payload (default_ssid_suffix h) ++ [0]).set 319
      ((default_payload (default_ssid_suffix h)).sum % 256) = default_image h := by
    unfold default_image
    rw [← hl, List.set_append_right _ _ (le_refl _)]
    simp
  rw [this]
theorem length_stored_image (h : Hw) : (stored_image h).length = 320 := by
  simp [stored_image, gcore_get_nvram_bytes, PS_RAM_SIZE]

theorem length_default_image (h : Hw) : (default_image h).length = 320 := by
  simp [default_image, length_default_payload (default_ssid_suffix h) rfl]

theorem default_image_checksum (h : Hw) :
    (default_image h).getD 319 0 = ((default_image h).take 319).sum % 256 := by
  have hl := length_default_payload (default_ssid_suffix h) rfl
  unfold default_image
  rw [List.take_left' hl, List.getD_eq_getElem?_getD, List.getElem?_append_right (by omega), hl]
  rfl

theorem _ps_init_array_mk (sh ck : List Nat) (h : Hw) :
    _ps_init_array
        { ps_shadow_buffer := sh, ps_check_buffer := ck, ps_sub_regions := ps_init_sub_regions } h =
      { ps_shadow_buffer := default_image h, ps_check_buffer := ck,
        ps_sub_regions := ps_init_sub_regions } :=
  _ps_init_array_eq _ h rfl

/-- The body of `ps_init` after the size check and the NVRAM read. -/
theorem ps_init_eq (s : PsState) (h : Hw) :
    ps_init s h =
      if (!_ps_valid_magic_word (ps_init_loaded s h) ||
          _ps_compute_checksum (ps_init_loaded s h) !=
            (stored_image h).getD PS_CHECKSUM_ADDR 0) = true then
        if (!(_ps_write_array .FULL (_ps_init_array (ps_init_loaded s h) (ps_init_read_hw h))
              (ps_init_read_hw h)).1) = true then
          (false, _ps_init_array (ps_init_loaded s h) (ps_init_read_hw h),
            (_ps_write_array .FULL (_ps_init_array (ps_init_loaded s h) (ps_init_read_hw h))
              (ps_init_read_hw h)).2)
        else
          (true, _ps_init_array (ps_init_loaded s h) (ps_init_read_hw h),
            (_ps_write_array .FULL (_ps_init_array (ps_init_loaded s h) (ps_init_read_hw h))
              (ps_init_read_hw h)).2)
      else
        (true, ps_init_loaded s h, ps_init_read_hw h) := by
  have hn : ¬ (SIZEOF_gui_config_t + SIZEOF_net_config_t + SIZEOF_tz_config_t > PS_MAX_DATA_BYTES) := by
    decide
  unfold ps_init
  simp only [hn, if_false]
  rfl

theorem ps_init_loaded_checksum (s : PsState) (h : Hw) :
    _ps_compute_checksum (ps_init_loaded s h) = ((stored_image h).take 319).sum % 256 := by
  have hc : PS_CHECKSUM_ADDR = 319 := rfl
  simp only [_ps_compute_checksum, hc, ps_init_loaded]
  exact checksum_fold _ 319 (by rw [length_stored_image]; omega)

/-- The validity test of `ps_init` fails exactly for the images described in C3. -/
theorem ps_init_invalid_iff (s : PsState) (h : Hw) :
    (!_ps_valid_magic_word (ps_init_loaded s h) ||
        _ps_compute_checksum (ps_init_loaded s h) != (stored_image h).getD PS_CHECKSUM_ADDR 0) = true ↔
      (¬ ((stored_image h).getD 0 0 = 0x12 ∧ (stored_image h).getD 1 0 = 0x34) ∨
        (stored_image h).getD 319 0 ≠ ((stored_image h).take 319).sum % 256) := by
  have hc : PS_CHECKSUM_ADDR = 319 := rfl
  rw [ps_init_loaded_checksum, hc]
  simp only [_ps_valid_magic_word, ps_init_loaded, PS_MAGIC_WORD_0_ADDR, PS_MAGIC_WORD_1_ADDR,
    PS_MAGIC_WORD_0, PS_MAGIC_WORD_1, Bool.or_eq_true, Bool.not_eq_true', Bool.and_eq_false_iff,
    bne_iff_ne, ne_eq, beq_eq_false_iff_ne, not_and_or]
  constructor
  · rintro (hm | hs)
    · exact Or.inl hm
    · exact Or.inr (fun c => hs c.symm)
  · rintro (hm | hs)
    · exact Or.inl hm
    · exact Or.inr (fun c => hs c.symm)

theorem _ps_write_array_full_default (ck : List Nat) (h hw : Hw) :
    _ps_write_array .FULL
        { ps_shadow_buffer := default_image h, ps_check_buffer := ck,
          ps_sub_regions := ps_init_sub_regions } hw =
      (hw.ack hw.log.length,
        { hw with log := hw.log ++ [GcoreCall.set_nvram_bytes 0 (default_image h)] }) := by
  have : slice (default_image h) 0 PS_RAM_SIZE = default_image h := by
    have := slice_zero_length (default_image h)
    rwa [length_default_image] at this
  simp only [_ps_write_array, _ps_write_bytes_to_gcore, gcore_set_nvram_bytes, this,
    PS_RAM_STARTADDR]

/-- Result of `ps_init` on an invalid stored image. -/
theorem ps_init_of_invalid (s : PsState) (h : Hw)
    (hbad : ¬ ((stored_image h).getD 0 0 = 0x12 ∧ (stored_image h).getD 1 0 = 0x34) ∨
      (stored_image h).getD 319 0 ≠ ((stored_image h).take 319).sum % 256) :
    ps_init s h =
      (h.ack (h.log.length + 1),
        { ps_shadow_buffer := default_image h,
          ps_check_buffer := copyBytes s.ps_check_buffer (stored_image h) PS_RAM_SIZE,
          ps_sub_regions := ps_init_sub_regions },
        { h with log := h.log ++ [GcoreCall.get_nvram_bytes 0 320,
                                  GcoreCall.set_nvram_bytes 0 (default_image h)] }) := by
  have e : default_image (ps_init_read_hw h) = default_image h := rfl
  rw [ps_init_eq, if_pos ((ps_init_invalid_iff s h).2 hbad)]
  simp only [ps_init_loaded, _ps_init_array_mk, e, _ps_write_array_full_default]
  simp only [ps_init_read_hw, List.length_append, List.length_singleton, List.append_assoc,
    List.singleton_append]
  cases h.ack (h.log.length + 1) <;> rfl

/-- C3: when the stored image (the 320 bytes the NVRAM read delivers) does not start with
`0x12 0x34`, or its last byte is not the sum of its first 319 bytes modulo 256, `ps_init`
leaves the shadow buffer equal to the default image (magic word, layout version 1, default
display, network and timezone configs, valid checksum), and the only backing-store write it
issues is one write of that whole image: address 0, 320 bytes. -/
theorem ps_init_corrupted_image (s : PsState) (h : Hw)
    (hbad : ¬ ((stored_image h).getD 0 0 = 0x12 ∧ (stored_image h).getD 1 0 = 0x34) ∨
      (stored_image h).getD 319 0 ≠ ((stored_image h).take 319).sum % 256) :
    (ps_init s h).2.1.ps_shadow_buffer = default_image h ∧
    (default_image h).length = 320 ∧
    (default_image h).getD 319 0 = ((default_image h).take 319).sum % 256 ∧
    (ps_init s h).2.2.log =
      h.log ++ [GcoreCall.get_nvram_bytes 0 320, GcoreCall.set_nvram_bytes 0 (default_image h)] := by
  rw [ps_init_of_invalid s h hbad]
  exact ⟨rfl, length_default_image h, default_image_checksum h, rfl⟩

/-- Witness of `ps_init_corrupted_image`: the default image with one bit of the brightness
byte flipped. -/
theorem ps_init_corrupted_image_witness :
    (stored_image sample_hw_bit_flipped).getD 319 0 ≠
        ((stored_image sample_hw_bit_flipped).take 319).sum % 256 ∧
      (ps_init boot_state sample_hw_bit_flipped).2.1.ps_shadow_buffer =
        default_image sample_hw_bit_flipped ∧
      (ps_init boot_state sample_hw_bit_flipped).2.2.log =
        sample_hw_bit_flipped.log ++
          [GcoreCall.get_nvram_bytes 0 320,
            GcoreCall.set_nvram_bytes 0 (default_image sample_hw_bit_flipped)] :=
  have hb : (stored_image sample_hw_bit_flipped).getD 319 0 ≠
      ((stored_image sample_hw_bit_flipped).take 319).sum % 256 := by decide
  ⟨hb, (ps_init_corrupted_image boot_state sample_hw_bit_flipped (Or.inr hb)).1,
    (ps_init_corrupted_image boot_state sample_hw_bit_flipped (Or.inr hb)).2.2.2⟩

/-- C9, counterexample: after a 26-character timezone string has been stored,
`ps_reinit_config(TZ)` leaves the characters of that string beyond the default string in
place, so the timezone region differs from the one of the default image `ps_init` builds
for a corrupted store on the same device. -/
theorem ps_reinit_config_keeps_stale_bytes :
    slice (ps_reinit_config 2 sample_long_tz_state sample_hw).2.1.ps_shadow_buffer 214 81 ≠
        slice (ps_init boot_state sample_hw).2.1.ps_shadow_buffer 214 81 ∧
      (ps_reinit_config 2 sample_long_tz_state sample_hw).2.1.ps_shadow_buffer.getD 237 0 = 48 ∧
      (ps_init boot_state sample_hw).2.1.ps_shadow_buffer.getD 237 0 = 0 := by
  decide

theorem length_default_ap_ssid_bytes (mac : List Nat) : (default_ap_ssid_bytes mac).length = 16 := by
  have : PS_DEFAULT_AP_SSID.length = 11 := by decide
  simp [default_ap_ssid_bytes, this]

theorem config_writes_indices (index : Nat) (ssid : List Nat) (hl : ssid.length = 16) :
    (config_writes index ssid).map Prod.fst = config_indices index := by
  unfold config_indices config_writes
  split_ifs
  · rfl
  · simp only [net_writes, List.map_append, writesOf_fst, hl, List.length_replicate]
  · rfl
  · rfl

/-- Written indices are among the stores of the initialiser (checked by evaluation). -/
theorem init_written_mem : ∀ k : Nat, k < 3 → ∀ j : Nat, j < 320 →
    init_written (Int.ofNat k) j = true → j ∈ config_indices k := by
  decide

/-- Written indices of one config are not stored to by the initialiser of another config
(checked by evaluation). -/
theorem init_written_not_mem : ∀ k : Nat, k < 3 → ∀ j : Nat, j < 320 →
    init_written (Int.ofNat k) j = true →
      (k ≠ 0 → j ∉ config_indices 0) ∧ (k ≠ 1 → j ∉ config_indices 1) ∧
        (k ≠ 2 → j ∉ config_indices 2) := by
  decide

theorem init_written_lt (k : Int) (j : Nat) (h : init_written k j = true) : j < 295 := by
  unfold init_written at h
  split_ifs at h <;> simp at h <;> omega
theorem ap_mac_congr (h h2 : Hw) (hm : h2.mac = h.mac) : ap_mac h2 = ap_mac h := by
  unfold ap_mac esp_efuse_mac_get_default
  rw [hm]

theorem default_image_congr (h h2 : Hw) (hm : h2.mac = h.mac) :
    default_image h2 = default_image h := by
  unfold default_image default_ssid_suffix
  rw [hm]

theorem applyWrites_array_default (h : Hw) :
    applyWrites (array_writes (default_ap_ssid_bytes (ap_mac h)))
      (List.replicate PS_RAM_SIZE 0) = default_payload (default_ssid_suffix h) ++ [0] := by
  rw [default_ap_ssid_bytes_eq]
  exact applyWrites_array _ _ _ _

/-- The default image as the result of the stores of `_ps_init_array`, below index 319. -/
theorem default_image_getElem? (h : Hw) (j : Nat) (hj : j < 319) :
    (default_image h)[j]? =
      (applyWrites (array_writes (default_ap_ssid_bytes (ap_mac h)))
        (List.replicate PS_RAM_SIZE 0))[j]? := by
  have hl := length_default_payload (default_ssid_suffix h) rfl
  rw [applyWrites_array_default]
  unfold default_image
  rw [List.getElem?_append_left (by rw [hl]; exact hj),
    List.getElem?_append_left (by rw [hl]; exact hj)]

/-- State and hardware after `ps_reinit_config` with a valid index. -/
theorem ps_reinit_config_eq (k : Int) (s : PsState) (h : Hw) (hk : 0 ≤ k ∧ k < 3)
    (htab : s.ps_sub_regions = ps_init_sub_regions) :
    (ps_reinit_config k s h).2.1.ps_shadow_buffer =
        (applyWrites (config_writes k.toNat (default_ap_ssid_bytes (ap_mac h)))
          s.ps_shadow_buffer).set 319
          (((applyWrites (config_writes k.toNat (default_ap_ssid_bytes (ap_mac h)))
            s.ps_shadow_buffer).take 319).sum % 256) ∧
      (ps_reinit_config k s h).2.1.ps_check_buffer = s.ps_check_buffer ∧
      (ps_reinit_config k s h).2.1.ps_sub_regions = s.ps_sub_regions ∧
      (ps_reinit_config k s h).2.2.mac = h.mac := by
  have hk2 : k ≥ 0 ∧ k < (PS_NUM_CONFIGS : Int) := (valid_index_iff k).2 hk
  have hc : PS_CHECKSUM_ADDR = 319 := rfl
  obtain ⟨sh, ck, tab⟩ := s
  simp only at htab
  subst htab
  simp only [ps_reinit_config, hk2, and_self, if_true, _ps_init_config_memory_mk,
    _ps_compute_checksum, hc, _ps_write_array_of_index k _ h hk]
  refine ⟨?_, trivial, trivial, ?_⟩
  · by_cases hlen : 319 ≤ sh.length
    · rw [checksum_fold _ 319 (by rw [length_applyWrites]; exact hlen)]
    · rw [List.set_eq_of_length_le (by rw [length_applyWrites]; omega),
        List.set_eq_of_length_le (by rw [length_applyWrites]; omega)]
  · simp only [_ps_write_array_region, _ps_write_bytes_to_gcore, gcore_set_nvram_bytes,
      gcore_set_nvram_byte]
    split_ifs <;> rfl

/-- What `ps_reinit_config` does to the shadow buffer of a ready state: the state stays
ready, the stored-to indices hold the bytes of the default image, the other indices below
319 are unchanged and the checksum byte is valid. -/
theorem ps_reinit_config_effect (k : Nat) (s : PsState) (h : Hw) (hk : k < 3)
    (hs : PsReady s) :
    PsReady (ps_reinit_config (Int.ofNat k) s h).2.1 ∧
    (ps_reinit_config (Int.ofNat k) s h).2.2.mac = h.mac ∧
    (∀ j, init_written (Int.ofNat k) j = true →
      (ps_reinit_config (Int.ofNat k) s h).2.1.ps_shadow_buffer[j]? = (default_image h)[j]?) ∧
    (∀ j, j ∉ config_indices k → j ≠ 319 →
      (ps_reinit_config (Int.ofNat k) s h).2.1.ps_shadow_buffer[j]? = s.ps_shadow_buffer[j]?) ∧
    (ps_reinit_config (Int.ofNat k) s h).2.1.ps_shadow_buffer.getD 319 0 =
      ((ps_reinit_config (Int.ofNat k) s h).2.1.ps_shadow_buffer.take 319).sum % 256 := by
  obtain ⟨hlen, hck, htab⟩ := hs
  have hkI : (0 : Int) ≤ Int.ofNat k ∧ Int.ofNat k < 3 := ⟨Int.ofNat_nonneg k, by
    have : (k : Int) < 3 := by exact_mod_cast hk
    exact this⟩
  obtain ⟨e1, e2, e3, e4⟩ := ps_reinit_config_eq (Int.ofNat k) s h hkI htab
  have hto : (Int.ofNat k).toNat = k := rfl
  rw [hto] at e1
  have hidx := config_writes_indices k (default_ap_ssid_bytes (ap_mac h))
    (length_default_ap_ssid_bytes _)
  have hl320 : PS_RAM_SIZE = 320 := rfl
  refine ⟨⟨by rw [e1, List.length_set, length_applyWrites, hlen], by rw [e2, hck],
    by rw [e3, htab]⟩, e4, ?_, ?_, ?_⟩
  · intro j hw
    have hj295 := init_written_lt _ _ hw
    have hmem := init_written_mem k hk j (by omega) hw
    obtain ⟨n0, n1, n2⟩ := init_written_not_mem k hk j (by omega) hw
    rw [e1, List.getElem?_set_ne (by omega), default_image_getElem? h j (by omega)]
    have hk3 : k = 0 ∨ k = 1 ∨ k = 2 := by omega
    have hi0 := config_writes_indices 0 (default_ap_ssid_bytes (ap_mac h))
      (length_default_ap_ssid_bytes _)
    have hi1 := config_writes_indices 1 (default_ap_ssid_bytes (ap_mac h))
      (length_default_ap_ssid_bytes _)
    have hi2 := config_writes_indices 2 (default_ap_ssid_bytes (ap_mac h))
      (length_default_ap_ssid_bytes _)
    simp only [array_writes, applyWrites_append]
    rcases hk3 with rfl | rfl | rfl
    · rw [getElem?_applyWrites_of_not_mem j (config_writes 2 (default_ap_ssid_bytes (ap_mac h)))
          _ (by rw [hi2]; exact n2 (by decide)),
        getElem?_applyWrites_of_not_mem j (config_writes 1 (default_ap_ssid_bytes (ap_mac h)))
          _ (by rw [hi1]; exact n1 (by decide))]
      exact applyWrites_agree j _ _ _ (by simp [length_applyWrites, hlen, hl320])
        (Or.inr (by rw [hi0]; exact hmem))
    · rw [getElem?_applyWrites_of_not_mem j (config_writes 2 (default_ap_ssid_bytes (ap_mac h)))
          _ (by rw [hi2]; exact n2 (by decide))]
      exact applyWrites_agree j _ _ _ (by simp [length_applyWrites, hlen, hl320])
        (Or.inr (by rw [hi1]; exact hmem))
    · exact applyWrites_agree j _ _ _ (by simp [length_applyWrites, hlen, hl320])
        (Or.inr (by rw [hi2]; exact hmem))
  · intro j hnm hne
    rw [e1, List.getElem?_set_ne (fun c => hne c.symm),
      getElem?_applyWrites_of_not_mem j _ _ (by rw [hidx]; exact hnm)]
  · rw [e1, take_set_of_le _ 319 319 _ (le_refl _),
      getD_set_self _ 319 _ (by rw [length_applyWrites, hlen, hl320]; omega)]
theorem ps_reinit_all_eq (s : PsState) (h : Hw) :
    (ps_reinit_all s h).2.1 =
      (ps_reinit_config (Int.ofNat 2)
        (ps_reinit_config (Int.ofNat 1) (ps_reinit_config (Int.ofNat 0) s h).2.1
          (ps_reinit_config (Int.ofNat 0) s h).2.2).2.1
        (ps_reinit_config (Int.ofNat 1) (ps_reinit_config (Int.ofNat 0) s h).2.1
          (ps_reinit_config (Int.ofNat 0) s h).2.2).2.2).2.1 := rfl

/-- C9, amended: after `ps_reinit_config(k)` with a valid index, every byte of region `k`
that the initialiser stores to (see `init_written`) equals the byte of the default image of
the same device at that index, and the checksum byte is valid; after `ps_reinit_all` the
same holds for the stored-to bytes of all three regions. -/
theorem ps_reinit_defaults (k : Int) (s : PsState) (h : Hw) (hk : 0 ≤ k ∧ k < 3)
    (hs : PsReady s) :
    (∀ j, init_written k j = true →
      (ps_reinit_config k s h).2.1.ps_shadow_buffer.getD j 0 = (default_image h).getD j 0) ∧
    (ps_reinit_config k s h).2.1.ps_shadow_buffer.getD 319 0 =
      ((ps_reinit_config k s h).2.1.ps_shadow_buffer.take 319).sum % 256 ∧
    (∀ j, init_written k j = true →
      (ps_reinit_all s h).2.1.ps_shadow_buffer.getD j 0 = (default_image h).getD j 0) ∧
    (ps_reinit_all s h).2.1.ps_shadow_buffer.getD 319 0 =
      ((ps_reinit_all s h).2.1.ps_shadow_buffer.take 319).sum % 256 := by
  obtain ⟨hk0, hk3⟩ := hk
  obtain ⟨r0, m0, w0, f0, c0⟩ := ps_reinit_config_effect 0 s h (by decide) hs
  obtain ⟨r1, m1, w1, f1, c1⟩ := ps_reinit_config_effect 1
    (ps_reinit_config (Int.ofNat 0) s h).2.1 (ps_reinit_config (Int.ofNat 0) s h).2.2
    (by decide) r0
  obtain ⟨r2, m2, w2, f2, c2⟩ := ps_reinit_config_effect 2
    (ps_reinit_config (Int.ofNat 1) (ps_reinit_config (Int.ofNat 0) s h).2.1
      (ps_reinit_config (Int.ofNat 0) s h).2.2).2.1
    (ps_reinit_config (Int.ofNat 1) (ps_reinit_config (Int.ofNat 0) s h).2.1
      (ps_reinit_config (Int.ofNat 0) s h).2.2).2.2
    (by decide) r1
  have d1 := default_image_congr h _ m0
  have d2 := default_image_congr h _ (m1.trans m0)
  rw [ps_reinit_all_eq]
  have hcases : k = Int.ofNat 0 ∨ k = Int.ofNat 1 ∨ k = Int.ofNat 2 := by
    have : k = 0 ∨ k = 1 ∨ k = 2 := by omega
    rcases this with e | e | e
    · exact Or.inl e
    · exact Or.inr (Or.inl e)
    · exact Or.inr (Or.inr e)
  rcases hcases with rfl | rfl | rfl
  · obtain ⟨_, _, w, _, c⟩ := ps_reinit_config_effect 0 s h (by decide) hs
    refine ⟨fun j hj => ?_, c, fun j hj => ?_, c2⟩
    · rw [List.getD_eq_getElem?_getD, List.getD_eq_getElem?_getD, w j hj]
    · have hj295 := init_written_lt _ _ hj
      obtain ⟨_, n1, n2⟩ := init_written_not_mem 0 (by decide) j (by omega) hj
      rw [List.getD_eq_getElem?_getD, List.getD_eq_getElem?_getD,
        f2 j (n2 (by decide)) (by omega), f1 j (n1 (by decide)) (by omega), w0 j hj]
  · obtain ⟨_, _, w, _, c⟩ := ps_reinit_config_effect 1 s h (by decide) hs
    refine ⟨fun j hj => ?_, c, fun j hj => ?_, c2⟩
    · rw [List.getD_eq_getElem?_getD, List.getD_eq_getElem?_getD, w j hj]
    · have hj295 := init_written_lt _ _ hj
      obtain ⟨_, _, n2⟩ := init_written_not_mem 1 (by decide) j (by omega) hj
      rw [List.getD_eq_getElem?_getD, List.getD_eq_getElem?_getD,
        f2 j (n2 (by decide)) (by omega), w1 j hj, d1]
  · obtain ⟨_, _, w, _, c⟩ := ps_reinit_config_effect 2 s h (by decide) hs
    refine ⟨fun j hj => ?_, c, fun j hj => ?_, c2⟩
    · rw [List.getD_eq_getElem?_getD, List.getD_eq_getElem?_getD, w j hj]
    · rw [List.getD_eq_getElem?_getD, List.getD_eq_getElem?_getD, w2 j hj, d2]

/-- Witness of `ps_reinit_defaults`: the network config of the sample state. -/
theorem ps_reinit_defaults_witness :
    ((0 : Int) ≤ 1 ∧ (1 : Int) < 3) ∧ PsReady sample_state ∧ init_written 1 8 = true ∧
      (ps_reinit_config 1 sample_state sample_hw).2.1.ps_shadow_buffer.getD 8 0 =
        (default_image sample_hw).getD 8 0 ∧
      (ps_reinit_all sample_state sample_hw).2.1.ps_shadow_buffer.getD 8 0 =
        (default_image sample_hw).getD 8 0 :=
  have hr : PsReady sample_state := ⟨by decide, by decide, rfl⟩
  ⟨by decide, hr, by decide,
    (ps_reinit_defaults 1 sample_state sample_hw (by decide) hr).1 8 (by decide),
    (ps_reinit_defaults 1 sample_state sample_hw (by decide) hr).2.2.1 8 (by decide)⟩

/-! # Theorems on the websocket framing -/

/-- C10: `ws_cmd_process_socket_rx_data(len, data)` returns false without calling the
dispatcher when `len < 16` or when the big-endian value of bytes 0..3 differs from `len`; in
every other case it calls the dispatcher exactly once, with the big-endian values at offsets
4, 8 and 12 and the `len - 16` bytes from offset 16, and returns the dispatcher's result.  A
refused frame leaves no trace: any later frame is processed as if it had not been there. -/
theorem ws_cmd_process_socket_rx_data_spec {σ : Type} (d : Dispatcher σ) (len : Nat)
    (data : List Nat) (calls : List DispatchCall) (st : σ) :
    (ws_rejected len data →
      ws_cmd_process_socket_rx_data (recording d) len data (calls, st) = (false, (calls, st)) ∧
      ∀ (len2 : Nat) (data2 : List Nat),
        ws_cmd_process_socket_rx_data (recording d) len2 data2
            (ws_cmd_process_socket_rx_data (recording d) len data (calls, st)).2 =
          ws_cmd_process_socket_rx_data (recording d) len2 data2 (calls, st)) ∧
    (¬ ws_rejected len data →
      ws_cmd_process_socket_rx_data (recording d) len data (calls, st) =
        ((d (ntohl_at data 4) (ntohl_at data 8) (ntohl_at data 12) (len - 16)
            (slice data 16 (len - 16)) st).1,
         (calls ++ [{ cmd_type := ntohl_at data 4, cmd_id := ntohl_at data 8,
                      data_type := ntohl_at data 12, len := len - 16,
                      data := slice data 16 (len - 16) }],
          (d (ntohl_at data 4) (ntohl_at data 8) (ntohl_at data 12) (len - 16)
            (slice data 16 (len - 16)) st).2))) := by
  have hrej : ws_rejected len data →
      ws_cmd_process_socket_rx_data (recording d) len data (calls, st) = (false, (calls, st)) := by
    intro hr
    unfold ws_cmd_process_socket_rx_data
    simp only [MIN_WS_PKT_LEN, WS_PKT_LEN_OFFSET]
    rcases hr with hr | hr
    · rw [if_pos hr]
    · by_cases hl : len < 16
      · rw [if_pos hl]
      · rw [if_neg hl, if_pos (fun c => hr c.symm)]
  refine ⟨fun hr => ⟨hrej hr, fun len2 data2 => by rw [hrej hr]⟩, fun hacc => ?_⟩
  have h1 : ¬ len < 16 := fun c => hacc (Or.inl c)
  have h2 : ¬ len ≠ ntohl_at data 0 := fun c => hacc (Or.inr (fun e => c e.symm))
  unfold ws_cmd_process_socket_rx_data
  simp only [MIN_WS_PKT_LEN, WS_PKT_LEN_OFFSET, WS_PKT_CTYPE_OFFSET, WS_PKT_ID_OFFSET,
    WS_PKT_DTYPE_OFFSET, WS_PKT_DATA_OFFSET, h1, h2, if_false]
  rfl

/-- Witness of `ws_cmd_process_socket_rx_data_spec`: the 20-byte frame announcing 40 bytes
is refused and followed by a well-formed frame, which is dispatched once. -/
theorem ws_cmd_process_socket_rx_data_witness :
    ws_rejected 20 sample_short_frame ∧ ¬ ws_rejected 20 sample_frame ∧
      ws_cmd_process_socket_rx_data (recording sample_dispatcher) 20 sample_short_frame ([], 0) =
        (false, ([], 0)) ∧
      ws_cmd_process_socket_rx_data (recording sample_dispatcher) 20 sample_frame
          (ws_cmd_process_socket_rx_data (recording sample_dispatcher) 20 sample_short_frame
            ([], 0)).2 =
        (true, ([{ cmd_type := 1, cmd_id := 0, data_type := 1, len := 4,
                   data := [0, 0, 0, 50] }], 1)) :=
  have hr : ws_rejected 20 sample_short_frame := Or.inr (by decide)
  have ha : ¬ ws_rejected 20 sample_frame := by
    rintro (c | c)
    · exact absurd c (by decide)
    · exact c (by decide)
  ⟨hr, ha,
    ((ws_cmd_process_socket_rx_data_spec sample_dispatcher 20 sample_short_frame [] 0).1 hr).1,
    by
      rw [((ws_cmd_process_socket_rx_data_spec sample_dispatcher 20 sample_short_frame [] 0).1
        hr).2 20 sample_frame]
      exact (ws_cmd_process_socket_rx_data_spec sample_dispatcher 20 sample_frame [] 0).2 ha⟩

/-! # Theorems on the outbound ring -/

theorem storeBytes_zero_head (bs : List Nat) (r : List Nat) (h : bs.length ≤ r.length) :
    storeBytes r 0 bs = bs ++ r.drop bs.length := by
  apply List.ext_getElem?
  intro i
  rw [getElem?_storeBytes]
  by_cases hi : i < bs.length
  · rw [if_pos ⟨Nat.zero_le _, by omega, by omega⟩, List.getElem?_append_left hi]
    rfl
  · rw [if_neg (by omega), List.getElem?_append_right (by omega), List.getElem?_drop]
    congr 1
    omega

theorem storeBytes_append_left (a r bs : List Nat) (k : Nat) :
    storeBytes (a ++ r) (a.length + k) bs = a ++ storeBytes r k bs := by
  apply List.ext_getElem?
  intro i
  rw [getElem?_storeBytes]
  by_cases hi : i < a.length
  · rw [if_neg (by omega), List.getElem?_append_left hi, List.getElem?_append_left hi]
  · rw [List.getElem?_append_right (by omega), List.getElem?_append_right (by omega),
      getElem?_storeBytes, List.length_append]
    by_cases hc : k ≤ i - a.length ∧ i - a.length < k + bs.length ∧ i - a.length < r.length
    · rw [if_pos hc, if_pos (by omega)]
      congr 1
      omega
    · rw [if_neg hc, if_neg (by omega)]

theorem length_htonl_bytes (x : Nat) : (htonl_bytes x).length = 4 := rfl

theorem ntohl_at_htonl_bytes (x : Nat) (rest : List Nat) :
    ntohl_at (htonl_bytes x ++ rest) 0 = x % 4294967296 := by
  simp only [ntohl_at, htonl_bytes, List.cons_append, List.getD_cons_zero, List.getD_cons_succ,
    Nat.zero_add]
  omega

theorem ntohl_at_append (a b : List Nat) (off : Nat) :
    ntohl_at (a ++ b) (a.length + off) = ntohl_at b off := by
  have h : ∀ k, (a ++ b).getD (a.length + k) 0 = b.getD k 0 := by
    intro k
    rw [List.getD_eq_getElem?_getD, List.getD_eq_getElem?_getD,
      List.getElem?_append_right (by omega)]
    congr 2
    omega
  simp only [ntohl_at, Nat.add_assoc, h]

/-- The block after the stores of `ws_cmd_send_handler`: the encoded frame, then the rest of
the block as it was. -/
theorem send_stores (cmd_type cmd_id data_type : Nat) (data buf : List Nat) (x : Nat)
    (hb : 16 + data.length ≤ buf.length) :
    storeBytes (storeBytes (storeBytes (storeBytes (storeBytes buf 0 (htonl_bytes x)) 4
      (htonl_bytes cmd_type)) 8 (htonl_bytes cmd_id)) 12 (htonl_bytes data_type)) 16 data =
    htonl_bytes x ++ htonl_bytes cmd_type ++ htonl_bytes cmd_id ++ htonl_bytes data_type ++ data
      ++ buf.drop (16 + data.length) := by
  have l4 := length_htonl_bytes
  rw [storeBytes_zero_head _ buf (by rw [l4]; omega)]
  have e1 := storeBytes_append_left (htonl_bytes x) (buf.drop 4) (htonl_bytes cmd_type) 0
  rw [l4] at e1
  rw [l4, e1, storeBytes_zero_head _ _ (by rw [l4, List.length_drop]; omega), List.drop_drop,
    l4, ← List.append_assoc]
  have e2 := storeBytes_append_left (htonl_bytes x ++ htonl_bytes cmd_type) (buf.drop (4 + 4))
    (htonl_bytes cmd_id) 0
  rw [List.length_append, l4, l4] at e2
  rw [e2, storeBytes_zero_head _ _ (by rw [l4, List.length_drop]; omega), List.drop_drop,
    l4, ← List.append_assoc]
  have e3 := storeBytes_append_left (htonl_bytes x ++ htonl_bytes cmd_type ++ htonl_bytes cmd_id)
    (buf.drop (4 + (4 + 4))) (htonl_bytes data_type) 0
  rw [List.length_append, List.length_append, l4, l4, l4] at e3
  rw [e3, storeBytes_zero_head _ _ (by rw [l4, List.length_drop]; omega), List.drop_drop,
    l4, ← List.append_assoc]
  have e4 := storeBytes_append_left
    (htonl_bytes x ++ htonl_bytes cmd_type ++ htonl_bytes cmd_id ++ htonl_bytes data_type)
    (buf.drop (4 + (4 + (4 + 4)))) data 0
  rw [List.length_append, List.length_append, List.length_append, l4, l4, l4, l4] at e4
  rw [e4, storeBytes_zero_head _ _ (by rw [List.length_drop]; omega), List.drop_drop,
    ← List.append_assoc]
theorem getD_mem_of_lt (l : List tx_buffer_t) (i : Nat) (d : tx_buffer_t) (h : i < l.length) :
    l.getD i d ∈ l := by
  rw [List.getD_eq_getElem?_getD, List.getElem?_eq_getElem h]
  exact List.getElem_mem h

theorem ws_push_lt (st : WsState) (hst : WsReady st) : st.tx_buffer_push_index < 4 := by
  obtain ⟨_, _, _, _, hp⟩ := hst
  rw [hp]
  exact Nat.mod_lt _ (by decide)

/-- Result of `ws_cmd_send_handler` on a ring that is not full, for a payload that fits. -/
theorem ws_cmd_send_handler_eq (cmd_type cmd_id data_type : Nat) (data : List Nat)
    (st : WsState) (hst : WsReady st) (hn : data.length ≤ 8192)
    (hfull : st.tx_buffer_num_entries ≠ 4) :
    ws_cmd_send_handler cmd_type cmd_id data_type data.length data st =
      (true,
        { tx_buffer := st.tx_buffer.set st.tx_buffer_push_index
            { buf := encode_frame cmd_type cmd_id data_type data ++
                (st.tx_buffer.getD st.tx_buffer_push_index { buf := [], len := 0 }).buf.drop
                  (16 + data.length),
              len := 16 + data.length },
          tx_buffer_push_index := (st.tx_buffer_push_index + 1) % 4,
          tx_buffer_pop_index := st.tx_buffer_pop_index,
          tx_buffer_num_entries := st.tx_buffer_num_entries + 1 }) := by
  have hpush := ws_push_lt st hst
  obtain ⟨hlen, hbufs, _, _, _⟩ := hst
  have hslot : (st.tx_buffer.getD st.tx_buffer_push_index { buf := [], len := 0 }).buf.length
      = 8208 := hbufs _ (getD_mem_of_lt _ _ _ (by omega))
  have hmod : (16 + data.length) % 4294967296 = 16 + data.length := by omega
  have hwrap : (if st.tx_buffer_push_index + 1 = 4 then 0 else st.tx_buffer_push_index + 1) =
      (st.tx_buffer_push_index + 1) % 4 := by
    split_ifs <;> omega
  have hfull2 : ¬ st.tx_buffer_num_entries = WS_MAX_TX_PKTS := hfull
  unfold ws_cmd_send_handler
  simp only [hfull2, if_false]
  simp only [WS_MAX_TX_PKTS, WS_PKT_DATA_OFFSET, hmod, hwrap,
    slice_zero_length, send_stores cmd_type cmd_id data_type data _ (16 + data.length)
      (by rw [hslot]; omega), encode_frame]

/-- The invariant of the ring is kept by `ws_cmd_send_handler`. -/
theorem ws_cmd_send_handler_ready (cmd_type cmd_id data_type : Nat) (data : List Nat)
    (st : WsState) (hst : WsReady st) (hn : data.length ≤ 8192) :
    WsReady (ws_cmd_send_handler cmd_type cmd_id data_type data.length data st).2 := by
  by_cases hfull : st.tx_buffer_num_entries = 4
  · have : ws_cmd_send_handler cmd_type cmd_id data_type data.length data st = (false, st) := by
      have hfull2 : st.tx_buffer_num_entries = WS_MAX_TX_PKTS := hfull
      unfold ws_cmd_send_handler
      rw [if_pos hfull2]
    rw [this]
    exact hst
  · rw [ws_cmd_send_handler_eq cmd_type cmd_id data_type data st hst hn hfull]
    have hpush := ws_push_lt st hst
    obtain ⟨hlen, hbufs, hpop, hnum, hp⟩ := hst
    have hslot : (st.tx_buffer.getD st.tx_buffer_push_index { buf := [], len := 0 }).buf.length
        = 8208 := hbufs _ (getD_mem_of_lt _ _ _ (by omega))
    refine ⟨by simp [hlen], ?_, hpop, by simp only; omega, by simp only; omega⟩
    intro s hs
    rcases List.mem_or_eq_of_mem_set hs with h | h
    · exact hbufs s h
    · rw [h]
      simp only [List.length_append, List.length_drop, hslot, encode_frame, length_htonl_bytes]
      omega
theorem length_encode_frame (cmd_type cmd_id data_type : Nat) (data : List Nat) :
    (encode_frame cmd_type cmd_id data_type data).length = 16 + data.length := by
  simp only [encode_frame, List.length_append, length_htonl_bytes]

theorem slice_append_length (a b : List Nat) : slice (a ++ b) 0 a.length = a := by
  simp [slice]

/-- Result of `ws_cmd_get_tx_data` on a ring that is not empty. -/
theorem ws_cmd_get_tx_data_eq (len : Nat) (data : List Nat) (st : WsState)
    (hpop : st.tx_buffer_pop_index < 4) (hnum : 0 < st.tx_buffer_num_entries) :
    ws_cmd_get_tx_data len data st =
      ((true, (st.tx_buffer.getD st.tx_buffer_pop_index { buf := [], len := 0 }).len,
          (st.tx_buffer.getD st.tx_buffer_pop_index { buf := [], len := 0 }).buf),
        { tx_buffer := st.tx_buffer,
          tx_buffer_push_index := st.tx_buffer_push_index,
          tx_buffer_pop_index := (st.tx_buffer_pop_index + 1) % 4,
          tx_buffer_num_entries := st.tx_buffer_num_entries - 1 }) := by
  have hwrap : (if st.tx_buffer_pop_index + 1 ≥ 4 then 0 else st.tx_buffer_pop_index + 1) =
      (st.tx_buffer_pop_index + 1) % 4 := by
    split_ifs <;> omega
  have hv : decide (st.tx_buffer_num_entries > 0) = true := by simpa using hnum
  unfold ws_cmd_get_tx_data
  simp only [hv, if_true, WS_MAX_TX_PKTS, hwrap]

/-- Result of `ws_cmd_get_tx_data` on the empty ring. -/
theorem ws_cmd_get_tx_data_empty (len : Nat) (data : List Nat) (st : WsState)
    (hnum : st.tx_buffer_num_entries = 0) :
    ws_cmd_get_tx_data len data st = ((false, len, data), st) := by
  have hv : decide (st.tx_buffer_num_entries > 0) = false := by simp [hnum]
  unfold ws_cmd_get_tx_data
  simp only [hv]
  rfl

/-- A successful `ws_cmd_get_tx_data` takes the oldest packet off the ring. -/
theorem ring_contents_get (st : WsState) (hst : WsReady st) (hnum : 0 < st.tx_buffer_num_entries) :
    WsReady (ws_cmd_get_tx_data 0 [] st).2 ∧
    ring_contents st =
      ((ws_cmd_get_tx_data 0 [] st).1.2.1,
        slice (ws_cmd_get_tx_data 0 [] st).1.2.2 0 (ws_cmd_get_tx_data 0 [] st).1.2.1) ::
        ring_contents (ws_cmd_get_tx_data 0 [] st).2 := by
  obtain ⟨hlen, hbufs, hpop, hn4, hp⟩ := hst
  rw [ws_cmd_get_tx_data_eq 0 [] st hpop hnum]
  refine ⟨⟨hlen, hbufs, Nat.mod_lt _ (by decide), by simp only; omega, by simp only; omega⟩, ?_⟩
  obtain ⟨m, hm⟩ : ∃ m, st.tx_buffer_num_entries = m + 1 := ⟨st.tx_buffer_num_entries - 1, by omega⟩
  simp only [ring_contents, hm, Nat.add_sub_cancel, List.range_succ_eq_map, List.map_cons,
    List.map_map, Nat.add_zero, Nat.mod_eq_of_lt hpop, slot_frame]
  congr 1
  apply List.map_congr_left
  intro i _
  simp only [Function.comp, Nat.succ_eq_add_one]
  have : ((st.tx_buffer_pop_index + 1) % 4 + i) % 4 = (st.tx_buffer_pop_index + (i + 1)) % 4 := by
    omega
  rw [this]

/-- A successful `ws_cmd_send_handler` puts the encoded frame at the end of the ring. -/
theorem ring_contents_send (cmd_type cmd_id data_type : Nat) (data : List Nat)
    (st : WsState) (hst : WsReady st) (hn : data.length ≤ 8192)
    (hfull : st.tx_buffer_num_entries ≠ 4) :
    ring_contents (ws_cmd_send_handler cmd_type cmd_id data_type data.length data st).2 =
      ring_contents st ++
        [(16 + data.length, encode_frame cmd_type cmd_id data_type data)] := by
  rw [ws_cmd_send_handler_eq cmd_type cmd_id data_type data st hst hn hfull]
  have hpush := ws_push_lt st hst
  obtain ⟨hlen, hbufs, hpop, hn4, hp⟩ := hst
  simp only [ring_contents, List.range_succ, List.map_append, List.map_cons, List.map_nil]
  congr 1
  · apply List.map_congr_left
    intro i hi
    have hi2 := List.mem_range.1 hi
    have hne : st.tx_buffer_push_index ≠ (st.tx_buffer_pop_index + i) % 4 := by omega
    rw [List.getD_eq_getElem?_getD, List.getElem?_set_ne hne, ← List.getD_eq_getElem?_getD]
  · rw [← hp, List.getD_eq_getElem?_getD, List.getElem?_set_self (by omega)]
    simp only [Option.getD_some, slot_frame]
    rw [← length_encode_frame cmd_type cmd_id data_type data, slice_append_length]
/-- C11: on a ring that is not full, `ws_cmd_send_handler` with a payload of `n <= 8192`
bytes returns true and leaves in the slot at the push index a packet of exactly `16 + n`
bytes, with that length recorded: the big-endian 32-bit values `16 + n`, direction,
command id and payload kind at offsets 0, 4, 8 and 12, then the payload unchanged. -/
theorem ws_cmd_send_handler_frame (cmd_type cmd_id data_type : Nat) (data : List Nat)
    (st : WsState) (hst : WsReady st) (hn : data.length ≤ 8192)
    (hfull : st.tx_buffer_num_entries ≠ 4) :
    (ws_cmd_send_handler cmd_type cmd_id data_type data.length data st).1 = true ∧
    slot_frame ((ws_cmd_send_handler cmd_type cmd_id data_type data.length data st).2.tx_buffer.getD
        st.tx_buffer_push_index { buf := [], len := 0 }) =
      (16 + data.length, encode_frame cmd_type cmd_id data_type data) ∧
    (encode_frame cmd_type cmd_id data_type data).length = 16 + data.length ∧
    ntohl_at (encode_frame cmd_type cmd_id data_type data) 0 = 16 + data.length ∧
    ntohl_at (encode_frame cmd_type cmd_id data_type data) 4 = cmd_type % 4294967296 ∧
    ntohl_at (encode_frame cmd_type cmd_id data_type data) 8 = cmd_id % 4294967296 ∧
    ntohl_at (encode_frame cmd_type cmd_id data_type data) 12 = data_type % 4294967296 ∧
    (encode_frame cmd_type cmd_id data_type data).drop 16 = data := by
  have hpush := ws_push_lt st hst
  have hlen := hst.1
  have l4 := length_htonl_bytes
  refine ⟨?_, ?_, length_encode_frame _ _ _ _, ?_, ?_, ?_, ?_, ?_⟩
  · rw [ws_cmd_send_handler_eq cmd_type cmd_id data_type data st hst hn hfull]
  · rw [ws_cmd_send_handler_eq cmd_type cmd_id data_type data st hst hn hfull]
    simp only
    rw [List.getD_eq_getElem?_getD, List.getElem?_set_self (by omega)]
    simp only [Option.getD_some, slot_frame]
    rw [← length_encode_frame cmd_type cmd_id data_type data, slice_append_length]
  · simp only [encode_frame, List.append_assoc]
    rw [ntohl_at_htonl_bytes]
    omega
  · have := ntohl_at_append (htonl_bytes (16 + data.length))
      (htonl_bytes cmd_type ++ (htonl_bytes cmd_id ++ (htonl_bytes data_type ++ data))) 0
    rw [l4] at this
    simp only [encode_frame, List.append_assoc]
    rw [this, ntohl_at_htonl_bytes]
  · have := ntohl_at_append (htonl_bytes (16 + data.length) ++ htonl_bytes cmd_type)
      (htonl_bytes cmd_id ++ (htonl_bytes data_type ++ data)) 0
    rw [List.length_append, l4, l4] at this
    simp only [encode_frame, List.append_assoc] at this ⊢
    rw [this, ntohl_at_htonl_bytes]
  · have := ntohl_at_append
      (htonl_bytes (16 + data.length) ++ htonl_bytes cmd_type ++ htonl_bytes cmd_id)
      (htonl_bytes data_type ++ data) 0
    rw [List.length_append, List.length_append, l4, l4, l4] at this
    simp only [encode_frame, List.append_assoc] at this ⊢
    rw [this, ntohl_at_htonl_bytes]
  · have : (htonl_bytes (16 + data.length) ++ htonl_bytes cmd_type ++ htonl_bytes cmd_id
        ++ htonl_bytes data_type).length = 16 := by
      simp only [List.length_append, l4]
    unfold encode_frame
    exact List.drop_left' this

theorem ws_tx_init_ready : WsReady ws_tx_init := by
  refine ⟨rfl, ?_, by decide, by decide, rfl⟩
  intro s hs
  simp only [ws_tx_init, List.mem_replicate] at hs
  rw [hs.2]
  exact List.length_replicate _ _

/-- Witness of `ws_cmd_send_handler_frame`: a Binary response for command 6 with payload
`[7, 8, 9]`, queued on the empty ring. -/
theorem ws_cmd_send_handler_frame_witness :
    WsReady ws_tx_init ∧ [7, 8, 9].length ≤ 8192 ∧ ws_tx_init.tx_buffer_num_entries ≠ 4 ∧
      slot_frame ((ws_cmd_send_handler 2 6 3 [7, 8, 9].length [7, 8, 9]
          ws_tx_init).2.tx_buffer.getD ws_tx_init.tx_buffer_push_index { buf := [], len := 0 }) =
        (16 + [7, 8, 9].length, encode_frame 2 6 3 [7, 8, 9]) ∧
      encode_frame 2 6 3 [7, 8, 9] =
        [0, 0, 0, 19, 0, 0, 0, 2, 0, 0, 0, 6, 0, 0, 0, 3, 7, 8, 9] :=
  ⟨ws_tx_init_ready, by decide, by decide,
    (ws_cmd_send_handler_frame 2 6 3 [7, 8, 9] ws_tx_init ws_tx_init_ready (by decide)
      (by decide)).2.1, by decide⟩
/-- C13: when the ring already holds 4 packets, `ws_cmd_send_handler` returns false and
changes nothing (blocks, recorded lengths, push and pop indices, entry count); the four
queued packets are afterwards fetched intact and in their original order. -/
theorem ws_cmd_send_handler_full (cmd_type cmd_id data_type len : Nat) (data : List Nat)
    (st : WsState) (hst : WsReady st) (hfull : st.tx_buffer_num_entries = 4) :
    ws_cmd_send_handler cmd_type cmd_id data_type len data st = (false, st) ∧
    ws_drain 4 (ws_cmd_send_handler cmd_type cmd_id data_type len data st).2 =
      ring_contents st ∧
    (ring_contents st).length = 4 := by
  have hfull2 : st.tx_buffer_num_entries = WS_MAX_TX_PKTS := hfull
  have hsend : ws_cmd_send_handler cmd_type cmd_id data_type len data st = (false, st) := by
    unfold ws_cmd_send_handler
    rw [if_pos hfull2]
  refine ⟨hsend, ?_, by simp [ring_contents, hfull]⟩
  rw [hsend]
  have hdrain : ∀ (n : Nat) (s : WsState), WsReady s → s.tx_buffer_num_entries = n →
      ws_drain n s = ring_contents s := by
    intro n
    induction n with
    | zero =>
      intro s _ hn
      simp [ws_drain, ring_contents, hn]
    | succ n ih =>
      intro s hs hn
      obtain ⟨hr, hc⟩ := ring_contents_get s hs (by omega)
      have hv : (ws_cmd_get_tx_data 0 [] s).1.1 = true := by
        rw [ws_cmd_get_tx_data_eq 0 [] s hs.2.2.1 (by omega)]
      have hnum : (ws_cmd_get_tx_data 0 [] s).2.tx_buffer_num_entries = n := by
        rw [ws_cmd_get_tx_data_eq 0 [] s hs.2.2.1 (by omega)]
        simp only
        omega
      rw [hc]
      simp only [ws_drain, hv, if_true]
      rw [ih _ hr hnum]
  exact hdrain 4 st hst hfull
theorem sample_full_ring_ready : WsReady sample_full_ring := by
  refine ⟨rfl, ?_, by decide, by decide, rfl⟩
  intro s hs
  simp only [sample_full_ring, List.mem_replicate] at hs
  rw [hs.2]
  exact List.length_replicate _ _

/-- Witness of `ws_cmd_send_handler_full`: a further packet offered to a full ring. -/
theorem ws_cmd_send_handler_full_witness :
    WsReady sample_full_ring ∧ sample_full_ring.tx_buffer_num_entries = 4 ∧
      ws_cmd_send_handler 2 0 1 4 [0, 0, 0, 80] sample_full_ring = (false, sample_full_ring) ∧
      ws_drain 4 (ws_cmd_send_handler 2 0 1 4 [0, 0, 0, 80] sample_full_ring).2 =
        ring_contents sample_full_ring :=
  ⟨sample_full_ring_ready, rfl,
    (ws_cmd_send_handler_full 2 0 1 4 [0, 0, 0, 80] sample_full_ring sample_full_ring_ready
      rfl).1,
    (ws_cmd_send_handler_full 2 0 1 4 [0, 0, 0, 80] sample_full_ring sample_full_ring_ready
      rfl).2.1⟩

/-- An accepted frame is handed to the dispatcher with its decoded header and payload. -/
theorem ws_rx_accept {σ : Type} (d : Dispatcher σ) (len : Nat) (data : List Nat) (x : σ)
    (h16 : 16 ≤ len) (hlen : ntohl_at data 0 = len) :
    ws_cmd_process_socket_rx_data d len data x =
      d (ntohl_at data 4) (ntohl_at data 8) (ntohl_at data 12) (len - 16)
        (slice data 16 (len - 16)) x := by
  have h1 : ¬ len < 16 := by omega
  have h2 : ¬ len ≠ ntohl_at data 0 := fun c => c hlen.symm
  unfold ws_cmd_process_socket_rx_data
  simp only [MIN_WS_PKT_LEN, WS_PKT_LEN_OFFSET, WS_PKT_CTYPE_OFFSET, WS_PKT_ID_OFFSET,
    WS_PKT_DTYPE_OFFSET, WS_PKT_DATA_OFFSET, h1, h2, if_false]

theorem slice_append_right (a b r : List Nat) (n : Nat) (ha : a.length = n) :
    slice (a ++ b ++ r) n b.length = b := by
  unfold slice
  rw [List.append_assoc, List.drop_left' ha, List.take_left]

/-- C12: a frame with any direction, command id and payload kind (as 32-bit values) and a
payload of at most 8192 bytes, the empty one included, that `ws_cmd_send_handler` encodes on
the empty ring is what `ws_cmd_get_tx_data` returns next, and
`ws_cmd_process_socket_rx_data` accepts it and calls the dispatcher once with the same
direction, command id, payload kind, payload length and payload bytes. -/
theorem ws_frame_roundtrip {σ : Type} (d : Dispatcher σ) (cmd_type cmd_id data_type : Nat)
    (data : List Nat) (st : WsState) (calls : List DispatchCall) (x : σ)
    (hst : WsReady st) (hempty : st.tx_buffer_num_entries = 0) (hn : data.length ≤ 8192)
    (h1 : cmd_type < 4294967296) (h2 : cmd_id < 4294967296) (h3 : data_type < 4294967296) :
    (ws_cmd_send_handler cmd_type cmd_id data_type data.length data st).1 = true ∧
    (ws_cmd_get_tx_data 0 []
      (ws_cmd_send_handler cmd_type cmd_id data_type data.length data st).2).1.1 = true ∧
    ws_cmd_process_socket_rx_data (recording d)
        (ws_cmd_get_tx_data 0 []
          (ws_cmd_send_handler cmd_type cmd_id data_type data.length data st).2).1.2.1
        (ws_cmd_get_tx_data 0 []
          (ws_cmd_send_handler cmd_type cmd_id data_type data.length data st).2).1.2.2
        (calls, x) =
      ((d cmd_type cmd_id data_type data.length data x).1,
        (calls ++ [{ cmd_type := cmd_type, cmd_id := cmd_id, data_type := data_type,
                     len := data.length, data := data }],
          (d cmd_type cmd_id data_type data.length data x).2)) := by
  have hpush := ws_push_lt st hst
  obtain ⟨hlen, hbufs, hpop, hn4, hp⟩ := hst
  have hpp : st.tx_buffer_push_index = st.tx_buffer_pop_index := by
    rw [hp, hempty, Nat.add_zero, Nat.mod_eq_of_lt hpop]
  have l4 := length_htonl_bytes
  have hsend := ws_cmd_send_handler_eq cmd_type cmd_id data_type data st
    ⟨hlen, hbufs, hpop, hn4, hp⟩ hn (by omega)
  have hget := ws_cmd_get_tx_data_eq 0 []
    (ws_cmd_send_handler cmd_type cmd_id data_type data.length data st).2
    (by rw [hsend]; exact hpop) (by rw [hsend]; simp only; omega)
  rw [hget, hsend]
  simp only [hpp]
  rw [List.getD_eq_getElem?_getD, List.getElem?_set_self (by omega)]
  simp only [Option.getD_some, true_and]
  rw [ws_rx_accept (recording d) _ _ _ (by omega)
    (by simp only [encode_frame, List.append_assoc]; rw [ntohl_at_htonl_bytes]; omega)]
  have e4 : ∀ r, ntohl_at (encode_frame cmd_type cmd_id data_type data ++ r) 4 = cmd_type := by
    intro r
    have := ntohl_at_append (htonl_bytes (16 + data.length))
      (htonl_bytes cmd_type ++ (htonl_bytes cmd_id ++ (htonl_bytes data_type ++ (data ++ r)))) 0
    rw [l4] at this
    simp only [encode_frame, List.append_assoc]
    rw [this, ntohl_at_htonl_bytes, Nat.mod_eq_of_lt h1]
  have e8 : ∀ r, ntohl_at (encode_frame cmd_type cmd_id data_type data ++ r) 8 = cmd_id := by
    intro r
    have := ntohl_at_append (htonl_bytes (16 + data.length) ++ htonl_bytes cmd_type)
      (htonl_bytes cmd_id ++ (htonl_bytes data_type ++ (data ++ r))) 0
    rw [List.length_append, l4, l4] at this
    simp only [encode_frame, List.append_assoc] at this ⊢
    rw [this, ntohl_at_htonl_bytes, Nat.mod_eq_of_lt h2]
  have e12 : ∀ r, ntohl_at (encode_frame cmd_type cmd_id data_type data ++ r) 12 = data_type := by
    intro r
    have := ntohl_at_append
      (htonl_bytes (16 + data.length) ++ htonl_bytes cmd_type ++ htonl_bytes cmd_id)
      (htonl_bytes data_type ++ (data ++ r)) 0
    rw [List.length_append, List.length_append, l4, l4, l4] at this
    simp only [encode_frame, List.append_assoc] at this ⊢
    rw [this, ntohl_at_htonl_bytes, Nat.mod_eq_of_lt h3]
  have ed : ∀ r, slice (encode_frame cmd_type cmd_id data_type data ++ r) 16 data.length = data := by
    intro r
    unfold encode_frame
    exact slice_append_right _ data r 16 (by simp only [List.length_append, l4])
  rw [e4, e8, e12, Nat.add_sub_cancel_left, ed]
  rfl

/-- Witness of `ws_frame_roundtrip`: the empty payload with kind None (0), command 3. -/
theorem ws_frame_roundtrip_witness :
    WsReady ws_tx_init ∧ ws_tx_init.tx_buffer_num_entries = 0 ∧
      ([] : List Nat).length ≤ 8192 ∧
      ws_cmd_process_socket_rx_data (recording sample_dispatcher)
          (ws_cmd_get_tx_data 0 []
            (ws_cmd_send_handler 0 3 0 ([] : List Nat).length [] ws_tx_init).2).1.2.1
          (ws_cmd_get_tx_data 0 []
            (ws_cmd_send_handler 0 3 0 ([] : List Nat).length [] ws_tx_init).2).1.2.2
          ([], 0) =
        ((sample_dispatcher 0 3 0 ([] : List Nat).length [] 0).1,
          ([] ++ [{ cmd_type := 0, cmd_id := 3, data_type := 0,
                    len := ([] : List Nat).length, data := [] }],
            (sample_dispatcher 0 3 0 ([] : List Nat).length [] 0).2)) :=
  ⟨ws_tx_init_ready, rfl, by decide,
    (ws_frame_roundtrip sample_dispatcher 0 3 0 [] ws_tx_init [] 0 ws_tx_init_ready rfl
      (by decide) (by decide) (by decide) (by decide)).2.2⟩
/-- One ring call keeps the ring well formed and the record of the run consistent: the
packets fetched so far, followed by the packets still queued, are the packets queued so
far. -/
theorem ws_step_inv (t : WsTrace) (op : WsOp)
    (hfit : ∀ a b d data, op = WsOp.send a b d data → data.length ≤ 8192)
    (hst : WsReady t.st) (hq : t.deq ++ ring_contents t.st = t.enq) :
    WsReady (ws_step t op).st ∧
      (ws_step t op).deq ++ ring_contents (ws_step t op).st = (ws_step t op).enq := by
  cases op with
  | send a b d data =>
    have hn := hfit a b d data rfl
    refine ⟨ws_cmd_send_handler_ready a b d data t.st hst hn, ?_⟩
    by_cases hfull : t.st.tx_buffer_num_entries = 4
    · have hfull2 : t.st.tx_buffer_num_entries = WS_MAX_TX_PKTS := hfull
      have hsend : ws_cmd_send_handler a b d data.length data t.st = (false, t.st) := by
        unfold ws_cmd_send_handler
        rw [if_pos hfull2]
      simp only [ws_step, hsend, Bool.false_eq_true, if_false]
      exact hq
    · have h1 : (ws_cmd_send_handler a b d data.length data t.st).1 = true := by
        rw [ws_cmd_send_handler_eq a b d data t.st hst hn hfull]
      simp only [ws_step, h1, if_true, ring_contents_send a b d data t.st hst hn hfull]
      rw [← List.append_assoc, hq]
  | get =>
    by_cases hnum : t.st.tx_buffer_num_entries = 0
    · have hget := ws_cmd_get_tx_data_empty 0 [] t.st hnum
      simp only [ws_step, hget, Bool.false_eq_true, if_false]
      exact ⟨hst, hq⟩
    · obtain ⟨hr, hc⟩ := ring_contents_get t.st hst (by omega)
      have hv : (ws_cmd_get_tx_data 0 [] t.st).1.1 = true := by
        rw [ws_cmd_get_tx_data_eq 0 [] t.st hst.2.2.1 (by omega)]
      refine ⟨hr, ?_⟩
      simp only [ws_step, hv, if_true]
      rw [List.append_assoc, List.singleton_append, ← hc, hq]

theorem ws_run_inv (ops : List WsOp) : ∀ t : WsTrace, payloads_fit ops → WsReady t.st →
    t.deq ++ ring_contents t.st = t.enq →
    WsReady (ops.foldl ws_step t).st ∧
      (ops.foldl ws_step t).deq ++ ring_contents (ops.foldl ws_step t).st =
        (ops.foldl ws_step t).enq := by
  induction ops with
  | nil => intro t _ hst hq; exact ⟨hst, hq⟩
  | cons op ops ih =>
    intro t hfit hst hq
    obtain ⟨h1, h2⟩ := ws_step_inv t op
      (fun a b d data e => hfit op (List.mem_cons_self _ _) a b d data e) hst hq
    exact ih (ws_step t op)
      (fun o ho a b d data e => hfit o (List.mem_cons_of_mem _ ho) a b d data e) h1 h2

theorem length_ring_contents (st : WsState) :
    (ring_contents st).length = st.tx_buffer_num_entries := by
  simp [ring_contents]

/-- C14: for every sequence of `ws_cmd_send_handler` and `ws_cmd_get_tx_data` calls made one
after the other from the empty ring, with payloads of at most 8192 bytes, the packets
fetched are, in order, the first packets queued (the k-th successful fetch returns the
length and bytes of the k-th successful send); and `ws_cmd_get_tx_data` returns false
exactly when as many packets have been fetched as were queued, leaving its outputs and the
ring as they were. -/
theorem ws_ring_fifo (ops : List WsOp) (hfit : payloads_fit ops) :
    (ws_run ops).deq = (ws_run ops).enq.take (ws_run ops).deq.length ∧
    (∀ (len : Nat) (data : List Nat),
      (ws_cmd_get_tx_data len data (ws_run ops).st).1.1 = false ↔
        (ws_run ops).enq.length = (ws_run ops).deq.length) ∧
    (∀ (len : Nat) (data : List Nat), (ws_run ops).enq.length = (ws_run ops).deq.length →
      ws_cmd_get_tx_data len data (ws_run ops).st = ((false, len, data), (ws_run ops).st)) := by
  obtain ⟨hst, hq⟩ := ws_run_inv ops { st := ws_tx_init, enq := [], deq := [] } hfit
    ws_tx_init_ready rfl
  change WsReady (ws_run ops).st at hst
  change (ws_run ops).deq ++ ring_contents (ws_run ops).st = (ws_run ops).enq at hq
  have hlen : (ws_run ops).enq.length =
      (ws_run ops).deq.length + (ws_run ops).st.tx_buffer_num_entries := by
    rw [← hq, List.length_append, length_ring_contents]
  refine ⟨by rw [← hq, List.take_left], fun len data => ?_, fun len data he => ?_⟩
  · by_cases hnum : (ws_run ops).st.tx_buffer_num_entries = 0
    · rw [ws_cmd_get_tx_data_empty len data _ hnum]
      simp only [true_iff]
      omega
    · rw [ws_cmd_get_tx_data_eq len data _ hst.2.2.1 (by omega)]
      simp only [Bool.true_eq_false, false_iff]
      omega
  · exact ws_cmd_get_tx_data_empty len data _ (by omega)

/-- Witness of `ws_ring_fifo`: two packets queued, two fetches, a third fetch on the empty
ring. -/
theorem ws_ring_fifo_witness :
    payloads_fit sample_ops ∧
      (ws_run sample_ops).deq = (ws_run sample_ops).enq.take (ws_run sample_ops).deq.length :=
  have hf : payloads_fit sample_ops := by
    intro op hop a b d data he
    simp only [sample_ops, List.mem_cons, List.mem_singleton, List.not_mem_nil, or_false] at hop
    rcases hop with h | h | h | h | h <;> rw [h] at he <;> cases he <;> decide
  ⟨hf, (ws_ring_fifo sample_ops hf).1⟩

/-! # Command handlers -/

theorem sample_state_ready : PsReady sample_state :=
  ⟨List.length_replicate _ _, List.length_replicate _ _, rfl⟩

theorem sample_cmd_state_ready : CmdReady sample_cmd_state :=
  ⟨sample_state_ready, List.length_replicate _ _, List.length_replicate _ _,
    List.length_replicate _ _⟩

/-- On a ready state `ps_get_config` with a valid index copies the region of the config into
the caller's structure. -/
theorem ps_get_config_ready (k : Int) (buf : List Nat) (s : PsState) (hk : 0 ≤ k ∧ k < 3)
    (hr : PsReady s) :
    ps_get_config k buf s =
      (true, storeBytes buf 0 (slice s.ps_shadow_buffer (region_start k) (region_length k))) := by
  have hk2 : k ≥ 0 ∧ k < (PS_NUM_CONFIGS : Int) := (valid_index_iff k).2 hk
  unfold ps_get_config
  rw [if_pos hk2, hr.2.2]
  rfl

/-- The call `ps_set_config` keeps a ready state ready. -/
theorem ps_set_config_ready (k : Int) (v : List Nat) (s : PsState) (h : Hw) (hr : PsReady s) :
    PsReady (ps_set_config k v s h).2.1 := by
  obtain ⟨h1, h2, h3⟩ := hr
  unfold ps_set_config
  split
  · refine ⟨?_, h2, h3⟩
    simp only [List.length_set, length_storeBytes, h1]
  · exact ⟨h1, h2, h3⟩

/-- Region of config `k` in the shadow buffer after `ps_set_config(k, v)` on a ready state. -/
theorem ps_set_config_region (k : Int) (v : List Nat) (s : PsState) (h : Hw)
    (hk : 0 ≤ k ∧ k < 3) (hr : PsReady s) (hv : v.length = region_length k) :
    slice (ps_set_config k v s h).2.1.ps_shadow_buffer (region_start k) (region_length k) = v := by
  obtain ⟨hlen, _, htab⟩ := hr
  have hb := region_bounds k hk
  have hsl : slice v 0 (region_length k) = v := by rw [← hv]; exact slice_zero_length v
  rw [ps_set_config_shadow k v s h hk, htab]
  change slice ((storeBytes _ (region_start k) (slice v 0 (region_length k))).set
    PS_CHECKSUM_ADDR _) (region_start k) (region_length k) = v
  rw [hsl, slice_set_of_le _ _ _ _ _ (by simp only [PS_CHECKSUM_ADDR, PS_RAM_SIZE]; omega)]
  have := slice_storeBytes_self s.ps_shadow_buffer v (region_start k)
    (by rw [hlen, hv]; simp only [PS_RAM_SIZE]; omega)
  rw [hv] at this
  exact this

/-- C17: each apply handler (set backlight, set mode, set poweroff, set time, set timezone,
set wifi) called with a payload kind other than the one its command expects returns with the
whole handler state as it was: the shadow buffer is unchanged, the driver log has no new
call, no clock call is recorded and the notification bits of the coordinator are unchanged. -/
theorem cmd_apply_kind_mismatch (a : ApplyHandler) (data_type : cmd_data_t) (len : Nat)
    (data : List Nat) (st : CmdState) (hk : data_type ≠ expected_kind a) :
    run_apply a data_type len data st = st ∧
      (run_apply a data_type len data st).ps.ps_shadow_buffer = st.ps.ps_shadow_buffer ∧
      (run_apply a data_type len data st).hw.log = st.hw.log ∧
      (run_apply a data_type len data st).time_set_calls = st.time_set_calls ∧
      (run_apply a data_type len data st).timezone_set_calls = st.timezone_set_calls ∧
      (run_apply a data_type len data st).ctrl_notify = st.ctrl_notify := by
  have h : run_apply a data_type len data st = st := by
    cases a <;>
      simp only [expected_kind] at hk <;>
      simp only [run_apply, cmd_handler_set_backlight, cmd_handler_set_mode,
        cmd_handler_set_poweroff, cmd_handler_set_time, cmd_handler_set_timezone,
        cmd_handler_set_wifi, hk, false_and, if_false]
  rw [h]
  exact ⟨rfl, rfl, rfl, rfl, rfl, rfl⟩

/-- Witness of `cmd_apply_kind_mismatch`: Set Backlight with a String payload. -/
theorem cmd_apply_kind_mismatch_witness :
    cmd_data_t.CMD_DATA_STRING ≠ expected_kind ApplyHandler.set_backlight ∧
      (run_apply .set_backlight .CMD_DATA_STRING 4 [0, 0, 0, 150] sample_cmd_state
          = sample_cmd_state ∧
        (run_apply .set_backlight .CMD_DATA_STRING 4 [0, 0, 0, 150]
          sample_cmd_state).ps.ps_shadow_buffer = sample_cmd_state.ps.ps_shadow_buffer ∧
        (run_apply .set_backlight .CMD_DATA_STRING 4 [0, 0, 0, 150] sample_cmd_state).hw.log
          = sample_cmd_state.hw.log ∧
        (run_apply .set_backlight .CMD_DATA_STRING 4 [0, 0, 0, 150]
          sample_cmd_state).time_set_calls = sample_cmd_state.time_set_calls ∧
        (run_apply .set_backlight .CMD_DATA_STRING 4 [0, 0, 0, 150]
          sample_cmd_state).timezone_set_calls = sample_cmd_state.timezone_set_calls ∧
        (run_apply .set_backlight .CMD_DATA_STRING 4 [0, 0, 0, 150]
          sample_cmd_state).ctrl_notify = sample_cmd_state.ctrl_notify) :=
  ⟨by decide,
    cmd_apply_kind_mismatch .set_backlight .CMD_DATA_STRING 4 [0, 0, 0, 150] sample_cmd_state
      (by decide)⟩

/-- C18: on a ready state, after `cmd_handler_set_backlight` receives an Int32 payload of
value `v` with `0 ≤ v ≤ 255` (150 for instance; nothing clamps to 1..100), the next
`cmd_handler_get_backlight` sends one Int32 response for the backlight command whose value
is `v`, whatever the backing store answered to the write. -/
theorem cmd_backlight_set_get (st : CmdState) (v : Nat) (data_type : cmd_data_t) (len : Nat)
    (data : List Nat) (hr : PsReady st.ps) (hv : v ≤ 255) :
    (cmd_handler_get_backlight data_type len data
        (cmd_handler_set_backlight .CMD_DATA_INT32 4 (htonl_bytes v) st)).sent =
      st.sent ++ [SendCall.cmd_send_int32 .CMD_RSP .CMD_BACKLIGHT v] := by
  have hk : (0 : Int) ≤ 0 ∧ (0 : Int) < 3 := by decide
  have hg := ps_get_config_ready 0 gui_config_local st.ps hk hr
  have hlen : ((ps_get_config 0 gui_config_local st.ps).2.set OFS_lcd_brightness
      (ntohl_at (htonl_bytes v) 0 % 256)).length = region_length 0 := by
    rw [List.length_set, hg, length_storeBytes]
    rfl
  have hreg := ps_set_config_region 0 _ st.ps st.hw hk hr hlen
  have hr2 := ps_set_config_ready 0 ((ps_get_config 0 gui_config_local st.ps).2.set
    OFS_lcd_brightness (ntohl_at (htonl_bytes v) 0 % 256)) st.ps st.hw hr
  have hg2 := ps_get_config_ready 0 gui_config_local _ hk hr2
  rw [hreg] at hg2
  have hnt : ntohl_at (htonl_bytes v) 0 % 256 = v := by
    have := ntohl_at_htonl_bytes v []
    rw [List.append_nil] at this
    rw [this]
    omega
  simp only [cmd_handler_set_backlight, cmd_handler_get_backlight, and_self, if_true, notify_ctrl,
    PS_CONFIG_TYPE_GUI, Nat.cast_zero]
  rw [hg2, storeBytes_zero_of_length_eq _ _ (by rw [hlen]; rfl), hnt]
  have : ((ps_get_config 0 gui_config_local st.ps).2.set OFS_lcd_brightness v).getD
      OFS_lcd_brightness 0 = v := by
    apply getD_set_self
    rw [hg, length_storeBytes]
    decide
  rw [this]

/-- Witness of `cmd_backlight_set_get`: the value 150 on the sample state. -/
theorem cmd_backlight_set_get_witness :
    PsReady sample_cmd_state.ps ∧ 150 ≤ 255 ∧
      (cmd_handler_get_backlight .CMD_DATA_NONE 0 []
          (cmd_handler_set_backlight .CMD_DATA_INT32 4 (htonl_bytes 150) sample_cmd_state)).sent =
        sample_cmd_state.sent ++ [SendCall.cmd_send_int32 .CMD_RSP .CMD_BACKLIGHT (150 : Nat)] :=
  ⟨sample_state_ready, by decide,
    cmd_backlight_set_get sample_cmd_state 150 .CMD_DATA_NONE 0 [] sample_state_ready
      (by decide)⟩

theorem storeBytes_storeBytes (a : List Nat) : ∀ (dst b : List Nat) (off off2 : Nat),
    off2 = off + a.length →
    storeBytes (storeBytes dst off a) off2 b = storeBytes dst off (a ++ b) := by
  induction a with
  | nil => intro dst b off off2 h; subst h; rfl
  | cons x xs ih =>
    intro dst b off off2 h
    simp only [storeBytes, List.cons_append]
    exact ih _ _ _ _ (by rw [h, List.length_cons]; omega)

theorem slice_head (a b : List Nat) (n : Nat) (h : a.length = n) : slice (a ++ b) 0 n = a := by
  subst h; exact slice_append_length a b

theorem to_uint32_lt (i : Int) : to_uint32 i < 4294967296 := by
  unfold to_uint32; omega

theorem to_int32_to_uint32 (i : Int) (h : int32_range i) :
    to_int32 (to_uint32 i % 4294967296) = i := by
  obtain ⟨h1, h2⟩ := h
  unfold to_int32 to_uint32
  split <;> omega

theorem length_concat_words (ws : List Nat) : (concat_words ws).length = 4 * ws.length := by
  induction ws with
  | nil => rfl
  | cons w ws ih => simp only [concat_words, List.length_append, length_htonl_bytes, ih,
      List.length_cons]; omega

theorem ntohl_at_concat_words : ∀ (ws : List Nat) (k : Nat), k < ws.length →
    ntohl_at (concat_words ws) (4 * k) = ws.getD k 0 % 4294967296 := by
  intro ws
  induction ws with
  | nil => intro k hk; simp at hk
  | cons w ws ih =>
    intro k hk
    cases k with
    | zero => exact ntohl_at_htonl_bytes w (concat_words ws)
    | succ k =>
      have := ntohl_at_append (htonl_bytes w) (concat_words ws) (4 * k)
      rw [length_htonl_bytes] at this
      have e : 4 * (k + 1) = 4 + 4 * k := by omega
      rw [e]
      simp only [concat_words, List.getD_cons_succ]
      rw [this]
      exact ih k (by simpa using hk)

theorem encode_tm_eq (te : Tm) :
    encode_tm te = concat_words [to_uint32 te.tm_sec, to_uint32 te.tm_min, to_uint32 te.tm_hour,
      to_uint32 te.tm_mday, to_uint32 te.tm_mon, to_uint32 te.tm_year, to_uint32 te.tm_wday,
      to_uint32 te.tm_yday, to_uint32 te.tm_isdst] := by
  simp only [encode_tm, int32_be, concat_words, List.append_assoc, List.append_nil]

theorem length_encode_tm (te : Tm) : (encode_tm te).length = 36 := rfl

/-- Unpacking the encoding of a broken-down time gives it back. -/
theorem unpack_tm_encode_tm (te : Tm) (h : tm_in_range te) : unpack_tm (encode_tm te) = te := by
  obtain ⟨h0, h1, h2, h3, h4, h5, h6, h7, h8⟩ := h
  have key : ∀ k : Nat, k < 9 → ntohl_at (encode_tm te) (4 * k) =
      [to_uint32 te.tm_sec, to_uint32 te.tm_min, to_uint32 te.tm_hour,
        to_uint32 te.tm_mday, to_uint32 te.tm_mon, to_uint32 te.tm_year, to_uint32 te.tm_wday,
        to_uint32 te.tm_yday, to_uint32 te.tm_isdst].getD k 0 % 4294967296 := by
    intro k hk
    rw [encode_tm_eq]
    exact ntohl_at_concat_words _ k hk
  have k0 : ntohl_at (encode_tm te) 0 = _ := key 0 (by decide)
  have k1 : ntohl_at (encode_tm te) 4 = _ := key 1 (by decide)
  have k2 : ntohl_at (encode_tm te) 8 = _ := key 2 (by decide)
  have k3 : ntohl_at (encode_tm te) 12 = _ := key 3 (by decide)
  have k4 : ntohl_at (encode_tm te) 16 = _ := key 4 (by decide)
  have k5 : ntohl_at (encode_tm te) 20 = _ := key 5 (by decide)
  have k6 : ntohl_at (encode_tm te) 24 = _ := key 6 (by decide)
  have k7 : ntohl_at (encode_tm te) 28 = _ := key 7 (by decide)
  have k8 : ntohl_at (encode_tm te) 32 = _ := key 8 (by decide)
  unfold unpack_tm
  rw [k0, k1, k2, k3, k4, k5, k6, k7, k8]
  simp only [List.getD_cons_zero, List.getD_cons_succ]
  rw [to_int32_to_uint32 _ h0, to_int32_to_uint32 _ h1, to_int32_to_uint32 _ h2,
    to_int32_to_uint32 _ h3, to_int32_to_uint32 _ h4, to_int32_to_uint32 _ h5,
    to_int32_to_uint32 _ h6, to_int32_to_uint32 _ h7, to_int32_to_uint32 _ h8]

/-- C15: for every nine 32-bit signed values (sec, min, hour, mday, mon, year, wday, yday,
isdst) the clock delivers, `cmd_handler_get_time` sends one Binary response for the time
command whose 36-byte payload is the concatenation of their 4-byte big-endian encodings in
that order; `cmd_handler_set_time` given that payload calls `time_set` with the same nine
values and `cmd_handler_rsp_time` on the GUI side hands the same nine values to the time
page, negative values included. -/
theorem cmd_time_payload (te : Tm) (st st2 : CmdState) (g : GuiState) (data_type : cmd_data_t)
    (len : Nat) (data : List Nat) (hb : st.send_buf.length = CMD_WIFI_INFO_LEN)
    (hr : tm_in_range te) :
    (cmd_handler_get_time data_type len data { st with sys_time := te }).sent =
        st.sent ++ [SendCall.cmd_send_binary .CMD_RSP .CMD_TIME 36 (encode_tm te)] ∧
      (encode_tm te).length = 36 ∧
      (cmd_handler_set_time .CMD_DATA_BINARY 36 (encode_tm te) st2).time_set_calls =
        st2.time_set_calls ++ [te] ∧
      (cmd_handler_rsp_time .CMD_DATA_BINARY 36 (encode_tm te) g).time_page_calls =
        g.time_page_calls ++ [te] := by
  refine ⟨?_, rfl, ?_, ?_⟩
  · simp only [cmd_handler_get_time]
    rw [storeBytes_storeBytes (htonl_bytes _) _ _ 0 4 rfl,
      storeBytes_storeBytes (htonl_bytes _ ++ htonl_bytes _) _ _ 0 8 rfl,
      storeBytes_storeBytes (htonl_bytes _ ++ htonl_bytes _ ++ htonl_bytes _) _ _ 0 12 rfl,
      storeBytes_storeBytes (htonl_bytes _ ++ htonl_bytes _ ++ htonl_bytes _ ++ htonl_bytes _)
        _ _ 0 16 rfl,
      storeBytes_storeBytes (htonl_bytes _ ++ htonl_bytes _ ++ htonl_bytes _ ++ htonl_bytes _ ++
        htonl_bytes _) _ _ 0 20 rfl,
      storeBytes_storeBytes (htonl_bytes _ ++ htonl_bytes _ ++ htonl_bytes _ ++ htonl_bytes _ ++
        htonl_bytes _ ++ htonl_bytes _) _ _ 0 24 rfl,
      storeBytes_storeBytes (htonl_bytes _ ++ htonl_bytes _ ++ htonl_bytes _ ++ htonl_bytes _ ++
        htonl_bytes _ ++ htonl_bytes _ ++ htonl_bytes _) _ _ 0 28 rfl,
      storeBytes_storeBytes (htonl_bytes _ ++ htonl_bytes _ ++ htonl_bytes _ ++ htonl_bytes _ ++
        htonl_bytes _ ++ htonl_bytes _ ++ htonl_bytes _ ++ htonl_bytes _) _ _ 0 32 rfl]
    have hl : (encode_tm te).length ≤ st.send_buf.length := by
      rw [hb, length_encode_tm]; decide
    have := storeBytes_zero_head (encode_tm te) st.send_buf hl
    simp only [encode_tm, int32_be] at this
    rw [this]
    have hs := slice_head (encode_tm te) (st.send_buf.drop (encode_tm te).length) 36 rfl
    simp only [encode_tm, int32_be] at hs
    rw [show CMD_TIME_LEN = 36 from rfl, hs]
    rfl
  · simp only [cmd_handler_set_time, CMD_TIME_LEN, and_self, if_true]
    rw [unpack_tm_encode_tm te hr]
  · simp only [cmd_handler_rsp_time, CMD_TIME_LEN, and_self, if_true]
    rw [unpack_tm_encode_tm te hr]

/-- Witness of `cmd_time_payload`: the sample time, whose `tm_isdst` is -1. -/
theorem cmd_time_payload_witness :
    sample_cmd_state.send_buf.length = CMD_WIFI_INFO_LEN ∧ tm_in_range sample_tm ∧
      ((cmd_handler_get_time .CMD_DATA_NONE 0 []
          { sample_cmd_state with sys_time := sample_tm }).sent =
        sample_cmd_state.sent ++
          [SendCall.cmd_send_binary .CMD_RSP .CMD_TIME 36 (encode_tm sample_tm)] ∧
      (encode_tm sample_tm).length = 36 ∧
      (cmd_handler_set_time .CMD_DATA_BINARY 36 (encode_tm sample_tm)
          sample_cmd_state).time_set_calls = sample_cmd_state.time_set_calls ++ [sample_tm] ∧
      (cmd_handler_rsp_time .CMD_DATA_BINARY 36 (encode_tm sample_tm)
          sample_gui).time_page_calls = sample_gui.time_page_calls ++ [sample_tm]) :=
  ⟨List.length_replicate _ _, by decide,
    cmd_time_payload sample_tm sample_cmd_state sample_cmd_state sample_gui .CMD_DATA_NONE 0 []
      (List.length_replicate _ _) (by decide)⟩

theorem take_store_next (c dst : List Nat) (m n k : Nat) (hk : m + n = k)
    (hc : k ≤ c.length) (hd : k ≤ dst.length) :
    storeBytes (c.take m ++ dst.drop m) m (slice c m n) = c.take k ++ dst.drop k := by
  subst hk
  have hsl : (slice c m n).length = n := length_slice c m n hc
  apply List.ext_getElem?
  intro i
  rw [getElem?_storeBytes, hsl, getElem?_slice]
  have hlen : (c.take m ++ dst.drop m).length = dst.length := by
    simp only [List.length_append, List.length_take, List.length_drop]; omega
  rw [hlen]
  by_cases h1 : i < m
  · rw [if_neg (by omega), List.getElem?_append_left (by simp only [List.length_take]; omega),
      List.getElem?_append_left (by simp only [List.length_take]; omega),
      List.getElem?_take_of_lt h1, List.getElem?_take_of_lt (by omega)]
  · by_cases h2 : i < m + n
    · rw [if_pos ⟨by omega, h2, by omega⟩, if_pos (by omega),
        List.getElem?_append_left (by simp only [List.length_take]; omega),
        List.getElem?_take_of_lt h2]
      congr 1; omega
    · rw [if_neg (by omega),
        List.getElem?_append_right (by simp only [List.length_take]; omega),
        List.getElem?_append_right (by simp only [List.length_take]; omega)]
      simp only [List.length_take, List.getElem?_drop]
      congr 1; omega

theorem slice_one (c : List Nat) (m : Nat) (h : m < c.length) : slice c m 1 = [c.getD m 0] := by
  apply List.ext_getElem?
  intro i
  rw [getElem?_slice]
  cases i with
  | zero =>
    simp only [Nat.lt_one_iff, if_true, Nat.add_zero, List.getElem?_cons_zero,
      List.getD_eq_getElem?_getD, List.getElem?_eq_getElem h, Option.getD_some]
  | succ i => simp

theorem take_set_next (c dst : List Nat) (m k : Nat) (hk : m + 1 = k)
    (hc : k ≤ c.length) (hd : k ≤ dst.length) :
    (c.take m ++ dst.drop m).set m (c.getD m 0) = c.take k ++ dst.drop k := by
  have := take_store_next c dst m 1 k hk hc hd
  rw [slice_one c m (by omega)] at this
  exact this

theorem boolByte_ne_zero (x : Nat) (h : x ≤ 1) : boolByte (x != 0) = x := by
  have : x = 0 ∨ x = 1 := by omega
  rcases this with rfl | rfl <;> rfl

theorem slice_append_slice (c : List Nat) (a n m : Nat) :
    slice c a n ++ slice c (a + n) m = slice c a (n + m) := by
  unfold slice
  rw [List.take_add, List.drop_drop]

/-- The payload of a config of 209 bytes is the config itself, byte for byte: the members of
`net_config_t` lie in payload order and without padding. -/
theorem wifi_payload_eq (c : List Nat) (hc : c.length = 209) : wifi_payload c = c := by
  have h3 : [c.getD OFS_mdns_en 0, c.getD OFS_sta_mode 0, c.getD OFS_sta_static_ip 0]
      = slice c 0 3 := by
    match c, hc with
    | a :: b :: d :: rest, _ => rfl
  unfold wifi_payload
  rw [h3]
  simp only [OFS_ap_ssid, OFS_sta_ssid, OFS_ap_pw, OFS_sta_pw, OFS_ap_ip_addr, OFS_sta_ip_addr,
    OFS_sta_netmask, PS_SSID_MAX_LEN, PS_PW_MAX_LEN, Nat.reduceAdd]
  rw [slice_append_slice c 0 3 33, slice_append_slice c 0 36 33, slice_append_slice c 0 69 64,
    slice_append_slice c 0 133 64, slice_append_slice c 0 197 4, slice_append_slice c 0 201 4,
    slice_append_slice c 0 205 4]
  show slice c 0 209 = c
  rw [← hc]
  exact slice_zero_length c

/-- The decoder of `cmd_handler_set_wifi` on the bytes of a config with canonical flags
gives the config back. -/
theorem unpack_net_config_self (cfg c : List Nat) (hcfg : cfg.length = 209)
    (hc : c.length = 209) (hf : net_flags_bool c) : unpack_net_config cfg c = c := by
  obtain ⟨f0, f1, f2⟩ := hf
  simp only [OFS_mdns_en, OFS_sta_mode, OFS_sta_static_ip] at f0 f1 f2
  have hstart : cfg = c.take 0 ++ cfg.drop 0 := by simp
  unfold unpack_net_config
  simp only [OFS_mdns_en, OFS_sta_mode, OFS_sta_static_ip, OFS_ap_ssid, OFS_sta_ssid, OFS_ap_pw,
    OFS_sta_pw, OFS_ap_ip_addr, OFS_sta_ip_addr, OFS_sta_netmask, PS_SSID_MAX_LEN, PS_PW_MAX_LEN,
    Nat.reduceAdd, boolByte_ne_zero _ f0, boolByte_ne_zero _ f1, boolByte_ne_zero _ f2]
  rw [hstart, take_set_next c cfg 0 1 rfl (by omega) (by omega),
    take_set_next c cfg 1 2 rfl (by omega) (by omega),
    take_set_next c cfg 2 3 rfl (by omega) (by omega),
    take_store_next c cfg 3 33 36 rfl (by omega) (by omega),
    take_store_next c cfg 36 33 69 rfl (by omega) (by omega),
    take_store_next c cfg 69 64 133 rfl (by omega) (by omega),
    take_store_next c cfg 133 64 197 rfl (by omega) (by omega),
    take_store_next c cfg 197 4 201 rfl (by omega) (by omega),
    take_store_next c cfg 201 4 205 rfl (by omega) (by omega),
    take_store_next c cfg 205 4 209 rfl (by omega) (by omega)]
  rw [List.take_of_length_le (by omega), List.drop_of_length_le (by omega), List.append_nil]

/-- The bytes `cmd_handler_get_wifi` leaves in the first 209 bytes of `send_buf`. -/
theorem pack_net_config_self (buf c : List Nat) (hbuf : buf.length = 209)
    (hc : c.length = 209) :
    slice (storeBytes (storeBytes (storeBytes (storeBytes (storeBytes (storeBytes (storeBytes
      (((buf.set 0 (c.getD 0 0)).set 1 (c.getD 1 0)).set 2 (c.getD 2 0))
      3 (slice c 3 33)) 36 (slice c 36 33)) 69 (slice c 69 64)) 133 (slice c 133 64))
      197 (slice c 197 4)) 201 (slice c 201 4)) 205 (slice c 205 4)) 0 209 = c := by
  have hstart : buf = c.take 0 ++ buf.drop 0 := by simp
  rw [hstart, take_set_next c buf 0 1 rfl (by omega) (by omega),
    take_set_next c buf 1 2 rfl (by omega) (by omega),
    take_set_next c buf 2 3 rfl (by omega) (by omega),
    take_store_next c buf 3 33 36 rfl (by omega) (by omega),
    take_store_next c buf 36 33 69 rfl (by omega) (by omega),
    take_store_next c buf 69 64 133 rfl (by omega) (by omega),
    take_store_next c buf 133 64 197 rfl (by omega) (by omega),
    take_store_next c buf 197 4 201 rfl (by omega) (by omega),
    take_store_next c buf 201 4 205 rfl (by omega) (by omega),
    take_store_next c buf 205 4 209 rfl (by omega) (by omega)]
  rw [List.take_of_length_le (by omega), List.drop_of_length_le (by omega), List.append_nil,
    ← hc]
  exact slice_zero_length c

theorem length_stored_net_config (s : PsState) (hr : PsReady s) :
    (stored_net_config s).length = 209 := by
  unfold stored_net_config
  rw [length_slice]
  · rfl
  · rw [hr.1]; decide

theorem sample_net_config_stored : stored_net_config sample_net_cmd_state.ps = sample_net_config :=
  slice_append_right (List.replicate 5 0) sample_net_config (List.replicate 106 0) 5 rfl

theorem sample_net_cmd_state_ready : CmdReady sample_net_cmd_state :=
  ⟨⟨rfl, List.length_replicate _ _, rfl⟩, List.length_replicate _ _, List.length_replicate _ _,
    List.length_replicate _ _⟩

/-- C16: for the stored network config `c` (flags holding 0 or 1), `cmd_handler_get_wifi`
sends one Binary response for the wifi command whose payload has exactly 209 bytes: the three
flag bytes, then the 33 bytes of ap_ssid, the 33 bytes of sta_ssid, the 64 bytes of ap_pw,
the 64 bytes of sta_pw and the 4 bytes each of ap_ip, sta_ip and sta_netmask, in that order.
Given that payload, `cmd_handler_set_wifi` decodes a config equal to `c` in every byte and
the GUI handler `cmd_handler_rsp_wifi` stores every member of `c` in `gui_state`. -/
theorem cmd_wifi_payload (c : List Nat) (st st2 : CmdState) (g : GuiState)
    (data_type : cmd_data_t) (len : Nat) (data : List Nat)
    (hst : CmdReady st) (hs : stored_net_config st.ps = c) (hf : net_flags_bool c)
    (hst2 : st2.new_net_config.length = SIZEOF_net_config_t) (hg : GuiReady g) :
    (cmd_handler_get_wifi data_type len data st).sent =
        st.sent ++ [SendCall.cmd_send_binary .CMD_RSP .CMD_WIFI_INFO 209 (wifi_payload c)] ∧
      (wifi_payload c).length = 209 ∧
      (cmd_handler_set_wifi .CMD_DATA_BINARY 209 (wifi_payload c) st2).new_net_config = c ∧
      (cmd_handler_rsp_wifi .CMD_DATA_BINARY 209 (wifi_payload c) g).gui_state =
        { g.gui_state with
          mdns_en := c.getD OFS_mdns_en 0
          sta_mode := c.getD OFS_sta_mode 0
          sta_static_ip := c.getD OFS_sta_static_ip 0
          ap_ssid := slice c OFS_ap_ssid 33
          sta_ssid := slice c OFS_sta_ssid 33
          ap_pw := slice c OFS_ap_pw 64
          sta_pw := slice c OFS_sta_pw 64
          ap_ip_addr := slice c OFS_ap_ip_addr 4
          sta_ip_addr := slice c OFS_sta_ip_addr 4
          sta_netmask := slice c OFS_sta_netmask 4 } := by
  obtain ⟨hps, hbuf, horig, _⟩ := hst
  have hc : c.length = 209 := by rw [← hs]; exact length_stored_net_config st.ps hps
  have hp := wifi_payload_eq c hc
  refine ⟨?_, by rw [hp, hc], ?_, ?_⟩
  · have hk : (0 : Int) ≤ 1 ∧ (1 : Int) < 3 := by decide
    have hget := ps_get_config_ready 1 st.orig_net_config st.ps hk hps
    have hs2 : slice st.ps.ps_shadow_buffer (region_start 1) (region_length 1) = c := hs
    rw [hs2, storeBytes_zero_of_length_eq _ _ (by rw [horig, hc]; rfl)] at hget
    simp only [cmd_handler_get_wifi, PS_CONFIG_TYPE_NET, Nat.cast_one, hget, OFS_mdns_en,
      OFS_sta_mode, OFS_sta_static_ip, OFS_ap_ssid, OFS_sta_ssid, OFS_ap_pw, OFS_sta_pw,
      OFS_ap_ip_addr, OFS_sta_ip_addr, OFS_sta_netmask, PS_SSID_MAX_LEN, PS_PW_MAX_LEN,
      Nat.reduceAdd]
    rw [pack_net_config_self st.send_buf c hbuf hc, hp]
  · rw [hp]
    have hu := unpack_net_config_self st2.new_net_config c hst2 hc hf
    unfold cmd_handler_set_wifi
    rw [if_pos ⟨rfl, rfl⟩]
    simp only [hu]
    split <;> rfl
  · obtain ⟨g1, g2, g3, g4, g5, g6, g7⟩ := hg
    obtain ⟨f0, f1, f2⟩ := hf
    simp only [OFS_mdns_en, OFS_sta_mode, OFS_sta_static_ip] at f0 f1 f2
    rw [hp]
    unfold cmd_handler_rsp_wifi
    rw [if_pos ⟨rfl, rfl⟩]
    simp only [gui_state_note_item_inited, OFS_mdns_en, OFS_sta_mode, OFS_sta_static_ip,
      OFS_ap_ssid, OFS_sta_ssid, OFS_ap_pw, OFS_sta_pw, OFS_ap_ip_addr, OFS_sta_ip_addr,
      OFS_sta_netmask, PS_SSID_MAX_LEN, PS_PW_MAX_LEN, GUI_SSID_MAX_LEN, GUI_PW_MAX_LEN,
      Nat.reduceAdd, boolByte_ne_zero _ f0, boolByte_ne_zero _ f1, boolByte_ne_zero _ f2]
    rw [storeBytes_zero_of_length_eq _ (slice c 3 33) (by rw [g1, length_slice _ _ _ (by omega)]; rfl),
      storeBytes_zero_of_length_eq _ (slice c 36 33) (by rw [g2, length_slice _ _ _ (by omega)]; rfl),
      storeBytes_zero_of_length_eq _ (slice c 69 64) (by rw [g3, length_slice _ _ _ (by omega)]; rfl),
      storeBytes_zero_of_length_eq _ (slice c 133 64) (by rw [g4, length_slice _ _ _ (by omega)]; rfl),
      storeBytes_zero_of_length_eq _ (slice c 197 4) (by rw [g5, length_slice _ _ _ (by omega)]),
      storeBytes_zero_of_length_eq _ (slice c 201 4) (by rw [g6, length_slice _ _ _ (by omega)]),
      storeBytes_zero_of_length_eq _ (slice c 205 4) (by rw [g7, length_slice _ _ _ (by omega)])]

/-- Witness of `cmd_wifi_payload`: the sample config held by the sample state. -/
theorem cmd_wifi_payload_witness :
    CmdReady sample_net_cmd_state ∧
      stored_net_config sample_net_cmd_state.ps = sample_net_config ∧
      net_flags_bool sample_net_config ∧
      sample_cmd_state.new_net_config.length = SIZEOF_net_config_t ∧ GuiReady sample_gui ∧
      ((cmd_handler_get_wifi .CMD_DATA_NONE 0 [] sample_net_cmd_state).sent =
          sample_net_cmd_state.sent ++
            [SendCall.cmd_send_binary .CMD_RSP .CMD_WIFI_INFO 209 (wifi_payload sample_net_config)] ∧
        (wifi_payload sample_net_config).length = 209 ∧
        (cmd_handler_set_wifi .CMD_DATA_BINARY 209 (wifi_payload sample_net_config)
          sample_cmd_state).new_net_config = sample_net_config ∧
        (cmd_handler_rsp_wifi .CMD_DATA_BINARY 209 (wifi_payload sample_net_config)
          sample_gui).gui_state =
          { sample_gui.gui_state with
            mdns_en := sample_net_config.getD OFS_mdns_en 0
            sta_mode := sample_net_config.getD OFS_sta_mode 0
            sta_static_ip := sample_net_config.getD OFS_sta_static_ip 0
            ap_ssid := slice sample_net_config OFS_ap_ssid 33
            sta_ssid := slice sample_net_config OFS_sta_ssid 33
            ap_pw := slice sample_net_config OFS_ap_pw 64
            sta_pw := slice sample_net_config OFS_sta_pw 64
            ap_ip_addr := slice sample_net_config OFS_ap_ip_addr 4
            sta_ip_addr := slice sample_net_config OFS_sta_ip_addr 4
            sta_netmask := slice sample_net_config OFS_sta_netmask 4 }) :=
  ⟨sample_net_cmd_state_ready, sample_net_config_stored, by decide, List.length_replicate _ _,
    by decide,
    cmd_wifi_payload sample_net_config sample_net_cmd_state sample_cmd_state sample_gui
      .CMD_DATA_NONE 0 [] sample_net_cmd_state_ready sample_net_config_stored (by decide)
      (List.length_replicate _ _) (by decide)⟩

/-- C19: `gui_parse_ipv4_addr_string` checks for too many fields, for a field value above
255 and for characters other than digits and dots, but not for missing or empty fields. On
the string "1.2", which is not in the documented form of four fields, it returns true and
overwrites `addr` with 1.2.0.0 (`addr[3] = 1`, `addr[2] = 2`); so it does on the empty
string, with 0.0.0.0. On "192.168.4.1" it returns true with the first field in `addr[3]`
and the last in `addr[0]`, and on "1.2.3.4.5" and "1.256.3.4" it returns false and leaves
`addr` as it was. -/
theorem gui_parse_ipv4_addr_string_short :
    is_dotted_quad [49, 46, 50] = false ∧
      gui_parse_ipv4_addr_string [49, 46, 50, 0] [9, 9, 9, 9] = (true, [0, 0, 2, 1]) ∧
      is_dotted_quad [] = false ∧
      gui_parse_ipv4_addr_string [0] [9, 9, 9, 9] = (true, [0, 0, 0, 0]) ∧
      is_dotted_quad [49, 57, 50, 46, 49, 54, 56, 46, 52, 46, 49] = true ∧
      gui_parse_ipv4_addr_string [49, 57, 50, 46, 49, 54, 56, 46, 52, 46, 49, 0] [9, 9, 9, 9]
        = (true, [1, 4, 168, 192]) ∧
      gui_parse_ipv4_addr_string [49, 46, 50, 46, 51, 46, 52, 46, 53, 0] [9, 9, 9, 9]
        = (false, [9, 9, 9, 9]) ∧
      gui_parse_ipv4_addr_string [49, 46, 50, 53, 54, 46, 51, 46, 52, 0] [9, 9, 9, 9]
        = (false, [9, 9, 9, 9]) := by
  decide

theorem length_unpack_net_config (cfg data : List Nat) :
    (unpack_net_config cfg data).length = cfg.length := by
  simp only [unpack_net_config, length_storeBytes, List.length_set]

/-- Stored network config after `cmd_handler_set_wifi` took a payload that differs from the
stored config: the decoded payload, text members as received. -/
theorem cmd_handler_set_wifi_stored (data : List Nat) (st : CmdState) (hst : CmdReady st)
    (hne : net_config_structs_eq (stored_net_config st.ps)
      (unpack_net_config st.new_net_config data) = false) :
    stored_net_config (cmd_handler_set_wifi .CMD_DATA_BINARY 209 data st).ps =
      unpack_net_config st.new_net_config data := by
  obtain ⟨hps, _, horig, hnew⟩ := hst
  have hk : (0 : Int) ≤ 1 ∧ (1 : Int) < 3 := by decide
  have hget := ps_get_config_ready 1 st.orig_net_config st.ps hk hps
  have hs2 : slice st.ps.ps_shadow_buffer (region_start 1) (region_length 1) =
    stored_net_config st.ps := rfl
  rw [hs2, storeBytes_zero_of_length_eq _ _
    (by rw [horig, length_stored_net_config st.ps hps]; rfl)] at hget
  have hlen : (unpack_net_config st.new_net_config data).length = region_length 1 := by
    rw [length_unpack_net_config, hnew]; rfl
  have hreg := ps_set_config_region 1 _ st.ps st.hw hk hps hlen
  unfold cmd_handler_set_wifi
  rw [if_pos ⟨rfl, rfl⟩]
  simp only [PS_CONFIG_TYPE_NET, Nat.cast_one, hget, hne, Bool.not_false, if_true, notify_ctrl]
  exact hreg

theorem sample_hw_invalid :
    ¬ ((stored_image sample_hw).getD 0 0 = 0x12 ∧ (stored_image sample_hw).getD 1 0 = 0x34) ∨
      (stored_image sample_hw).getD 319 0 ≠ ((stored_image sample_hw).take 319).sum % 256 :=
  Or.inl (by decide)

theorem sample_boot_cmd_state_ready : CmdReady sample_boot_cmd_state :=
  ⟨ps_init_ready boot_state sample_hw (List.length_replicate _ _), List.length_replicate _ _,
    List.length_replicate _ _, List.length_replicate _ _⟩

theorem sample_boot_stored : stored_net_config sample_boot_cmd_state.ps =
    slice (default_image sample_hw) 5 209 := by
  show slice (ps_init boot_state sample_hw).2.1.ps_shadow_buffer _ _ = _
  rw [ps_init_of_invalid boot_state sample_hw sample_hw_invalid]
  rfl

theorem sample_unterminated_unpack :
    unpack_net_config sample_boot_cmd_state.new_net_config sample_unterminated_payload =
      sample_unterminated_payload :=
  unpack_net_config_self _ _ (List.length_replicate _ _) (by decide) (by decide)

/-- C20: the invariant fails on the state reached from `ps_init` (on a store without a
valid image, so the defaults are stored and every text member is terminated) by one call of
`cmd_handler_set_wifi` with a 209-byte Binary payload whose mDNS flag is off and whose
access-point SSID member is 33 letters `A`: the handler stores the member as received, and
the stored `ap_ssid` then holds no zero byte within its 33 bytes. -/
theorem cmd_handler_set_wifi_unterminated :
    net_strings_terminated (stored_net_config sample_boot_cmd_state.ps) = true ∧
      slice (stored_net_config (cmd_handler_set_wifi .CMD_DATA_BINARY 209
        sample_unterminated_payload sample_boot_cmd_state).ps) OFS_ap_ssid 33
        = List.replicate 33 65 ∧
      net_strings_terminated (stored_net_config (cmd_handler_set_wifi .CMD_DATA_BINARY 209
        sample_unterminated_payload sample_boot_cmd_state).ps) = false := by
  have hne : net_config_structs_eq (stored_net_config sample_boot_cmd_state.ps)
      (unpack_net_config sample_boot_cmd_state.new_net_config sample_unterminated_payload)
      = false := by
    rw [sample_boot_stored, sample_unterminated_unpack]
    decide
  rw [cmd_handler_set_wifi_stored sample_unterminated_payload sample_boot_cmd_state
    sample_boot_cmd_state_ready hne, sample_unterminated_unpack, sample_boot_stored]
  decide

/-! # The completion wait of `ps_save_to_flash` -/

/-- While no read delivers zero, the polling loop uses up its reads and has not ended. -/
theorem ps_save_poll_busy : ∀ (fuel reg : Nat) (h : Hw), reg ≠ 0 →
    (∀ j, j < fuel → ¬ reads_zero h (h.log.length + j)) →
    ps_save_poll fuel reg h =
      (false, { h with log := (h.log ++
        List.replicate fuel (GcoreCall.get_reg8 h.GCORE_REG_NV_CTRL)) }) := by
  intro fuel
  induction fuel with
  | zero =>
    intro reg h hr _
    unfold ps_save_poll
    simp [hr]
  | succ f ih =>
    intro reg h hr hno
    unfold ps_save_poll
    simp only [hr, if_false]
    have h0 := hno 0 (by omega)
    rw [Nat.add_zero] at h0
    have hreg : (gcore_get_reg8 h.GCORE_REG_NV_CTRL reg h).1.2 ≠ 0 := by
      simp only [gcore_get_reg8]
      by_cases ha : h.ack h.log.length = true
      · rw [if_pos ha]
        intro c
        exact h0 ⟨ha, c⟩
      · rw [if_neg ha]
        exact hr
    rw [ih _ _ hreg]
    · simp [gcore_get_reg8, List.replicate_succ]
    · intro j hj
      have := hno (j + 1) (by omega)
      simpa [gcore_get_reg8, Nat.add_assoc, Nat.add_comm 1 j] using this

/-- The polling loop ends with the first read that delivers zero, after exactly that many
reads. -/
theorem ps_save_poll_first : ∀ (j fuel reg : Nat) (h : Hw), reg ≠ 0 → j < fuel →
    (∀ i, i < j → ¬ reads_zero h (h.log.length + i)) → reads_zero h (h.log.length + j) →
    ps_save_poll fuel reg h =
      (true, { h with log := (h.log ++
        List.replicate (j + 1) (GcoreCall.get_reg8 h.GCORE_REG_NV_CTRL)) }) := by
  intro j
  induction j with
  | zero =>
    intro fuel reg h hr hf _ hz
    rw [Nat.add_zero] at hz
    obtain ⟨f, rfl⟩ : ∃ f, fuel = f + 1 := ⟨fuel - 1, by omega⟩
    unfold ps_save_poll
    simp only [hr, if_false]
    have : (gcore_get_reg8 h.GCORE_REG_NV_CTRL reg h).1.2 = 0 := by
      simp [gcore_get_reg8, hz.1, hz.2]
    rw [this]
    unfold ps_save_poll
    simp [gcore_get_reg8]
  | succ j ih =>
    intro fuel reg h hr hf hno hz
    obtain ⟨f, rfl⟩ : ∃ f, fuel = f + 1 := ⟨fuel - 1, by omega⟩
    unfold ps_save_poll
    simp only [hr, if_false]
    have h0 := hno 0 (by omega)
    rw [Nat.add_zero] at h0
    have hreg : (gcore_get_reg8 h.GCORE_REG_NV_CTRL reg h).1.2 ≠ 0 := by
      simp only [gcore_get_reg8]
      by_cases ha : h.ack h.log.length = true
      · rw [if_pos ha]
        intro c
        exact h0 ⟨ha, c⟩
      · rw [if_neg ha]
        exact hr
    rw [ih f _ _ hreg (by omega)]
    · simp [gcore_get_reg8, List.replicate_succ]
    · intro i hi
      have := hno (i + 1) (by omega)
      simpa [gcore_get_reg8, Nat.add_assoc, Nat.add_comm 1 i] using this
    · simpa [gcore_get_reg8, Nat.add_assoc, Nat.add_comm 1 j] using hz

/-- With the buffers differing and the trigger accepted, `ps_save_to_flash` returns after
the first read that delivers zero. -/
theorem ps_save_to_flash_returns (s : PsState) (h : Hw) (hs : PsReady s)
    (hd : buffers_differ s) (hack : h.ack h.log.length = true) (j fuel : Nat)
    (hno : ∀ i, i < j → ¬ reads_zero h (h.log.length + 1 + i))
    (hz : reads_zero h (h.log.length + 1 + j)) (hf : j < fuel) :
    ps_save_to_flash fuel s h =
      (some { s with ps_check_buffer := s.ps_shadow_buffer },
        { h with log := (h.log ++ commit_trigger h ::
          List.replicate (j + 1) (GcoreCall.get_reg8 h.GCORE_REG_NV_CTRL)) }) := by
  have hdirty := (ps_dirty_iff s).2 hd
  have hcopy := copyBytes_eq s.ps_check_buffer s.ps_shadow_buffer PS_RAM_SIZE hs.2.1 hs.1
  have hT : gcore_set_reg8 h.GCORE_REG_NV_CTRL h.GCORE_NVRAM_WR_TRIG h =
      (true, { h with log := h.log ++ [commit_trigger h] }) := by
    simp only [gcore_set_reg8, hack, commit_trigger]
  have hp := ps_save_poll_first j fuel 1 { h with log := h.log ++ [commit_trigger h] }
    (by decide) hf
    (fun i hi => by simpa [reads_zero] using hno i hi) (by simpa [reads_zero] using hz)
  unfold ps_save_to_flash
  simp only [hdirty, if_true, hT, hcopy, hp]
  simp

/-- With the buffers differing and the trigger accepted, `ps_save_to_flash` is still polling
after any number of reads when no read delivers zero. -/
theorem ps_save_to_flash_stalls (s : PsState) (h : Hw)
    (hd : buffers_differ s) (hack : h.ack h.log.length = true)
    (hno : ∀ j : Nat, ¬ reads_zero h (h.log.length + 1 + j)) (fuel : Nat) :
    ps_save_to_flash fuel s h =
      (none,
        { h with log := (h.log ++ commit_trigger h ::
          List.replicate fuel (GcoreCall.get_reg8 h.GCORE_REG_NV_CTRL)) }) := by
  have hdirty := (ps_dirty_iff s).2 hd
  have hT : gcore_set_reg8 h.GCORE_REG_NV_CTRL h.GCORE_NVRAM_WR_TRIG h =
      (true, { h with log := h.log ++ [commit_trigger h] }) := by
    simp only [gcore_set_reg8, hack, commit_trigger]
  have hp := ps_save_poll_busy fuel 1 { h with log := h.log ++ [commit_trigger h] }
    (by decide) (fun j _ => by simpa [reads_zero] using hno j)
  unfold ps_save_to_flash
  simp only [hdirty, if_true, hT, hp]
  simp

theorem sample_dirty_state_differ : buffers_differ sample_dirty_state :=
  ⟨4, by decide, by decide⟩

/-- C26, counterexample: the buffers differ, the device accepts the commit trigger and the
control register never reads zero (it always reads 1, or every read fails).  Then
`ps_save_to_flash` never returns; after 1000 register reads, for instance, it has issued the
trigger and these 1000 reads and is still polling. -/
theorem ps_save_to_flash_never_returns :
    never_returns sample_dirty_state sample_hw_busy ∧
      never_returns sample_dirty_state sample_hw_read_fail ∧
      new_calls sample_hw_busy (ps_save_to_flash 1000 sample_dirty_state sample_hw_busy).2 =
        GcoreCall.set_reg8 13 87 :: List.replicate 1000 (GcoreCall.get_reg8 13) ∧
      new_calls sample_hw_read_fail
          (ps_save_to_flash 1000 sample_dirty_state sample_hw_read_fail).2 =
        GcoreCall.set_reg8 13 87 :: List.replicate 1000 (GcoreCall.get_reg8 13) := by
  have hb := ps_save_to_flash_stalls sample_dirty_state sample_hw_busy
    sample_dirty_state_differ rfl
    (fun j c => by
      have h1 : (1 : Nat) % 256 = 0 := c.2
      omega)
  have hf := ps_save_to_flash_stalls sample_dirty_state sample_hw_read_fail
    sample_dirty_state_differ rfl
    (fun j c => by
      have h1 : (sample_hw_read_fail.log.length + 1 + j == 0) = true := c.1
      have h2 : sample_hw_read_fail.log.length + 1 + j = 0 := by
        simp only [beq_iff_eq] at h1
        exact h1
      omega)
  refine ⟨fun fuel => ?_, fun fuel => ?_, ?_, ?_⟩
  · rw [hb fuel]
  · rw [hf fuel]
  · rw [hb 1000]
    exact new_calls_append _ _
  · rw [hf 1000]
    exact new_calls_append _ _

/-- C26, amended: the completion wait has no retry bound.  When the buffers differ and the
device accepts the commit trigger, `ps_save_to_flash` polls until a successful read of the
control register delivers zero: if read number `j` (counted from 0) is the first such read,
then with more than `j` reads granted it returns after exactly `j + 1` reads, the baseline
equal to the shadow buffer; if no read ever delivers zero, it is still polling after any
number of reads. -/
theorem ps_save_to_flash_poll (s : PsState) (h : Hw) (hs : PsReady s)
    (hd : buffers_differ s) (hack : h.ack h.log.length = true) :
    (∀ j : Nat, (∀ i, i < j → ¬ reads_zero h (h.log.length + 1 + i)) →
        reads_zero h (h.log.length + 1 + j) → ∀ fuel : Nat, j < fuel →
        ps_save_to_flash fuel s h =
          (some { s with ps_check_buffer := s.ps_shadow_buffer },
            { h with log := (h.log ++ commit_trigger h ::
              List.replicate (j + 1) (GcoreCall.get_reg8 h.GCORE_REG_NV_CTRL)) })) ∧
      ((∀ j : Nat, ¬ reads_zero h (h.log.length + 1 + j)) → ∀ fuel : Nat,
        ps_save_to_flash fuel s h =
          (none,
            { h with log := (h.log ++ commit_trigger h ::
              List.replicate fuel (GcoreCall.get_reg8 h.GCORE_REG_NV_CTRL)) })) :=
  ⟨fun j hno hz fuel hf => ps_save_to_flash_returns s h hs hd hack j fuel hno hz hf,
    fun hno fuel => ps_save_to_flash_stalls s h hd hack hno fuel⟩

/-- Witness of `ps_save_to_flash_poll`: on the sample device the first read delivers zero,
and the call returns after one read. -/
theorem ps_save_to_flash_poll_witness :
    PsReady sample_dirty_state ∧ buffers_differ sample_dirty_state ∧
      sample_hw.ack sample_hw.log.length = true ∧
      ps_save_to_flash 5 sample_dirty_state sample_hw =
        (some { sample_dirty_state with
                ps_check_buffer := sample_dirty_state.ps_shadow_buffer },
          { sample_hw with log := (sample_hw.log ++ commit_trigger sample_hw ::
            List.replicate (0 + 1) (GcoreCall.get_reg8 sample_hw.GCORE_REG_NV_CTRL)) }) :=
  have hr : PsReady sample_dirty_state := ⟨by decide, by decide, rfl⟩
  ⟨hr, sample_dirty_state_differ, rfl,
    (ps_save_to_flash_poll sample_dirty_state sample_hw hr sample_dirty_state_differ rfl).1 0
      (fun i hi => absurd hi (Nat.not_lt_zero i)) (by decide) 5 (by decide)⟩

/-! # Which operations write the full image -/

theorem new_calls_of_log (h h2 : Hw) (l : List GcoreCall) (e : h2.log = h.log ++ l) :
    new_calls h h2 = l := by
  simp [new_calls, e]

theorem is_region_write_not_full (c : GcoreCall) (hc : is_region_write c = true) :
    is_full_write c = false := by
  cases c with
  | set_nvram_bytes addr data =>
    simp only [is_region_write, List.any_eq_true, List.mem_range, Bool.and_eq_true,
      beq_iff_eq] at hc
    obtain ⟨k, hk, ha, _⟩ := hc
    have hb := region_bounds (Int.ofNat k) ⟨Int.ofNat_nonneg k, by
      have : (k : Int) < 3 := by exact_mod_cast hk
      exact this⟩
    simp only [is_full_write, PS_RAM_STARTADDR, Bool.and_eq_false_iff, beq_eq_false_iff_ne]
    left
    omega
  | _ => rfl

/-- The calls `_ps_write_array_region` adds on a ready state: the write of the region and,
if that is accepted, the write of the checksum byte. -/
theorem _ps_write_array_region_calls (k : Nat) (hk : k < 3) (s : PsState) (h : Hw)
    (hs : PsReady s) :
    ∃ l, (_ps_write_array_region k s h).2.log = h.log ++ l ∧
      ∀ c ∈ l, is_region_write c = true := by
  obtain ⟨hlen, _, htab⟩ := hs
  have hkI : (0 : Int) ≤ Int.ofNat k ∧ Int.ofNat k < 3 := ⟨Int.ofNat_nonneg k, by
    have : (k : Int) < 3 := by exact_mod_cast hk
    exact this⟩
  have hb := region_bounds (Int.ofNat k) hkI
  have hst : s.ps_sub_regions.start_index.getD k 0 = region_start (Int.ofNat k) := by
    rw [htab]; rfl
  have hln : s.ps_sub_regions.length.getD k 0 = region_length (Int.ofNat k) := by
    rw [htab]; rfl
  have hsl : (slice s.ps_shadow_buffer (region_start (Int.ofNat k))
      (region_length (Int.ofNat k))).length = region_length (Int.ofNat k) :=
    length_slice _ _ _ (by rw [hlen]; simp only [PS_RAM_SIZE]; omega)
  have h1 : is_region_write (GcoreCall.set_nvram_bytes (region_start (Int.ofNat k))
      (slice s.ps_shadow_buffer (region_start (Int.ofNat k))
        (region_length (Int.ofNat k)))) = true := by
    simp only [is_region_write, List.any_eq_true, List.mem_range, Bool.and_eq_true, beq_iff_eq]
    exact ⟨k, hk, rfl, hsl⟩
  have h2 : ∀ x, is_region_write (GcoreCall.set_nvram_byte 319 x) = true := fun _ => rfl
  simp only [_ps_write_array_region, _ps_write_bytes_to_gcore, gcore_set_nvram_bytes,
    gcore_set_nvram_byte, PS_RAM_STARTADDR, PS_CHECKSUM_ADDR, PS_RAM_SIZE, Nat.zero_add, hst, hln]
  cases h.ack h.log.length
  · refine ⟨[_], rfl, ?_⟩
    intro c hc
    rw [List.mem_singleton] at hc
    rw [hc]; exact h1
  · refine ⟨[GcoreCall.set_nvram_bytes (region_start (Int.ofNat k))
        (slice s.ps_shadow_buffer (region_start (Int.ofNat k)) (region_length (Int.ofNat k))),
      GcoreCall.set_nvram_byte 319 (s.ps_shadow_buffer.getD 319 0)], by simp, ?_⟩
    intro c hc
    simp only [List.mem_cons, List.mem_singleton, List.not_mem_nil, or_false] at hc
    rcases hc with rfl | rfl
    · exact h1
    · exact h2 _

/-- The calls `ps_set_config` adds on a ready state are region or checksum writes. -/
theorem ps_set_config_calls (k : Int) (v : List Nat) (s : PsState) (h : Hw) (hs : PsReady s) :
    ∃ l, (ps_set_config k v s h).2.2.log = h.log ++ l ∧
      ∀ c ∈ l, is_region_write c = true := by
  by_cases hk : 0 ≤ k ∧ k < 3
  · have hk2 : k ≥ 0 ∧ k < (PS_NUM_CONFIGS : Int) := (valid_index_iff k).2 hk
    have hr := ps_set_config_ready k v s h hs
    have e : (ps_set_config k v s h).2.2 =
        (_ps_write_array_region k.toNat (ps_set_config k v s h).2.1 h).2 := by
      simp only [ps_set_config, hk2, and_self, if_true, _ps_write_array_of_index k _ h hk]
    rw [e]
    exact _ps_write_array_region_calls k.toNat (by omega) _ h hr
  · have hk2 : ¬ (k ≥ 0 ∧ k < (PS_NUM_CONFIGS : Int)) := fun c => hk ((valid_index_iff k).1 c)
    refine ⟨[], ?_, fun c hc => absurd hc (List.not_mem_nil c)⟩
    simp only [ps_set_config, hk2, if_false, List.append_nil]

/-- The calls `ps_reinit_config` adds on a ready state are region or checksum writes, and
the state stays ready. -/
theorem ps_reinit_config_calls (k : Int) (s : PsState) (h : Hw) (hs : PsReady s) :
    PsReady (ps_reinit_config k s h).2.1 ∧
    ∃ l, (ps_reinit_config k s h).2.2.log = h.log ++ l ∧
      ∀ c ∈ l, is_region_write c = true := by
  by_cases hk : 0 ≤ k ∧ k < 3
  · have hk2 : k ≥ 0 ∧ k < (PS_NUM_CONFIGS : Int) := (valid_index_iff k).2 hk
    have hkn : Int.ofNat k.toNat = k := Int.toNat_of_nonneg hk.1
    have hr := (ps_reinit_config_effect k.toNat s h (by omega) hs).1
    rw [hkn] at hr
    have e : (ps_reinit_config k s h).2.2 =
        (_ps_write_array_region k.toNat (ps_reinit_config k s h).2.1 h).2 := by
      simp only [ps_reinit_config, hk2, and_self, if_true, _ps_write_array_of_index k _ h hk]
    refine ⟨hr, ?_⟩
    rw [e]
    exact _ps_write_array_region_calls k.toNat (by omega) _ h hr
  · have hk2 : ¬ (k ≥ 0 ∧ k < (PS_NUM_CONFIGS : Int)) := fun c => hk ((valid_index_iff k).1 c)
    have e : ps_reinit_config k s h = (false, s, h) := by
      simp only [ps_reinit_config, hk2, if_false]
    rw [e]
    exact ⟨hs, [], (List.append_nil _).symm, fun c hc => absurd hc (List.not_mem_nil c)⟩

/-- The calls `ps_reinit_all` adds on a ready state are region or checksum writes. -/
theorem ps_reinit_all_calls (s : PsState) (h : Hw) (hs : PsReady s) :
    ∃ l, (ps_reinit_all s h).2.2.log = h.log ++ l ∧ ∀ c ∈ l, is_region_write c = true := by
  obtain ⟨r1, l1, e1, a1⟩ := ps_reinit_config_calls (PS_CONFIG_TYPE_GUI : Nat) s h hs
  obtain ⟨r2, l2, e2, a2⟩ := ps_reinit_config_calls (PS_CONFIG_TYPE_NET : Nat) _
    (ps_reinit_config (PS_CONFIG_TYPE_GUI : Nat) s h).2.2 r1
  obtain ⟨_, l3, e3, a3⟩ := ps_reinit_config_calls (PS_CONFIG_TYPE_TZ : Nat) _
    (ps_reinit_config (PS_CONFIG_TYPE_NET : Nat) (ps_reinit_config (PS_CONFIG_TYPE_GUI : Nat) s h).2.1
      (ps_reinit_config (PS_CONFIG_TYPE_GUI : Nat) s h).2.2).2.2 r2
  refine ⟨l1 ++ l2 ++ l3, ?_, ?_⟩
  · simp only [ps_reinit_all]
    rw [e3, e2, e1]
    simp only [List.append_assoc]
  · intro c hc
    simp only [List.mem_append] at hc
    rcases hc with (hc | hc) | hc
    · exact a1 c hc
    · exact a2 c hc
    · exact a3 c hc

/-- The calls `ps_save_to_flash` adds on a ready state are register calls. -/
theorem ps_save_to_flash_calls (fuel : Nat) (s : PsState) (h : Hw) (hs : PsReady s) :
    ∃ l, (ps_save_to_flash fuel s h).2.log = h.log ++ l ∧
      ∀ c ∈ l, is_nvram_write c = false := by
  by_cases hd : buffers_differ s
  · obtain ⟨n, _, e, _⟩ := ps_save_to_flash_dirty fuel s h hs hd
    refine ⟨_, by rw [e], ?_⟩
    intro c hc
    simp only [List.mem_cons, List.mem_replicate] at hc
    rcases hc with rfl | ⟨_, rfl⟩ <;> rfl
  · rw [ps_save_to_flash_clean fuel s h hd]
    exact ⟨[], (List.append_nil _).symm, fun c hc => absurd hc (List.not_mem_nil c)⟩

/-- The calls `ps_init` adds: the NVRAM read and, exactly when the stored image is invalid,
one write of the whole default image. -/
theorem ps_init_calls (s : PsState) (h : Hw) :
    (ps_init s h).2.2.log =
      h.log ++ GcoreCall.get_nvram_bytes 0 320 ::
        (if stored_image_invalid h then [GcoreCall.set_nvram_bytes 0 (default_image h)]
         else []) := by
  by_cases hi : stored_image_invalid h
  · rw [ps_init_of_invalid s h hi, if_pos hi]
  · rw [ps_init_eq, if_neg (fun c => hi ((ps_init_invalid_iff s h).1 c)), if_neg hi]
    rfl

/-- The calls `ps_set_factory_default` adds on a ready state: one write of the whole default
image, then register calls. -/
theorem ps_set_factory_default_calls (fuel : Nat) (s : PsState) (h : Hw) (hs : PsReady s) :
    ∃ l, (ps_set_factory_default fuel s h).2.log =
        h.log ++ GcoreCall.set_nvram_bytes 0 (default_image h) :: l ∧
      ∀ c ∈ l, is_nvram_write c = false := by
  obtain ⟨sh, ck, tab⟩ := s
  obtain ⟨_, hck, htab⟩ := hs
  simp only at hck htab
  subst htab
  simp only [ps_set_factory_default, _ps_init_array_mk, _ps_write_array_full_default]
  obtain ⟨l, e, a⟩ := ps_save_to_flash_calls fuel
    { ps_shadow_buffer := default_image h, ps_check_buffer := ck,
      ps_sub_regions := ps_init_sub_regions }
    { h with log := h.log ++ [GcoreCall.set_nvram_bytes 0 (default_image h)] }
    ⟨length_default_image h, hck, rfl⟩
  refine ⟨l, ?_, a⟩
  rw [e]
  simp

theorem is_full_write_default (h : Hw) :
    is_full_write (GcoreCall.set_nvram_bytes 0 (default_image h)) = true := by
  simp only [is_full_write, length_default_image, PS_RAM_STARTADDR, PS_RAM_SIZE, beq_self_eq_true,
    Bool.and_self]

theorem sample_hw_valid_image : ¬ stored_image_invalid sample_hw_valid := by decide

/-- C27, counterexample: on the sample device with a valid image stored, `ps_init` makes no
write, and `ps_set_factory_default` called afterwards issues a write of the full 320-byte
image at address 0. -/
theorem ps_set_factory_default_full_write :
    new_calls sample_hw_valid (ps_init boot_state sample_hw_valid).2.2 =
        [GcoreCall.get_nvram_bytes 0 320] ∧
      (new_calls (ps_init boot_state sample_hw_valid).2.2
        (ps_set_factory_default 3 (ps_init boot_state sample_hw_valid).2.1
          (ps_init boot_state sample_hw_valid).2.2).2).any is_full_write = true := by
  constructor
  · have e := ps_init_calls boot_state sample_hw_valid
    rw [if_neg sample_hw_valid_image] at e
    exact new_calls_of_log _ _ _ e
  · obtain ⟨l, e, _⟩ := ps_set_factory_default_calls 3 (ps_init boot_state sample_hw_valid).2.1
      (ps_init boot_state sample_hw_valid).2.2
      (ps_init_ready boot_state sample_hw_valid (List.length_replicate _ _))
    rw [new_calls_of_log _ _ _ e, List.any_cons, is_full_write_default, Bool.true_or]

/-- C27, amended: a write of the full 320-byte image is issued by `ps_init` exactly when the
stored image fails the magic or checksum validation, and by `ps_set_factory_default` on every
call (as its first driver call).  On a ready state every driver call of `ps_set_config`,
`ps_reinit_config` and `ps_reinit_all` is a write of one config region or of the single
checksum byte, never of the full image, and `ps_save_to_flash` issues no NVRAM write. -/
theorem ps_full_write_sources (s : PsState) (h : Hw) (fuel : Nat) (hs : PsReady s) :
    (∀ s0 : PsState,
      (∃ c, c ∈ new_calls h (ps_init s0 h).2.2 ∧ is_full_write c = true) ↔
        stored_image_invalid h) ∧
    (∃ l, new_calls h (ps_set_factory_default fuel s h).2 =
        GcoreCall.set_nvram_bytes 0 (default_image h) :: l ∧
      is_full_write (GcoreCall.set_nvram_bytes 0 (default_image h)) = true ∧
      ∀ c ∈ l, is_nvram_write c = false) ∧
    (∀ (k : Int) (v : List Nat), ∀ c ∈ new_calls h (ps_set_config k v s h).2.2,
      is_region_write c = true ∧ is_full_write c = false) ∧
    (∀ k : Int, ∀ c ∈ new_calls h (ps_reinit_config k s h).2.2,
      is_region_write c = true ∧ is_full_write c = false) ∧
    (∀ c ∈ new_calls h (ps_reinit_all s h).2.2,
      is_region_write c = true ∧ is_full_write c = false) ∧
    (∀ c ∈ new_calls h (ps_save_to_flash fuel s h).2, is_nvram_write c = false) := by
  refine ⟨fun s0 => ?_, ?_, fun k v => ?_, fun k => ?_, ?_, ?_⟩
  · rw [new_calls_of_log _ _ _ (ps_init_calls s0 h)]
    by_cases hi : stored_image_invalid h
    · rw [if_pos hi]
      exact ⟨fun _ => hi, fun _ => ⟨_, List.mem_cons_of_mem _ (List.mem_singleton_self _),
        is_full_write_default h⟩⟩
    · rw [if_neg hi]
      constructor
      · rintro ⟨c, hc, hf⟩
        rw [List.mem_singleton] at hc
        rw [hc] at hf
        exact absurd hf (by decide)
      · intro c; exact absurd c hi
  · obtain ⟨l, e, a⟩ := ps_set_factory_default_calls fuel s h hs
    exact ⟨l, new_calls_of_log _ _ _ e, is_full_write_default h, a⟩
  · obtain ⟨l, e, a⟩ := ps_set_config_calls k v s h hs
    rw [new_calls_of_log _ _ _ e]
    exact fun c hc => ⟨a c hc, is_region_write_not_full c (a c hc)⟩
  · obtain ⟨_, l, e, a⟩ := ps_reinit_config_calls k s h hs
    rw [new_calls_of_log _ _ _ e]
    exact fun c hc => ⟨a c hc, is_region_write_not_full c (a c hc)⟩
  · obtain ⟨l, e, a⟩ := ps_reinit_all_calls s h hs
    rw [new_calls_of_log _ _ _ e]
    exact fun c hc => ⟨a c hc, is_region_write_not_full c (a c hc)⟩
  · obtain ⟨l, e, a⟩ := ps_save_to_flash_calls fuel s h hs
    rw [new_calls_of_log _ _ _ e]
    exact a

/-- Witness of `ps_full_write_sources`: the sample state on the sample device, whose NVRAM
holds no valid image. -/
theorem ps_full_write_sources_witness :
    PsReady sample_state ∧
      ((∃ c, c ∈ new_calls sample_hw (ps_init boot_state sample_hw).2.2 ∧
          is_full_write c = true) ↔ stored_image_invalid sample_hw) ∧
      (∃ l, new_calls sample_hw (ps_set_factory_default 3 sample_state sample_hw).2 =
          GcoreCall.set_nvram_bytes 0 (default_image sample_hw) :: l ∧
        is_full_write (GcoreCall.set_nvram_bytes 0 (default_image sample_hw)) = true ∧
        ∀ c ∈ l, is_nvram_write c = false) ∧
      (∀ c ∈ new_calls sample_hw (ps_set_config 0 [1, 50] sample_state sample_hw).2.2,
        is_region_write c = true ∧ is_full_write c = false) :=
  ⟨sample_state_ready,
    (ps_full_write_sources sample_state sample_hw 3 sample_state_ready).1 boot_state,
    (ps_full_write_sources sample_state sample_hw 3 sample_state_ready).2.1,
    (ps_full_write_sources sample_state sample_hw 3 sample_state_ready).2.2.1 0 [1, 50]⟩

/-! # Frame of `ps_set_config` -/

theorem length_slice_le (buf : List Nat) (off n : Nat) : (slice buf off n).length ≤ n := by
  unfold slice
  rw [List.length_take]
  exact Nat.min_le_left _ _

/-- Bytes of the shadow buffer outside region `k` and other than the checksum byte are left
alone by `ps_set_config(k, v)`. -/
theorem ps_set_config_other_bytes (k : Int) (v : List Nat) (s : PsState) (h : Hw)
    (hk : 0 ≤ k ∧ k < 3) (hs : PsReady s) (j : Nat)
    (hj : ¬ (region_start k ≤ j ∧ j < region_start k + region_length k))
    (hc : j ≠ PS_CHECKSUM_ADDR) :
    (ps_set_config k v s h).2.1.ps_shadow_buffer[j]? = s.ps_shadow_buffer[j]? := by
  obtain ⟨_, _, htab⟩ := hs
  rw [ps_set_config_shadow k v s h hk, htab]
  change ((storeBytes _ (region_start k) (slice v 0 (region_length k))).set
    PS_CHECKSUM_ADDR _)[j]? = _
  rw [List.getElem?_set_ne (fun c => hc c.symm), getElem?_storeBytes]
  have := length_slice_le v 0 (region_length k)
  rw [if_neg (by omega)]

theorem region_values :
    region_start 0 = 3 ∧ region_length 0 = 2 ∧ region_start 1 = 5 ∧ region_length 1 = 209 ∧
      region_start 2 = 214 ∧ region_length 2 = 81 := by decide

/-- C28: on a ready state, `ps_set_config(k, v)` with a valid index changes only bytes of
region `k` and the checksum byte of the shadow buffer: every other byte (the magic bytes, the
layout-version byte, the regions of the other two configs, the unused bytes after the last
region) is unchanged, `ps_get_config` of any other index returns what it returned before,
and the check (baseline) buffer and the sub-region table are untouched. -/
theorem ps_set_config_frame (k : Int) (v : List Nat) (s : PsState) (h : Hw)
    (hk : 0 ≤ k ∧ k < 3) (hs : PsReady s) :
    (∀ j : Nat, ¬ (region_start k ≤ j ∧ j < region_start k + region_length k) →
      j ≠ PS_CHECKSUM_ADDR →
      (ps_set_config k v s h).2.1.ps_shadow_buffer[j]? = s.ps_shadow_buffer[j]?) ∧
    slice (ps_set_config k v s h).2.1.ps_shadow_buffer 0 3 = slice s.ps_shadow_buffer 0 3 ∧
    slice (ps_set_config k v s h).2.1.ps_shadow_buffer 295 24 =
      slice s.ps_shadow_buffer 295 24 ∧
    (∀ (k2 : Int) (buf : List Nat), k2 ≠ k →
      ps_get_config k2 buf (ps_set_config k v s h).2.1 = ps_get_config k2 buf s) ∧
    (ps_set_config k v s h).2.1.ps_check_buffer = s.ps_check_buffer ∧
    (ps_set_config k v s h).2.1.ps_sub_regions = s.ps_sub_regions := by
  have hk2 : k ≥ 0 ∧ k < (PS_NUM_CONFIGS : Int) := (valid_index_iff k).2 hk
  have hb := region_bounds k hk
  have hother := ps_set_config_other_bytes k v s h hk hs
  have hc319 : PS_CHECKSUM_ADDR = 319 := rfl
  have hsl : ∀ off n : Nat,
      (∀ i, i < n → ¬ (region_start k ≤ off + i ∧ off + i < region_start k + region_length k)
        ∧ off + i ≠ PS_CHECKSUM_ADDR) →
      slice (ps_set_config k v s h).2.1.ps_shadow_buffer off n = slice s.ps_shadow_buffer off n := by
    intro off n hall
    apply List.ext_getElem?
    intro i
    rw [getElem?_slice, getElem?_slice]
    split
    · rename_i hi
      exact hother (off + i) (hall i hi).1 (hall i hi).2
    · rfl
  have htab : (ps_set_config k v s h).2.1.ps_sub_regions = s.ps_sub_regions := by
    simp only [ps_set_config, hk2, and_self, if_true]
  refine ⟨hother, ?_, ?_, ?_, ?_, htab⟩
  · exact hsl 0 3 (fun i hi => ⟨by omega, by omega⟩)
  · exact hsl 295 24 (fun i hi => ⟨by omega, by omega⟩)
  · intro k2 buf hne
    by_cases hv : 0 ≤ k2 ∧ k2 < 3
    · have hr2 := ps_set_config_ready k v s h hs
      rw [ps_get_config_ready k2 buf _ hv hr2, ps_get_config_ready k2 buf s hv hs]
      obtain ⟨r0, l0, r1, l1, r2, l2⟩ := region_values
      have hb2 := region_bounds k2 hv
      have e : slice (ps_set_config k v s h).2.1.ps_shadow_buffer (region_start k2)
          (region_length k2) = slice s.ps_shadow_buffer (region_start k2) (region_length k2) := by
        apply hsl
        intro i hi
        have hkc : k = 0 ∨ k = 1 ∨ k = 2 := by omega
        have hkc2 : k2 = 0 ∨ k2 = 1 ∨ k2 = 2 := by omega
        rcases hkc with rfl | rfl | rfl <;> rcases hkc2 with rfl | rfl | rfl <;>
          first
          | exact absurd rfl hne
          | (simp only [r0, l0, r1, l1, r2, l2, hc319] at hi ⊢; omega)
      rw [e]
    · have hv2 : ¬ (k2 ≥ 0 ∧ k2 < (PS_NUM_CONFIGS : Int)) :=
        fun c => hv ((valid_index_iff k2).1 c)
      simp only [ps_get_config, hv2, if_false]
  · simp only [ps_set_config, hk2, and_self, if_true]

/-- Witness of `ps_set_config_frame`: the display config `[1, 50]` stored on the sample
state. -/
theorem ps_set_config_frame_witness :
    ((0 : Int) ≤ 0 ∧ (0 : Int) < 3) ∧ PsReady sample_state ∧
      (∀ (k2 : Int) (buf : List Nat), k2 ≠ 0 →
        ps_get_config k2 buf (ps_set_config 0 [1, 50] sample_state sample_hw).2.1 =
          ps_get_config k2 buf sample_state) ∧
      (ps_set_config 0 [1, 50] sample_state sample_hw).2.1.ps_check_buffer =
        sample_state.ps_check_buffer :=
  ⟨by decide, sample_state_ready,
    (ps_set_config_frame 0 [1, 50] sample_state sample_hw (by decide) sample_state_ready).2.2.2.1,
    (ps_set_config_frame 0 [1, 50] sample_state sample_hw (by decide)
      sample_state_ready).2.2.2.2.1⟩

/-! # The baseline after `ps_init` -/

theorem default_image_magic (h : Hw) :
    (default_image h).getD 0 0 = 0x12 ∧ (default_image h).getD 1 0 = 0x34 := ⟨rfl, rfl⟩

theorem default_image_valid (h : Hw) (hw : Hw) (e : stored_image hw = default_image h) :
    ¬ stored_image_invalid hw := by
  unfold stored_image_invalid
  rw [e]
  have hm := default_image_magic h
  have hc := default_image_checksum h
  intro c
  rcases c with c | c
  · exact c hm
  · exact c hc

/-- Two lists of `n` bytes that agree at every index below `n` are equal. -/
theorem eq_of_getD_eq (a b : List Nat) (n : Nat) (ha : a.length = n) (hb : b.length = n)
    (hall : ∀ i, i < n → a.getD i 0 = b.getD i 0) : a = b := by
  apply List.ext_getElem?
  intro i
  by_cases hi : i < n
  · have h1 : i < a.length := by omega
    have h2 : i < b.length := by omega
    have := hall i hi
    simp only [List.getD_eq_getElem?_getD, List.getElem?_eq_getElem h1,
      List.getElem?_eq_getElem h2, Option.getD_some] at this
    rw [List.getElem?_eq_getElem h1, List.getElem?_eq_getElem h2, this]
  · rw [List.getElem?_eq_none (by omega), List.getElem?_eq_none (by omega)]

/-- State and hardware after `ps_init` on a valid stored image. -/
theorem ps_init_of_valid (s : PsState) (h : Hw) (hv : ¬ stored_image_invalid h) :
    ps_init s h = (true, ps_init_loaded s h, ps_init_read_hw h) := by
  rw [ps_init_eq, if_neg (fun c => hv ((ps_init_invalid_iff s h).1 c))]

/-- C30: after `ps_init` the check (baseline) buffer holds the bytes read from the backing
store.  When the stored image is valid, the shadow buffer holds the same bytes and the first
`ps_save_to_flash` makes no driver call.  When the stored image is invalid, the shadow
buffer holds the default image, the two buffers differ, and the first `ps_save_to_flash`
issues the commit trigger although no set has been called. -/
theorem ps_init_baseline (s : PsState) (h : Hw) (fuel : Nat)
    (hck : s.ps_check_buffer.length = PS_RAM_SIZE) :
    (ps_init s h).2.1.ps_check_buffer = stored_image h ∧
    (¬ stored_image_invalid h →
      (ps_init s h).2.1.ps_shadow_buffer = stored_image h ∧
      ¬ buffers_differ (ps_init s h).2.1 ∧
      ps_save_to_flash fuel (ps_init s h).2.1 (ps_init s h).2.2 =
        (some (ps_init s h).2.1, (ps_init s h).2.2)) ∧
    (stored_image_invalid h →
      (ps_init s h).2.1.ps_shadow_buffer = default_image h ∧
      buffers_differ (ps_init s h).2.1 ∧
      commit_trigger h ∈ new_calls (ps_init s h).2.2
        (ps_save_to_flash fuel (ps_init s h).2.1 (ps_init s h).2.2).2) := by
  have hcopy : copyBytes s.ps_check_buffer (stored_image h) PS_RAM_SIZE = stored_image h :=
    copyBytes_eq _ _ _ hck (length_stored_image h)
  have hready := ps_init_ready s h hck
  refine ⟨?_, fun hv => ?_, fun hi => ?_⟩
  · by_cases hi : stored_image_invalid h
    · rewrite [ps_init_of_invalid s h hi]
      dsimp only
      exact hcopy
    · rewrite [ps_init_of_valid s h hi]
      dsimp only [ps_init_loaded]
      exact hcopy
  · have hnd : ¬ buffers_differ (ps_init s h).2.1 := by
      rewrite [ps_init_of_valid s h hv]
      rintro ⟨i, _, hne⟩
      apply hne
      dsimp only [ps_init_loaded]
      rewrite [hcopy]
      rfl
    refine ⟨?_, hnd, ps_save_to_flash_clean fuel _ _ hnd⟩
    rewrite [ps_init_of_valid s h hv]
    dsimp only [ps_init_loaded]
  · have hd : buffers_differ (ps_init s h).2.1 := by
      by_contra hnd
      have hall : ∀ i, i < 320 → (stored_image h).getD i 0 = (default_image h).getD i 0 := by
        intro i hlt
        by_contra hne
        apply hnd
        rewrite [ps_init_of_invalid s h hi]
        refine ⟨i, hlt, ?_⟩
        dsimp only
        rewrite [hcopy]
        exact hne
      have e := eq_of_getD_eq _ _ 320 (length_stored_image h) (length_default_image h) hall
      exact default_image_valid h h e hi
    refine ⟨?_, hd, ?_⟩
    · rewrite [ps_init_of_invalid s h hi]
      dsimp only
    · obtain ⟨n, _, e, _⟩ := ps_save_to_flash_dirty fuel (ps_init s h).2.1 (ps_init s h).2.2
        hready hd
      rw [e, new_calls_append]
      have hc : commit_trigger (ps_init s h).2.2 = commit_trigger h := by
        rewrite [ps_init_of_invalid s h hi]
        rfl
      rw [hc]
      exact List.mem_cons_self _ _

/-- Witness of `ps_init_baseline`: boot on the sample device, whose NVRAM holds no valid
image. -/
theorem ps_init_baseline_witness :
    boot_state.ps_check_buffer.length = PS_RAM_SIZE ∧ stored_image_invalid sample_hw ∧
      (ps_init boot_state sample_hw).2.1.ps_check_buffer = stored_image sample_hw ∧
      ((ps_init boot_state sample_hw).2.1.ps_shadow_buffer = default_image sample_hw ∧
        buffers_differ (ps_init boot_state sample_hw).2.1 ∧
        commit_trigger sample_hw ∈ new_calls (ps_init boot_state sample_hw).2.2
          (ps_save_to_flash 3 (ps_init boot_state sample_hw).2.1
            (ps_init boot_state sample_hw).2.2).2) :=
  ⟨List.length_replicate _ _, sample_hw_invalid,
    (ps_init_baseline boot_state sample_hw 3 (List.length_replicate _ _)).1,
    (ps_init_baseline boot_state sample_hw 3 (List.length_replicate _ _)).2.2 sample_hw_invalid⟩

/-! # Set Backlight with any 32-bit value, and the change test of Set Wifi -/

theorem length_stored_gui_config (s : PsState) (hr : PsReady s) :
    (stored_gui_config s).length = 2 := by
  unfold stored_gui_config
  rw [length_slice]
  · rfl
  · rw [hr.1]; decide

/-- C29: on a ready state, a well-formed Set Backlight frame (Int32, 4 bytes) carrying the
value `v` (any natural number; the four payload bytes hold it modulo 2^32) leaves
`v mod 256` in the stored brightness and the stored 12/24-hour mode
as it was, and the next `cmd_handler_get_backlight` sends an Int32 response of value
`v mod 256` (256 reads back as 0). -/
theorem cmd_backlight_truncates (st : CmdState) (v : Nat) (data_type : cmd_data_t) (len : Nat)
    (data : List Nat) (hr : PsReady st.ps) :
    (stored_gui_config (cmd_handler_set_backlight .CMD_DATA_INT32 4
        (htonl_bytes v) st).ps).getD OFS_lcd_brightness 0 = v % 256 ∧
      (stored_gui_config (cmd_handler_set_backlight .CMD_DATA_INT32 4
        (htonl_bytes v) st).ps).getD OFS_hour_mode_24 0 =
        (stored_gui_config st.ps).getD OFS_hour_mode_24 0 ∧
      (cmd_handler_get_backlight data_type len data
          (cmd_handler_set_backlight .CMD_DATA_INT32 4 (htonl_bytes v) st)).sent =
        st.sent ++ [SendCall.cmd_send_int32 .CMD_RSP .CMD_BACKLIGHT (v % 256 : Nat)] := by
  have hk : (0 : Int) ≤ 0 ∧ (0 : Int) < 3 := by decide
  have hsl := length_stored_gui_config st.ps hr
  have hg : ps_get_config 0 gui_config_local st.ps = (true, stored_gui_config st.ps) := by
    rw [ps_get_config_ready 0 gui_config_local st.ps hk hr]
    exact congrArg (Prod.mk true) (storeBytes_zero_of_length_eq _ _
      (by rw [show (slice st.ps.ps_shadow_buffer (region_start 0) (region_length 0)).length = 2
        from hsl]; rfl))
  have hnt : ntohl_at (htonl_bytes v) 0 % 256 = v % 256 := by
    have := ntohl_at_htonl_bytes v []
    rw [List.append_nil] at this
    rw [this]
    omega
  have hlen : ((stored_gui_config st.ps).set OFS_lcd_brightness (v % 256)).length =
      region_length 0 := by
    rw [List.length_set, hsl]; rfl
  have hreg := ps_set_config_region 0 _ st.ps st.hw hk hr hlen
  have hr2 := ps_set_config_ready 0 ((stored_gui_config st.ps).set OFS_lcd_brightness (v % 256))
    st.ps st.hw hr
  have hg2 := ps_get_config_ready 0 gui_config_local _ hk hr2
  rw [hreg, storeBytes_zero_of_length_eq _ _ (by rw [hlen]; rfl)] at hg2
  have hset : (cmd_handler_set_backlight .CMD_DATA_INT32 4 (htonl_bytes v) st).ps =
      (ps_set_config 0 ((stored_gui_config st.ps).set OFS_lcd_brightness (v % 256))
        st.ps st.hw).2.1 := by
    simp only [cmd_handler_set_backlight, and_self, if_true, notify_ctrl, PS_CONFIG_TYPE_GUI,
      Nat.cast_zero, hg, hnt]
  have hb : ((stored_gui_config st.ps).set OFS_lcd_brightness (v % 256)).getD
      OFS_lcd_brightness 0 = v % 256 :=
    getD_set_self _ _ _ (by rw [hsl]; decide)
  have hm : ((stored_gui_config st.ps).set OFS_lcd_brightness (v % 256)).getD
      OFS_hour_mode_24 0 = (stored_gui_config st.ps).getD OFS_hour_mode_24 0 := by
    rw [List.getD_eq_getElem?_getD, List.getD_eq_getElem?_getD,
      List.getElem?_set_ne (by decide)]
  have hst : stored_gui_config (cmd_handler_set_backlight .CMD_DATA_INT32 4
      (htonl_bytes v) st).ps = (stored_gui_config st.ps).set OFS_lcd_brightness (v % 256) := by
    rw [hset]
    exact hreg
  refine ⟨by rw [hst, hb], by rw [hst, hm], ?_⟩
  have hsent : (cmd_handler_set_backlight .CMD_DATA_INT32 4 (htonl_bytes v) st).sent =
      st.sent := by
    simp only [cmd_handler_set_backlight, and_self, if_true, notify_ctrl]
  simp only [cmd_handler_get_backlight, PS_CONFIG_TYPE_GUI, Nat.cast_zero, hset, hg2, hb, hsent]

/-- Witness of `cmd_backlight_truncates`: the value 256 reads back as 0. -/
theorem cmd_backlight_truncates_witness :
    PsReady sample_cmd_state.ps ∧
      (cmd_handler_get_backlight .CMD_DATA_NONE 0 []
          (cmd_handler_set_backlight .CMD_DATA_INT32 4 (htonl_bytes 256) sample_cmd_state)).sent =
        sample_cmd_state.sent ++
          [SendCall.cmd_send_int32 .CMD_RSP .CMD_BACKLIGHT (256 % 256 : Nat)] :=
  ⟨sample_state_ready,
    (cmd_backlight_truncates sample_cmd_state 256 .CMD_DATA_NONE 0 []
      sample_state_ready).2.2⟩

theorem c_string_take (l : List Nat) : ∀ n : Nat, 0 ∈ l.take n →
    c_string l = c_string (l.take n) := by
  induction l with
  | nil => intro n _; simp
  | cons a l ih =>
    intro n hmem
    cases n with
    | zero => simp at hmem
    | succ n =>
      rw [List.take_succ_cons] at hmem ⊢
      by_cases ha : a = 0
      · subst ha
        simp [c_string]
      · have hm : 0 ∈ l.take n := by
          rcases List.mem_cons.1 hmem with h0 | h0
          · exact absurd h0.symm ha
          · exact h0
        have := ih n hm
        unfold c_string at this ⊢
        have hp : (a != 0) = true := by simpa using ha
        rw [List.takeWhile_cons, List.takeWhile_cons, hp]
        simp only [if_true]
        rw [this]

/-- A terminated member read with `strcmp` from its first byte is the member's string. -/
theorem c_string_drop (c : List Nat) (ofs n : Nat) (ht : field_terminated c ofs n = true) :
    c_string (c.drop ofs) = net_string c ofs n := by
  unfold field_terminated at ht
  have hm : 0 ∈ slice c ofs n := by simpa using ht
  exact c_string_take (c.drop ofs) n hm

theorem getD_slice (c : List Nat) (ofs n i : Nat) (hi : i < n) :
    (slice c ofs n).getD i 0 = c.getD (ofs + i) 0 := by
  rw [List.getD_eq_getElem?_getD, List.getD_eq_getElem?_getD, getElem?_slice, if_pos hi]

theorem slice_eq_iff (a b : List Nat) (ofs : Nat) (ha : ofs + 4 ≤ a.length)
    (hb : ofs + 4 ≤ b.length) :
    slice a ofs 4 = slice b ofs 4 ↔ ∀ i, i < 4 → a.getD (ofs + i) 0 = b.getD (ofs + i) 0 := by
  constructor
  · intro e i hi
    rw [← getD_slice a ofs 4 i hi, ← getD_slice b ofs 4 i hi, e]
  · intro hall
    apply eq_of_getD_eq _ _ 4 (length_slice _ _ _ ha) (length_slice _ _ _ hb)
    intro i hi
    rw [getD_slice a ofs 4 i hi, getD_slice b ofs 4 i hi]
    exact hall i hi

/-- On configs of 209 bytes with terminated text members, `net_config_structs_eq` decides
the equality of flags, strings and addresses. -/
theorem net_config_structs_eq_iff (a b : List Nat) (ha : a.length = 209) (hb : b.length = 209)
    (ta : net_strings_terminated a = true) (tb : net_strings_terminated b = true) :
    net_config_structs_eq a b = true ↔ same_net_config a b := by
  simp only [net_strings_terminated, Bool.and_eq_true] at ta tb
  obtain ⟨⟨⟨ta0, ta1⟩, ta2⟩, ta3⟩ := ta
  obtain ⟨⟨⟨tb0, tb1⟩, tb2⟩, tb3⟩ := tb
  have ea0 := c_string_drop a _ _ ta0
  have ea1 := c_string_drop a _ _ ta1
  have ea2 := c_string_drop a _ _ ta2
  have ea3 := c_string_drop a _ _ ta3
  have eb0 := c_string_drop b _ _ tb0
  have eb1 := c_string_drop b _ _ tb1
  have eb2 := c_string_drop b _ _ tb2
  have eb3 := c_string_drop b _ _ tb3
  have hall : ((List.range 4).all fun i =>
      a.getD (OFS_ap_ip_addr + i) 0 == b.getD (OFS_ap_ip_addr + i) 0 &&
      a.getD (OFS_sta_ip_addr + i) 0 == b.getD (OFS_sta_ip_addr + i) 0 &&
      a.getD (OFS_sta_netmask + i) 0 == b.getD (OFS_sta_netmask + i) 0) = true ↔
      (slice a OFS_ap_ip_addr 4 = slice b OFS_ap_ip_addr 4 ∧
        slice a OFS_sta_ip_addr 4 = slice b OFS_sta_ip_addr 4 ∧
        slice a OFS_sta_netmask 4 = slice b OFS_sta_netmask 4) := by
    have o1 : OFS_ap_ip_addr = 197 := rfl
    have o2 : OFS_sta_ip_addr = 201 := rfl
    have o3 : OFS_sta_netmask = 205 := rfl
    rw [slice_eq_iff a b OFS_ap_ip_addr (by omega) (by omega),
      slice_eq_iff a b OFS_sta_ip_addr (by omega) (by omega),
      slice_eq_iff a b OFS_sta_netmask (by omega) (by omega)]
    simp only [List.all_eq_true, List.mem_range, Bool.and_eq_true, beq_iff_eq]
    constructor
    · intro h
      exact ⟨fun i hi => (h i hi).1.1, fun i hi => (h i hi).1.2, fun i hi => (h i hi).2⟩
    · rintro ⟨h1, h2, h3⟩ i hi
      exact ⟨⟨h1 i hi, h2 i hi⟩, h3 i hi⟩
  unfold net_config_structs_eq same_net_config
  rw [ea0, ea1, ea2, ea3, eb0, eb1, eb2, eb3]
  constructor
  · intro h
    split_ifs at h with c0 c1 c2 c3 c4 c5 c6
    exact ⟨⟨not_not.1 c0, not_not.1 c1, not_not.1 c2⟩,
      ⟨not_not.1 c3, not_not.1 c4, not_not.1 c5, not_not.1 c6⟩, hall.1 h⟩
  · rintro ⟨⟨f0, f1, f2⟩, ⟨t0, t1, t2, t3⟩, hadr⟩
    rw [if_neg (not_not.2 f0), if_neg (not_not.2 f1), if_neg (not_not.2 f2),
      if_neg (not_not.2 t0), if_neg (not_not.2 t1), if_neg (not_not.2 t2),
      if_neg (not_not.2 t3)]
    exact hall.2 hadr

/-- State after `cmd_handler_set_wifi` with a Binary payload of length 209 on a ready state,
by the outcome of the comparison. -/
theorem cmd_handler_set_wifi_eq (data : List Nat) (st : CmdState) (hst : CmdReady st) :
    cmd_handler_set_wifi .CMD_DATA_BINARY 209 data st =
      if net_config_structs_eq (stored_net_config st.ps)
          (unpack_net_config st.new_net_config data) = true then
        { st with orig_net_config := stored_net_config st.ps
                  new_net_config := unpack_net_config st.new_net_config data }
      else
        { st with orig_net_config := stored_net_config st.ps
                  new_net_config := unpack_net_config st.new_net_config data
                  ps := (ps_set_config 1 (unpack_net_config st.new_net_config data)
                          st.ps st.hw).2.1
                  hw := (ps_set_config 1 (unpack_net_config st.new_net_config data)
                          st.ps st.hw).2.2
                  ctrl_notify := st.ctrl_notify ||| CTRL_NOTIFY_RESTART_NETWORK } := by
  obtain ⟨hps, _, horig, hnew⟩ := hst
  have hk : (0 : Int) ≤ 1 ∧ (1 : Int) < 3 := by decide
  have hget := ps_get_config_ready 1 st.orig_net_config st.ps hk hps
  have hs2 : slice st.ps.ps_shadow_buffer (region_start 1) (region_length 1) =
    stored_net_config st.ps := rfl
  rw [hs2, storeBytes_zero_of_length_eq _ _
    (by rw [horig, length_stored_net_config st.ps hps]; rfl)] at hget
  unfold cmd_handler_set_wifi
  rw [if_pos ⟨rfl, rfl⟩]
  simp only [PS_CONFIG_TYPE_NET, Nat.cast_one, hget, notify_ctrl]
  cases net_config_structs_eq (stored_net_config st.ps)
    (unpack_net_config st.new_net_config data) <;> simp

/-- C21: on a ready state whose stored network config has terminated text members, and for
a Binary payload of length 209 whose text members are terminated as well,
`cmd_handler_set_wifi` compares the decoded config with the stored one.  When they are equal
(same three flags, same four strings, same three addresses) the storage state is unchanged,
no driver call is made and the notification bits are as before; when they differ in any of
these, the decoded config becomes the stored config, its region is written to the backing
store and the restart-network bit is set. -/
theorem cmd_handler_set_wifi_change (data : List Nat) (st : CmdState) (hst : CmdReady st)
    (hts : net_strings_terminated (stored_net_config st.ps) = true)
    (htd : net_strings_terminated (unpack_net_config st.new_net_config data) = true) :
    (same_net_config (stored_net_config st.ps) (unpack_net_config st.new_net_config data) →
      (cmd_handler_set_wifi .CMD_DATA_BINARY 209 data st).ps = st.ps ∧
      (cmd_handler_set_wifi .CMD_DATA_BINARY 209 data st).hw.log = st.hw.log ∧
      (cmd_handler_set_wifi .CMD_DATA_BINARY 209 data st).ctrl_notify = st.ctrl_notify) ∧
    (¬ same_net_config (stored_net_config st.ps) (unpack_net_config st.new_net_config data) →
      stored_net_config (cmd_handler_set_wifi .CMD_DATA_BINARY 209 data st).ps =
        unpack_net_config st.new_net_config data ∧
      GcoreCall.set_nvram_bytes (region_start 1) (unpack_net_config st.new_net_config data) ∈
        new_calls st.hw (cmd_handler_set_wifi .CMD_DATA_BINARY 209 data st).hw ∧
      (cmd_handler_set_wifi .CMD_DATA_BINARY 209 data st).ctrl_notify =
        st.ctrl_notify ||| CTRL_NOTIFY_RESTART_NETWORK) := by
  have hps := hst.1
  have hnew := hst.2.2.2
  have hiff := net_config_structs_eq_iff (stored_net_config st.ps)
    (unpack_net_config st.new_net_config data) (length_stored_net_config st.ps hps)
    (by rw [length_unpack_net_config, hnew]; rfl) hts htd
  have he := cmd_handler_set_wifi_eq data st hst
  constructor
  · intro hsame
    rw [he, if_pos (hiff.2 hsame)]
    exact ⟨rfl, rfl, rfl⟩
  · intro hdiff
    rw [he, if_neg (fun c => hdiff (hiff.1 c))]
    have hk : (0 : Int) ≤ 1 ∧ (1 : Int) < 3 := by decide
    have hlen : (unpack_net_config st.new_net_config data).length = region_length 1 := by
      rw [length_unpack_net_config, hnew]; rfl
    have hreg := ps_set_config_region 1 _ st.ps st.hw hk hps hlen
    refine ⟨hreg, ?_, rfl⟩
    have hlog := ps_set_config_log 1 (unpack_net_config st.new_net_config data) st.ps st.hw hk
    rw [hps.2.2] at hlog
    change _ = st.hw.log ++ (GcoreCall.set_nvram_bytes (region_start 1)
      (slice _ (region_start 1) (region_length 1)) :: _) at hlog
    rw [hreg] at hlog
    rw [new_calls_of_log _ _ _ hlog]
    exact List.mem_cons_self _ _

/-- Witness of `cmd_handler_set_wifi_change`: on the state holding the sample config, a
payload with another access-point SSID is stored and sets the restart bit, and a payload
that differs only in a byte after a terminator changes nothing. -/
theorem cmd_handler_set_wifi_change_witness :
    CmdReady sample_net_cmd_state ∧
      net_strings_terminated (stored_net_config sample_net_cmd_state.ps) = true ∧
      net_strings_terminated
        (unpack_net_config sample_net_cmd_state.new_net_config sample_other_payload) = true ∧
      ¬ same_net_config (stored_net_config sample_net_cmd_state.ps)
        (unpack_net_config sample_net_cmd_state.new_net_config sample_other_payload) ∧
      (stored_net_config (cmd_handler_set_wifi .CMD_DATA_BINARY 209 sample_other_payload
          sample_net_cmd_state).ps =
          unpack_net_config sample_net_cmd_state.new_net_config sample_other_payload ∧
        GcoreCall.set_nvram_bytes (region_start 1)
            (unpack_net_config sample_net_cmd_state.new_net_config sample_other_payload) ∈
          new_calls sample_net_cmd_state.hw
            (cmd_handler_set_wifi .CMD_DATA_BINARY 209 sample_other_payload
              sample_net_cmd_state).hw ∧
        (cmd_handler_set_wifi .CMD_DATA_BINARY 209 sample_other_payload
          sample_net_cmd_state).ctrl_notify =
          sample_net_cmd_state.ctrl_notify ||| CTRL_NOTIFY_RESTART_NETWORK) ∧
      net_strings_terminated
        (unpack_net_config sample_net_cmd_state.new_net_config sample_same_payload) = true ∧
      same_net_config (stored_net_config sample_net_cmd_state.ps)
        (unpack_net_config sample_net_cmd_state.new_net_config sample_same_payload) ∧
      unpack_net_config sample_net_cmd_state.new_net_config sample_same_payload ≠
        stored_net_config sample_net_cmd_state.ps ∧
      ((cmd_handler_set_wifi .CMD_DATA_BINARY 209 sample_same_payload
          sample_net_cmd_state).ps = sample_net_cmd_state.ps ∧
        (cmd_handler_set_wifi .CMD_DATA_BINARY 209 sample_same_payload
          sample_net_cmd_state).hw.log = sample_net_cmd_state.hw.log ∧
        (cmd_handler_set_wifi .CMD_DATA_BINARY 209 sample_same_payload
          sample_net_cmd_state).ctrl_notify = sample_net_cmd_state.ctrl_notify) :=
  have hts : net_strings_terminated (stored_net_config sample_net_cmd_state.ps) = true := by
    decide
  have hto : net_strings_terminated
      (unpack_net_config sample_net_cmd_state.new_net_config sample_other_payload) = true := by
    decide
  have htm : net_strings_terminated
      (unpack_net_config sample_net_cmd_state.new_net_config sample_same_payload) = true := by
    decide
  have hdiff : ¬ same_net_config (stored_net_config sample_net_cmd_state.ps)
      (unpack_net_config sample_net_cmd_state.new_net_config sample_other_payload) := by
    decide
  have hsame : same_net_config (stored_net_config sample_net_cmd_state.ps)
      (unpack_net_config sample_net_cmd_state.new_net_config sample_same_payload) := by
    decide
  ⟨sample_net_cmd_state_ready, hts, hto, hdiff,
    (cmd_handler_set_wifi_change sample_other_payload sample_net_cmd_state
      sample_net_cmd_state_ready hts hto).2 hdiff,
    htm, hsame, by decide,
    (cmd_handler_set_wifi_change sample_same_payload sample_net_cmd_state
      sample_net_cmd_state_ready hts htm).1 hsame⟩

/-! # The coordinator: what each statement of the loop does -/

theorem _ctrl_handle_notifications_eq (inp : CtrlInput) (st : CtrlState) :
    _ctrl_handle_notifications inp st =
      { st with
        notify_network_restart :=
          st.notify_network_restart || notified inp CTRL_NOTIFY_RESTART_NETWORK
        notify_shutdown := st.notify_shutdown || notified inp CTRL_NOTIFY_SHUTDOWN
        notify_update_backlight :=
          st.notify_update_backlight || notified inp CTRL_NOTIFY_UPD_BACKLIGHT } := by
  cases st
  unfold _ctrl_handle_notifications notified
  cases inp.notification with
  | none => simp
  | some v =>
    simp only
    cases Notification v CTRL_NOTIFY_RESTART_NETWORK <;>
      cases Notification v CTRL_NOTIFY_SHUTDOWN <;>
      cases Notification v CTRL_NOTIFY_UPD_BACKLIGHT <;> simp

theorem ctrl_buttons_eq (inp : CtrlInput) (st : CtrlState) :
    ctrl_buttons inp st =
      { st with
        notify_shutdown := st.notify_shutdown || inp.short_button_pressed
        notify_network_reset := st.notify_network_reset || inp.long_button_pressed
        notify_network_restart := st.notify_network_restart || inp.long_button_pressed } := by
  cases st
  unfold ctrl_buttons
  cases inp.short_button_pressed <;> cases inp.long_button_pressed <;> simp

theorem ctrl_backlight_eq (st : CtrlState) :
    ctrl_backlight st =
      { st with
        notify_update_backlight := false
        gui_config :=
          if st.notify_update_backlight then
            (ps_get_config PS_CONFIG_TYPE_GUI st.gui_config st.ps).2
          else st.gui_config
        events := st.events ++ backlight_events st.notify_update_backlight st.gui_config st.ps } := by
  cases st
  unfold ctrl_backlight backlight_events
  split_ifs <;> simp_all

theorem ctrl_battery_eq (inp : CtrlInput) (st : CtrlState) :
    ctrl_battery inp st =
      { st with
        batt_sample_count :=
          if batt_sampled st then ((CTRL_BATT_SAMPLE_MSEC / CTRL_EVAL_MSEC : Nat) : Int)
          else st.batt_sample_count - 1
        batt_state := if batt_sampled st then inp.batt_state else st.batt_state
        low_batt_msg_displayed :=
          if batt_sampled st then batt_low inp else st.low_batt_msg_displayed
        notify_shutdown :=
          st.notify_shutdown || (batt_sampled st && inp.batt_state == BATT_CRIT)
        events := st.events ++
          battery_events (batt_sampled st) (batt_low inp) st.low_batt_msg_displayed } := by
  cases st
  unfold ctrl_battery battery_events batt_sampled batt_low low_batt_event
  simp only
  split_ifs <;> simp_all <;> (simp only [BATT_25, BATT_CRIT] at *; omega)

theorem ctrl_shutdown_eq (st : CtrlState) :
    ctrl_shutdown st =
      { st with
        hw :=
          if st.notify_shutdown then
            (gcore_set_reg8 st.regs.GCORE_REG_WK_CTRL
              (if st.batt_state = BATT_CRIT then st.regs.GCORE_WK_CHRG_START_MASK else 0)
              (gcore_set_reg8 st.regs.GCORE_REG_PWR_TM 10 st.hw).2).2
          else st.hw
        events := st.events ++
          shutdown_events st.notify_shutdown st.regs
            (if st.batt_state = BATT_CRIT then st.regs.GCORE_WK_CHRG_START_MASK else 0) } := by
  cases st
  unfold ctrl_shutdown shutdown_events shutdown_sequence ctrl_set_reg8
  simp only
  split_ifs <;> simp_all

theorem ctrl_connectivity_eq (inp : CtrlInput) (st : CtrlState) :
    ctrl_connectivity inp st =
      { st with
        prev_wifi_available := wifi_available inp
        events := st.events ++ connectivity_events inp st.prev_wifi_available st.ps } := by
  cases st
  unfold ctrl_connectivity connectivity_events wifi_available wifi_info_events
    _ctrl_display_wifi_info
  simp only
  split_ifs <;> simp_all

theorem ctrl_client_eq (inp : CtrlInput) (st : CtrlState) :
    ctrl_client inp st =
      { st with
        prev_client_connected := inp.web_has_client
        low_batt_msg_displayed := st.low_batt_msg_displayed && !client_edge inp st
        events := st.events ++ client_events inp st.prev_client_connected } := by
  cases st
  unfold ctrl_client client_events client_edge
  simp only
  split_ifs <;> simp_all

theorem ctrl_network_reset_eq (st : CtrlState) :
    ctrl_network_reset st =
      { st with
        ps := if st.notify_network_reset then
                (ps_reinit_config PS_CONFIG_TYPE_NET st.ps st.hw).2.1 else st.ps
        hw := if st.notify_network_reset then
                (ps_reinit_config PS_CONFIG_TYPE_NET st.ps st.hw).2.2 else st.hw
        notify_network_reset := false } := by
  cases st
  unfold ctrl_network_reset
  simp only
  split_ifs <;> simp_all

theorem ctrl_network_restart_eq (inp : CtrlInput) (st : CtrlState) :
    ctrl_network_restart inp st =
      { st with
        prev_wifi_available := st.prev_wifi_available && !st.notify_network_restart
        low_batt_msg_displayed := st.low_batt_msg_displayed && !st.notify_network_restart
        notify_network_restart := false
        events := st.events ++ restart_events inp st.notify_network_restart } := by
  cases st
  unfold ctrl_network_restart restart_events
  simp only
  split_ifs <;> simp_all

/-- The state after the first part of a pass (up to the power-off handling). -/
theorem ctrl_tick_head_eq (inp : CtrlInput) (st : CtrlState) :
    ctrl_tick_head inp st =
      { st with
        notify_network_restart := restart_pending inp st
        notify_network_reset := st.notify_network_reset || inp.long_button_pressed
        notify_shutdown := shutdown_due inp st
        notify_update_backlight := false
        gui_config :=
          if backlight_due inp st then (ps_get_config PS_CONFIG_TYPE_GUI st.gui_config st.ps).2
          else st.gui_config
        batt_sample_count :=
          if batt_sampled st then ((CTRL_BATT_SAMPLE_MSEC / CTRL_EVAL_MSEC : Nat) : Int)
          else st.batt_sample_count - 1
        batt_state := batt_state_held inp st
        low_batt_msg_displayed :=
          if batt_sampled st then batt_low inp else st.low_batt_msg_displayed
        hw :=
          if shutdown_due inp st then
            (gcore_set_reg8 st.regs.GCORE_REG_WK_CTRL (wake_value inp st)
              (gcore_set_reg8 st.regs.GCORE_REG_PWR_TM 10 st.hw).2).2
          else st.hw
        events := st.events ++ head_events inp st } := by
  unfold ctrl_tick_head
  simp only [_ctrl_handle_notifications_eq, ctrl_buttons_eq, ctrl_backlight_eq, ctrl_battery_eq,
    ctrl_shutdown_eq]
  cases st
  simp only [restart_pending, shutdown_due, backlight_due, batt_state_held, wake_value,
    head_events, batt_sampled, List.append_assoc, CtrlState.mk.injEq, and_self, and_true,
    true_and]

/-- The state after the last part of a pass (after the periodic save). -/
theorem ctrl_tick_tail_eq (inp : CtrlInput) (s : CtrlState) :
    ctrl_tick_tail inp s =
      { s with
        prev_wifi_available := wifi_available inp && !s.notify_network_restart
        prev_client_connected := inp.web_has_client
        low_batt_msg_displayed :=
          s.low_batt_msg_displayed && !client_edge inp s && !s.notify_network_restart
        ps := if s.notify_network_reset then
                (ps_reinit_config PS_CONFIG_TYPE_NET s.ps s.hw).2.1 else s.ps
        hw := if s.notify_network_reset then
                (ps_reinit_config PS_CONFIG_TYPE_NET s.ps s.hw).2.2 else s.hw
        notify_network_reset := false
        notify_network_restart := false
        events := s.events ++
          (connectivity_events inp s.prev_wifi_available s.ps ++
            client_events inp s.prev_client_connected ++
            restart_events inp s.notify_network_restart) } := by
  unfold ctrl_tick_tail
  simp only [ctrl_connectivity_eq, ctrl_client_eq, ctrl_network_reset_eq,
    ctrl_network_restart_eq]
  cases s
  simp only [client_edge, List.append_assoc, CtrlState.mk.injEq, and_self, and_true, true_and]

/-- The periodic save changes the save counter, the storage state and the hardware record
only. -/
theorem ctrl_nvram_save_frame (fuel : Nat) (s s2 : CtrlState)
    (h : ctrl_nvram_save fuel s = some s2) :
    ∃ (c : Int) (ps : PsState) (hw : Hw),
      s2 = { s with nvram_save_count := c, ps := ps, hw := hw } := by
  unfold ctrl_nvram_save at h
  simp only at h
  split_ifs at h
  · split at h
    · rename_i ps hps
      exact ⟨_, ps, _, (Option.some.inj h).symm⟩
    · exact absurd h (by simp)
  · exact ⟨_, s.ps, s.hw, (Option.some.inj h).symm⟩

/-- In a pass in which the periodic save is not due, the save statement only counts down. -/
theorem ctrl_nvram_save_idle (fuel : Nat) (s : CtrlState) (h : s.nvram_save_count - 1 ≠ 0) :
    ctrl_nvram_save fuel s = some { s with nvram_save_count := s.nvram_save_count - 1 } := by
  unfold ctrl_nvram_save
  simp only
  rw [if_neg h]

/-- A pass in which the periodic save is not due returns. -/
theorem ctrl_tick_returns (fuel : Nat) (inp : CtrlInput) (st : CtrlState)
    (h : st.nvram_save_count - 1 ≠ 0) : ∃ st2, ctrl_tick fuel inp st = some st2 := by
  have hc : (ctrl_tick_head inp st).nvram_save_count = st.nvram_save_count := by
    rw [ctrl_tick_head_eq]
  unfold ctrl_tick
  rw [ctrl_nvram_save_idle fuel _ (by rw [hc]; exact h)]
  exact ⟨_, rfl⟩

/-- What a pass that returns has done to the variables of the coordinator. -/
theorem ctrl_tick_some (fuel : Nat) (inp : CtrlInput) (st st2 : CtrlState)
    (h : ctrl_tick fuel inp st = some st2) :
    (∃ ps : PsState, st2.events = st.events ++ (head_events inp st ++ tail_events inp st ps)) ∧
    st2.low_batt_msg_displayed =
      ((if batt_sampled st then batt_low inp else st.low_batt_msg_displayed) &&
        !client_edge inp st && !restart_pending inp st) ∧
    st2.prev_wifi_available = (wifi_available inp && !restart_pending inp st) ∧
    st2.prev_client_connected = inp.web_has_client ∧
    st2.notify_shutdown = shutdown_due inp st ∧
    st2.notify_network_restart = false ∧
    st2.batt_state = batt_state_held inp st ∧
    st2.batt_sample_count =
      (if batt_sampled st then ((CTRL_BATT_SAMPLE_MSEC / CTRL_EVAL_MSEC : Nat) : Int)
       else st.batt_sample_count - 1) ∧
    st2.regs = st.regs := by
  unfold ctrl_tick at h
  split at h
  · rename_i s hs
    obtain ⟨c, ps, hw, e⟩ := ctrl_nvram_save_frame fuel _ s hs
    have h2 : st2 = ctrl_tick_tail inp s := (Option.some.inj h).symm
    rw [h2, ctrl_tick_tail_eq, e, ctrl_tick_head_eq]
    refine ⟨⟨ps, ?_⟩, ?_, rfl, rfl, rfl, rfl, rfl, rfl, rfl⟩
    · simp only [tail_events, List.append_assoc]
    · simp only [client_edge]
  · exact absurd h (by simp)

theorem new_events_of_eq (st st2 : CtrlState) (l : List CtrlEvent)
    (e : st2.events = st.events ++ l) : new_events st st2 = l := by
  simp [new_events, e]

/-- C23: a shutdown before the first battery sample.  `power_init` fails, so the first pass
of the loop (nine passes before the first sample) runs the shutdown sequence; the wake-control
value it writes before `power_off` is decided by the uninitialised `batt_status.batt_state`:
the wake-on-charge mask when that memory happens to hold `BATT_CRIT`, and 0 otherwise. -/
theorem ctrl_shutdown_before_first_sample :
    ∀ g : Nat,
      batt_sampled (sample_ctrl_power_fail g) = false ∧
      (ctrl_tick 0 idle_input (sample_ctrl_power_fail g)).map
          (new_events (sample_ctrl_power_fail g)) =
        some (shutdown_sequence sample_regs
          (if g = BATT_CRIT then sample_regs.GCORE_WK_CHRG_START_MASK else 0)) := by
  intro g
  refine ⟨rfl, ?_⟩
  have hn : (sample_ctrl_power_fail g).nvram_save_count - 1 ≠ 0 := by
    show ((CTRL_NVRAM_SAVE_MSEC / CTRL_EVAL_MSEC : Nat) : Int) - 1 ≠ 0
    decide
  obtain ⟨st2, h2⟩ := ctrl_tick_returns 0 idle_input (sample_ctrl_power_fail g) hn
  obtain ⟨⟨ps, he⟩, _⟩ := ctrl_tick_some 0 idle_input _ st2 h2
  rw [h2, Option.map_some', new_events_of_eq _ st2 _ he]
  have e1 : head_events idle_input (sample_ctrl_power_fail g) =
      shutdown_sequence sample_regs
        (if g = BATT_CRIT then sample_regs.GCORE_WK_CHRG_START_MASK else 0) := rfl
  have e2 : tail_events idle_input (sample_ctrl_power_fail g) ps = [] := rfl
  rw [e1, e2, List.append_nil]

theorem power_off_mem_head_events (inp : CtrlInput) (st : CtrlState) :
    CtrlEvent.power_off ∈ head_events inp st ↔ shutdown_due inp st = true := by
  unfold head_events backlight_events battery_events shutdown_events shutdown_sequence
    low_batt_event
  cases shutdown_due inp st <;> split_ifs <;> simp_all

theorem power_off_not_mem_tail_events (inp : CtrlInput) (st : CtrlState) (ps : PsState) :
    CtrlEvent.power_off ∉ tail_events inp st ps := by
  unfold tail_events connectivity_events wifi_info_events client_events restart_events
  split_ifs <;> simp

/-- C24, counterexample: a pass in which the button is pressed long and nothing else happens
does not run the shutdown sequence (it restarts the network, and `notify_shutdown` stays
clear); and after a failed `power_init` the first pass runs the shutdown sequence although
no request bit, button press or critical battery sample has occurred. -/
theorem ctrl_long_press_no_shutdown :
    (ctrl_tick 0 { idle_input with long_button_pressed := true } sample_ctrl_state).map
        (fun s => (new_events sample_ctrl_state s, s.notify_shutdown)) =
      some ([CtrlEvent.gui_set_secondary_msg (cstr "Restarting Wi-Fi...") 2,
             CtrlEvent.notify_gui 2, CtrlEvent.notify_web 1, CtrlEvent.wifi_reinit], false) ∧
      (ctrl_tick 0 idle_input (sample_ctrl_power_fail BATT_100)).map
          (new_events (sample_ctrl_power_fail BATT_100)) =
        some [CtrlEvent.notify_web 2, CtrlEvent.gcore_set_reg8 12 10,
              CtrlEvent.gcore_set_reg8 11 0, CtrlEvent.power_off] := by
  decide

theorem shutdown_sequence_not_mem (inp : CtrlInput) (st : CtrlState) (wk : Nat)
    (e : CtrlEvent) (he : e ∈ shutdown_sequence st.regs wk) :
    e ∉ backlight_events (backlight_due inp st) st.gui_config st.ps ++
      battery_events (batt_sampled st) (batt_low inp) st.low_batt_msg_displayed := by
  simp only [shutdown_sequence, List.mem_cons, List.mem_singleton, List.not_mem_nil,
    or_false] at he
  unfold backlight_events battery_events low_batt_event
  rcases he with rfl | rfl | rfl | rfl <;> split_ifs <;> simp

/-- C24, amended: in every pass, whether or not its periodic save returns, the shutdown
sequence (notify the web task, set the button time and the wake control, power off) is run
if and only if the flag `notify_shutdown` is set when the pass reaches the power-off
handling: it was set when the pass began (a failed `power_init` sets it before the first
pass), or the pass receives the shutdown bit of the command protocol, sees a short press of
the button, or takes a critical battery sample.  A long press is not among the causes.  When
the sequence is run it is the last thing the pass does before the periodic save; when it is
not run, none of its calls is made; and the rest of a pass that returns adds no
`power_off`. -/
theorem ctrl_shutdown_iff (fuel : Nat) (inp : CtrlInput) (st : CtrlState) :
    (CtrlEvent.power_off ∈ new_events st (ctrl_tick_head inp st) ↔
        shutdown_due inp st = true) ∧
      (shutdown_due inp st = true →
        ∃ pre, new_events st (ctrl_tick_head inp st) =
          pre ++ shutdown_sequence st.regs (wake_value inp st)) ∧
      (shutdown_due inp st = false →
        ∀ (wk : Nat) (e : CtrlEvent), e ∈ shutdown_sequence st.regs wk →
          e ∉ new_events st (ctrl_tick_head inp st)) ∧
      (∀ st2 : CtrlState, ctrl_tick fuel inp st = some st2 →
        (CtrlEvent.power_off ∈ new_events st st2 ↔ shutdown_due inp st = true)) ∧
      (∀ (g : Nat) (power_init : Bool) (ps : PsState) (hw : Hw) (regs : GcoreRegs),
        (ctrl_task_init g power_init ps hw regs).notify_shutdown = !power_init) := by
  have hhead : (ctrl_tick_head inp st).events = st.events ++ head_events inp st := by
    rw [ctrl_tick_head_eq]
  rw [new_events_of_eq st _ _ hhead]
  refine ⟨power_off_mem_head_events inp st, fun hd => ?_, fun hd wk e he => ?_,
    fun st2 h => ?_, fun _ _ _ _ _ => rfl⟩
  · exact ⟨backlight_events (backlight_due inp st) st.gui_config st.ps ++
      battery_events (batt_sampled st) (batt_low inp) st.low_batt_msg_displayed,
      by simp only [head_events, shutdown_events, hd, if_true]⟩
  · have := shutdown_sequence_not_mem inp st wk e he
    simpa only [head_events, shutdown_events, hd, Bool.false_eq_true, if_false,
      List.append_nil] using this
  · obtain ⟨⟨ps, he⟩, _⟩ := ctrl_tick_some fuel inp st st2 h
    rw [new_events_of_eq st st2 _ he, List.mem_append, power_off_mem_head_events]
    constructor
    · rintro (c | c)
      · exact c
      · exact absurd c (power_off_not_mem_tail_events inp st ps)
    · exact Or.inl

/-- Witness of `ctrl_shutdown_iff`: a pass with a short press of the button, which stalls in
the periodic save after the shutdown sequence has been run. -/
theorem ctrl_shutdown_iff_witness :
    (ctrl_tick 3 { idle_input with short_button_pressed := true } sample_ctrl_stalling).isSome
        = false ∧
      shutdown_due { idle_input with short_button_pressed := true } sample_ctrl_stalling
        = true ∧
      CtrlEvent.power_off ∈ new_events sample_ctrl_stalling
        (ctrl_tick_head { idle_input with short_button_pressed := true }
          sample_ctrl_stalling) :=
  have hd : shutdown_due { idle_input with short_button_pressed := true } sample_ctrl_stalling
      = true := by decide
  ⟨by decide, hd,
    (ctrl_shutdown_iff 3 { idle_input with short_button_pressed := true }
      sample_ctrl_stalling).1.2 hd⟩

end FauxNixie
